import Mathlib

/-!
# Shopping_App back office: store model and request handlers

A shallow embedding of the Express/Mongoose handlers under `backend/routes` and of the
schemas under `backend/models`.

* The document database is a record of lists, one list per Mongoose model.
* An ObjectId is a natural number; a fresh `_id` is taken from the counter `nextId`.
* A JavaScript `Number` field is an `Int`: the documents of the model hold integers. The
  number that `$inc` writes to productsCount and the totals that the `$sum` accumulators
  of the order statistics report are doubles: they are rounded by `toDouble`.
* `timestamps: true` (createdAt / updatedAt) is left out of the documents.
* A handler returns the new store and the kind of response it sent.  An exception that
  reaches `asyncHandler` (validation error, duplicate key) is the response `thrown`:
  the handler stops there and what it wrote before stays written.
* The setter `trim` removes the white space of `String.prototype.trim`; the case tables
  behind `uppercase` and `lowercase` are a parameter (`CaseMapping`); `maxlength` and
  `minlength` count UTF-16 code units.
* A `Date` is its number of milliseconds since the epoch; where a handler reads the clock,
  the reading is the parameter `now`. Calendar arithmetic on dates is a parameter.
* The save of a new Order or User document, for which the repository has no route, is the
  save of the Mongoose model: validators, pre-save hook, insert under the unique indexes.
-/

namespace ShoppingApp

/-! ## Identifiers, responses, generic collection access -/

/-- Mongo ObjectId. -/
abbrev Id := Nat

/-- Kinds of response a handler sends. -/
inductive Response where
  | ok          -- res.json(...), status 200
  | created     -- res.status(201)
  | badRequest  -- res.status(400)
  | notFound    -- res.status(404)
  | thrown      -- exception handed to the error middleware
  deriving DecidableEq, Repr

/-- Model.findById: the document whose `_id` is `id`. -/
def findById {α : Type} (key : α → Id) (docs : List α) (id : Id) : Option α :=
  docs.find? (fun d => key d == id)

/-- Model.findOneAndUpdate without upsert: the first document matching `p` is replaced
by `f` of it. -/
def updateFirst {α : Type} (p : α → Bool) (f : α → α) : List α → List α
  | [] => []
  | d :: ds => if p d then f d :: ds else d :: updateFirst p f ds

/-- Model.findByIdAndUpdate. -/
def updateById {α : Type} (key : α → Id) (docs : List α) (id : Id) (f : α → α) : List α :=
  updateFirst (fun d => key d == id) f docs

/-! ## String setters and validators of the schemas -/

/-- White space and line terminators of JavaScript: the characters that
`String.prototype.trim` removes at both ends and that the class `\s` of a regular
expression matches. -/
def isRegexSpace (c : Char) : Bool :=
  [9, 10, 11, 12, 13, 32, 160, 5760, 8232, 8233, 8239, 8287, 12288, 65279].contains c.toNat ||
  (decide (8192 ≤ c.toNat) && decide (c.toNat ≤ 8202))

/-- JavaScript `String.prototype.trim`: white space and line terminators (the characters
of the class `\s`) are removed at both ends. -/
def jsTrim (s : String) : String :=
  String.mk ((((s.data.dropWhile isRegexSpace).reverse).dropWhile isRegexSpace).reverse)

/-- Schema option `trim: true`: the setter calls `String.prototype.trim`. -/
def trim (s : String) : String :=
  jsTrim s

/-- The string has ASCII characters only. -/
def isAscii (s : String) : Bool :=
  s.data.all (fun c => decide (c.toNat < 128))

/-- Upper case of the letters `a` to `z`, every other character unchanged. -/
def asciiUpper (s : String) : String :=
  String.mk (s.data.map Char.toUpper)

/-- Lower case of the letters `A` to `Z`, every other character unchanged. -/
def asciiLower (s : String) : String :=
  String.mk (s.data.map Char.toLower)

/-- JavaScript `String.prototype.toUpperCase` and `String.prototype.toLowerCase`. The
Unicode case tables belong to the JavaScript engine, so the two functions are a parameter
of the model; what is known of them here is their value on ASCII strings. -/
class CaseMapping where
  toUpperCase : String → String
  toLowerCase : String → String
  toUpperCase_ascii : ∀ s : String, isAscii s = true → toUpperCase s = asciiUpper s
  toLowerCase_ascii : ∀ s : String, isAscii s = true → toLowerCase s = asciiLower s

/-- Schema option `uppercase: true`: the setter calls `toUpperCase`. -/
def upper [CaseMapping] (s : String) : String :=
  CaseMapping.toUpperCase s

/-- Schema option `lowercase: true`: the setter calls `toLowerCase`. -/
def lower [CaseMapping] (s : String) : String :=
  CaseMapping.toLowerCase s

/-- JavaScript `length` of a string: the number of UTF-16 code units, two for a character
outside the basic plane. -/
def jsLength (s : String) : Nat :=
  (s.data.map (fun c => if c.toNat < 65536 then 1 else 2)).sum

/-- Number of binary digits of `n`, counted with at most `fuel` halvings. -/
def bitLengthAux : Nat → Nat → Nat
  | 0, _ => 0
  | fuel + 1, n => if n = 0 then 0 else bitLengthAux fuel (n / 2) + 1

/-- Number of binary digits of a natural number. -/
def bitLength (n : Nat) : Nat :=
  bitLengthAux n n

/-- Nearest IEEE 754 double of an integer, ties to the even significand (the overflow to
Infinity beyond 2^1024 is left out). Integers up to 2^53 in magnitude are doubles; a
larger one is rounded to 53 significant bits. -/
def toDouble (n : Int) : Int :=
  if n.natAbs ≤ 2 ^ 53 then n
  else
    let e := bitLength n.natAbs - 53
    let q := n.natAbs / 2 ^ e
    let r := n.natAbs % 2 ^ e
    let roundUp := decide (2 ^ (e - 1) < r) || (decide (r = 2 ^ (e - 1)) && decide (q % 2 = 1))
    let m := (if roundUp then q + 1 else q) * 2 ^ e
    if n < 0 then -(m : Int) else (m : Int)

/-- Validator `required` on a string path: present and not empty. -/
def requiredStr : Option String → Bool
  | none => false
  | some s => s.length != 0

/-- Validator `maxlength`. -/
def maxlength (n : Nat) : Option String → Bool
  | none => true
  | some s => jsLength s ≤ n

/-- Validator `enum`. -/
def inEnum (values : List String) : Option String → Bool
  | none => true
  | some s => values.contains s

/-! ## models/Collection.js -/

/-- Collection document. -/
structure Collection where
  id : Id
  name : String
  imageUrl : String
  description : Option String
  isActive : Bool
  productsCount : Int
  deriving DecidableEq, Repr

/-! ## models/Product.js -/

/-- Element of `images`. -/
structure ProductImage where
  color : String
  urls : List String
  deriving DecidableEq, Repr

/-- Product document. -/
structure Product where
  id : Id
  collection : Id
  name : String
  description : String
  type : String
  gender : String
  activity : String
  images : List ProductImage
  availableColors : List String
  availableSizes : List String
  isActive : Bool
  deriving DecidableEq, Repr

/-- The size enumeration shared by Product.availableSizes and ProductQuantity.size. -/
def sizeEnum : List String := ["XS", "S", "M", "L", "XL", "XXL"]

/-! ## models/ProductQuantity.js -/

/-- ProductQuantity document: one variant row. -/
structure ProductQuantity where
  id : Id
  product : Id
  size : String
  color : String
  quantity : Int
  price : Int
  isActive : Bool
  deriving DecidableEq, Repr

/-! ## models/Order.js -/

/-- Element of `items` (orderItemSchema). -/
structure OrderItem where
  productQuantity : Id
  productName : Option String
  productDescription : Option String
  productImageUrl : Option String
  quantity : Int
  price : Int
  size : Option String
  color : Option String
  deriving DecidableEq, Repr

/-- Order document. -/
structure Order where
  id : Id
  user : Id
  orderNumber : String
  items : List OrderItem
  totalMRP : Int
  discountAmount : Int
  finalAmount : Int
  couponCode : Option String
  status : String
  paymentStatus : String
  trackingId : Option String
  deriving DecidableEq, Repr

/-- Enum of `status`. -/
def statusEnum : List String :=
  ["pending", "confirmed", "processing", "shipped", "delivered", "cancelled"]

/-- Enum of `paymentStatus`. -/
def paymentStatusEnum : List String := ["pending", "completed", "failed", "refunded"]

/-! ## models/User.js -/

/-- Embedded address of a user (addressSchema). -/
structure Address where
  line1 : String
  area : String
  city : String
  pincode : String
  deriving DecidableEq, Repr

/-- User document. -/
structure User where
  id : Id
  name : String
  email : String
  mobile : String
  role : String
  address : Option Address
  orderHistory : List Id
  isActive : Bool
  deriving DecidableEq, Repr

/-! ## models/Coupon.js -/

/-- Embedded price condition (priceConditionSchema); `none` is the stored `null`. -/
structure PriceCondition where
  low : Option Int
  high : Option Int
  deriving DecidableEq, Repr

/-- Element of `usedBy`; a Date is its number of milliseconds since the epoch. -/
structure CouponUsage where
  user : Option Id
  usedAt : Int
  deriving DecidableEq, Repr

/-- Coupon document. -/
structure Coupon where
  id : Id
  couponCode : String
  applicable : List Id
  usedBy : List CouponUsage
  priceCondition : Option PriceCondition
  reductionPrice : Int
  reductionPercent : Int
  maxUsage : Int
  isActive : Bool
  expiryDate : Int
  deriving DecidableEq, Repr

/-! ## models/Discount.js -/

/-- Discount document. -/
structure Discount where
  id : Id
  name : String
  products : List Id
  discountPercent : Int
  isActive : Bool
  startDate : Int
  endDate : Int
  description : Option String
  deriving DecidableEq, Repr

/-! ## The store -/

/-- The database: one list of documents per model, and the ObjectId counter. -/
structure Store where
  collections : List Collection
  products : List Product
  quantities : List ProductQuantity
  orders : List Order
  nextId : Nat
  users : List User := []
  coupons : List Coupon := []
  discounts : List Discount := []
  deriving DecidableEq, Repr

/-- The empty database. -/
def Store.empty : Store :=
  { collections := [], products := [], quantities := [], orders := [], nextId := 0 }

/-! ## routes/collectionRoutes.js -/

/-- Body of POST /api/collections: `{ name, imageUrl, description }`. -/
structure CollectionBody where
  name : Option String
  imageUrl : Option String
  description : Option String
  deriving DecidableEq, Repr

/-- Body of PUT /api/collections/:id, handed whole to findByIdAndUpdate; a field that
is absent from the body is `none`. -/
structure CollectionUpdate where
  name : Option String
  imageUrl : Option String
  description : Option String
  isActive : Option Bool
  productsCount : Option Int
  deriving DecidableEq, Repr

/-- Validators of collectionSchema on the paths `name`, `imageUrl`, `description`,
after the `trim` setters. -/
def validateCollection (name imageUrl description : Option String) : Bool :=
  requiredStr name && maxlength 50 name && requiredStr imageUrl && maxlength 200 description

/-- Unique index on `name`: no other document carries the name. -/
def nameIsFree (cs : List Collection) (self : Option Id) (name : String) : Bool :=
  cs.all (fun c => c.name != name || self == some c.id)

/-- Handler router.post('/') of collectionRoutes.js. -/
def createCollection (s : Store) (b : CollectionBody) : Store × Response :=
  let name := b.name.map trim
  let description := b.description.map trim
  if validateCollection name b.imageUrl description then
    match name, b.imageUrl with
    | some n, some img =>
      if nameIsFree s.collections none n then
        ({ s with
            collections := s.collections ++
              [{ id := s.nextId, name := n, imageUrl := img, description := description,
                 isActive := true, productsCount := 0 }],
            nextId := s.nextId + 1 }, Response.created)
      else (s, Response.thrown)
    | _, _ => (s, Response.thrown)
  else (s, Response.thrown)

/-- Update validators (`runValidators: true`) of collectionSchema on the paths present
in the update. -/
def validateCollectionUpdate (name imageUrl description : Option String) : Bool :=
  (name.isNone || requiredStr name) && maxlength 50 name &&
  (imageUrl.isNone || requiredStr imageUrl) && maxlength 200 description

/-- The update document applied to a collection: every path of the body is set; a number
of the JSON body is the double nearest to its numeral. -/
def applyCollectionUpdate (b : CollectionUpdate) (c : Collection) : Collection :=
  { c with
      name := (b.name.map trim).getD c.name,
      imageUrl := b.imageUrl.getD c.imageUrl,
      description := match b.description with
        | some d => some (trim d)
        | none => c.description,
      isActive := b.isActive.getD c.isActive,
      productsCount := (b.productsCount.map toDouble).getD c.productsCount }

/-- Handler router.put('/:id') of collectionRoutes.js. -/
def updateCollection (s : Store) (id : Id) (b : CollectionUpdate) : Store × Response :=
  match findById Collection.id s.collections id with
  | none => (s, Response.notFound)
  | some _ =>
    if validateCollectionUpdate (b.name.map trim) b.imageUrl (b.description.map trim) &&
        (match b.name with
          | some n => nameIsFree s.collections (some id) (trim n)
          | none => true) then
      ({ s with collections := updateById Collection.id s.collections id (applyCollectionUpdate b) },
        Response.ok)
    else (s, Response.thrown)

/-- Query Product.countDocuments({ collection: id }). -/
def countProductsOf (ps : List Product) (id : Id) : Nat :=
  ps.countP (fun p => p.collection == id)

/-- Handler router.delete('/:id') of collectionRoutes.js. -/
def deleteCollection (s : Store) (id : Id) : Store × Response :=
  match findById Collection.id s.collections id with
  | none => (s, Response.notFound)
  | some _ =>
    if countProductsOf s.products id > 0 then (s, Response.badRequest)
    else
      ({ s with collections :=
          updateById Collection.id s.collections id (fun c => { c with isActive := false }) },
        Response.ok)

/-! ## routes/productRoutes.js -/

/-- Body of POST /api/products; an absent path is `none` (an absent array is empty). -/
structure ProductBody where
  collection : Option Id
  name : Option String
  description : Option String
  type : Option String
  gender : Option String
  activity : Option String
  images : List ProductImage
  availableColors : List String
  availableSizes : List String
  deriving DecidableEq, Repr

/-- Validators of the `images` array: `color` and every url are required. -/
def validateImages (images : List ProductImage) : Bool :=
  images.all (fun g => g.color.length != 0 && g.urls.all (fun u => u.length != 0))

/-- Validators of `availableColors` (after the `lowercase` setter). -/
def validateColors (colors : List String) : Bool :=
  colors.all (fun c => c.length != 0)

/-- Validators of `availableSizes` (after the `uppercase` setter). -/
def validateSizes (sizes : List String) : Bool :=
  sizes.all (fun z => z.length != 0 && sizeEnum.contains z)

/-- Validators of productSchema on the scalar paths, after the `trim` setters. -/
def validateProductFields (name description type gender activity : Option String) : Bool :=
  requiredStr name && maxlength 100 name &&
  requiredStr description && maxlength 500 description &&
  requiredStr type && inEnum ["bottom", "top"] type &&
  requiredStr gender && inEnum ["m", "f", "unisex"] gender &&
  requiredStr activity

/-- Document built by Product.create from the body, or `none` when validation fails. -/
def newProduct [CaseMapping] (id collection : Id) (b : ProductBody) : Option Product :=
  match b.name.map trim, b.description.map trim, b.type, b.gender, b.activity.map trim with
  | some name, some description, some type, some gender, some activity =>
    if validateProductFields (some name) (some description) (some type) (some gender)
          (some activity) &&
        validateImages b.images && validateColors (b.availableColors.map lower) &&
        validateSizes (b.availableSizes.map upper) then
      some { id := id, collection := collection, name := name, description := description,
             type := type, gender := gender, activity := activity, images := b.images,
             availableColors := b.availableColors.map lower,
             availableSizes := b.availableSizes.map upper, isActive := true }
    else none
  | _, _, _, _, _ => none

/-- Handler router.post('/') of productRoutes.js. The `$inc` of productsCount is an
addition of doubles. -/
def createProduct [CaseMapping] (s : Store) (b : ProductBody) : Store × Response :=
  match b.collection with
  | none => (s, Response.badRequest)
  | some collection =>
    match findById Collection.id s.collections collection with
    | none => (s, Response.badRequest)
    | some _ =>
      match newProduct s.nextId collection b with
      | none => (s, Response.thrown)
      | some product =>
        ({ s with
            products := s.products ++ [product],
            nextId := s.nextId + 1,
            collections := updateById Collection.id s.collections collection
              (fun c => { c with productsCount := toDouble (c.productsCount + 1) }) },
          Response.created)

/-- Body of PUT /api/products/:id, handed whole to findByIdAndUpdate. -/
structure ProductUpdate where
  collection : Option Id
  name : Option String
  description : Option String
  type : Option String
  gender : Option String
  activity : Option String
  images : Option (List ProductImage)
  availableColors : Option (List String)
  availableSizes : Option (List String)
  isActive : Option Bool
  deriving DecidableEq, Repr

/-- Update validators of productSchema on the paths present in the update. -/
def validateProductUpdate [CaseMapping] (b : ProductUpdate) : Bool :=
  let name := b.name.map trim
  let description := b.description.map trim
  let activity := b.activity.map trim
  (name.isNone || requiredStr name) && maxlength 100 name &&
  (description.isNone || requiredStr description) && maxlength 500 description &&
  (b.type.isNone || requiredStr b.type) && inEnum ["bottom", "top"] b.type &&
  (b.gender.isNone || requiredStr b.gender) && inEnum ["m", "f", "unisex"] b.gender &&
  (activity.isNone || requiredStr activity) &&
  validateImages (b.images.getD []) &&
  validateColors ((b.availableColors.getD []).map lower) &&
  validateSizes ((b.availableSizes.getD []).map upper)

/-- The update document applied to a product: every path of the body is set. -/
def applyProductUpdate [CaseMapping] (b : ProductUpdate) (p : Product) : Product :=
  { p with
      collection := b.collection.getD p.collection,
      name := (b.name.map trim).getD p.name,
      description := (b.description.map trim).getD p.description,
      type := b.type.getD p.type,
      gender := b.gender.getD p.gender,
      activity := (b.activity.map trim).getD p.activity,
      images := b.images.getD p.images,
      availableColors := (b.availableColors.map (List.map lower)).getD p.availableColors,
      availableSizes := (b.availableSizes.map (List.map upper)).getD p.availableSizes,
      isActive := b.isActive.getD p.isActive }

/-- Handler router.put('/:id') of productRoutes.js. -/
def updateProduct [CaseMapping] (s : Store) (id : Id) (b : ProductUpdate) : Store × Response :=
  match findById Product.id s.products id with
  | none => (s, Response.notFound)
  | some _ =>
    if validateProductUpdate b then
      ({ s with products := updateById Product.id s.products id (applyProductUpdate b) },
        Response.ok)
    else (s, Response.thrown)

/-- Handler router.delete('/:id') of productRoutes.js. The `$inc` of productsCount is an
addition of doubles. -/
def deleteProduct (s : Store) (id : Id) : Store × Response :=
  match findById Product.id s.products id with
  | none => (s, Response.notFound)
  | some product =>
    ({ s with
        quantities := s.quantities.filter (fun q => q.product != id),
        products := updateById Product.id s.products id (fun p => { p with isActive := false }),
        collections := updateById Collection.id s.collections product.collection
          (fun c => { c with productsCount := toDouble (c.productsCount - 1) }) },
      Response.ok)

/-- Element of the `quantities` array in the body of PUT /api/products/:id/quantities. -/
structure QuantityEntry where
  size : String
  color : String
  quantity : Int
  price : Int
  deriving DecidableEq, Repr

/-- The filter `{ product, size, color }` of the upsert, cast by the schema setters. -/
def matchesEntry [CaseMapping] (product : Id) (e : QuantityEntry) (q : ProductQuantity) : Bool :=
  q.product == product && q.size == upper e.size && q.color == lower e.color

/-- Update validators on `{ quantity, price }`: both have `min: 0`. -/
def validateEntry (e : QuantityEntry) : Bool :=
  decide (0 ≤ e.quantity) && decide (0 ≤ e.price)

/-- One findOneAndUpdate with `upsert: true`, after its validators passed: the matching
row gets the entry's quantity and price; without a match a row is inserted. -/
def upsertQuantity [CaseMapping] (product : Id) (s : Store) (e : QuantityEntry) : Store :=
  match s.quantities.find? (matchesEntry product e) with
  | some _ =>
    { s with
        quantities := updateFirst (matchesEntry product e)
          (fun q => { q with quantity := e.quantity, price := e.price }) s.quantities }
  | none =>
    { s with
        quantities := s.quantities ++
          [{ id := s.nextId, product := product, size := upper e.size, color := lower e.color,
             quantity := e.quantity, price := e.price, isActive := true }],
        nextId := s.nextId + 1 }

/-- The loop `for (const qty of quantities)`: an entry that fails validation throws and
ends the loop, the entries before it stay applied. -/
def upsertLoop [CaseMapping] (product : Id) : Store → List QuantityEntry → Store × Response
  | s, [] => (s, Response.ok)
  | s, e :: es =>
    if validateEntry e then upsertLoop product (upsertQuantity product s e) es
    else (s, Response.thrown)

/-- Handler router.put('/:id/quantities') of productRoutes.js. -/
def updateProductQuantities [CaseMapping] (s : Store) (id : Id) (quantities : List QuantityEntry) :
    Store × Response :=
  match findById Product.id s.products id with
  | none => (s, Response.notFound)
  | some _ => upsertLoop id s quantities

/-! ## models/Order.js hooks and routes/orderRoutes.js -/

/-- JavaScript `padStart(3, '0')`. -/
def padStart3 (s : String) : String :=
  String.mk (List.replicate (3 - s.length) '0') ++ s

/-- Hook orderSchema.pre('save'): a new document gets its order number from the clock
and the number of stored orders; a loaded document passes through. -/
def orderPreSave (isNew : Bool) (now count : Nat) (o : Order) : Order :=
  if isNew then
    { o with orderNumber := "ORD" ++ toString now ++ padStart3 (toString (count + 1)) }
  else o

/-- Validators of orderSchema and orderItemSchema, run by `save()`. -/
def validateOrder (o : Order) : Bool :=
  o.orderNumber.length != 0 &&
  o.items.all (fun i => decide (1 ≤ i.quantity) && decide (0 ≤ i.price)) &&
  decide (0 ≤ o.totalMRP) && decide (0 ≤ o.discountAmount) && decide (0 ≤ o.finalAmount) &&
  statusEnum.contains o.status && paymentStatusEnum.contains o.paymentStatus

/-- Handler router.put('/:id/status'): `updateData = { status }`, plus `trackingId`
when it is truthy; the update validators check the enum of `status`. -/
def updateOrderStatus (s : Store) (id : Id) (status : String) (trackingId : Option String) :
    Store × Response :=
  match findById Order.id s.orders id with
  | none => (s, Response.notFound)
  | some _ =>
    if statusEnum.contains status then
      ({ s with
          orders := updateById Order.id s.orders id (fun o =>
            { o with
                status := status,
                trackingId := match trackingId with
                  | some t => if t.length != 0 then some t else o.trackingId
                  | none => o.trackingId }) },
        Response.ok)
    else (s, Response.thrown)

/-- Handler router.put('/:id/cancel'): `order.status = 'cancelled'; await order.save()`.
The save runs the pre-save hook and the validators, then writes the modified path. -/
def cancelOrder (s : Store) (now : Nat) (id : Id) : Store × Response :=
  match findById Order.id s.orders id with
  | none => (s, Response.notFound)
  | some order =>
    if ["delivered", "cancelled"].contains order.status then (s, Response.badRequest)
    else
      let order := orderPreSave false now s.orders.length { order with status := "cancelled" }
      if validateOrder order then
        ({ s with
            orders := updateById Order.id s.orders id
              (fun o => { o with status := order.status, orderNumber := order.orderNumber }) },
          Response.ok)
      else (s, Response.thrown)

/-! ## Requests -/

/-- The write requests of the catalog and order routes. -/
inductive Request where
  | createCollection (b : CollectionBody)
  | updateCollection (id : Id) (b : CollectionUpdate)
  | deleteCollection (id : Id)
  | createProduct (b : ProductBody)
  | updateProduct (id : Id) (b : ProductUpdate)
  | deleteProduct (id : Id)
  | updateProductQuantities (id : Id) (quantities : List QuantityEntry)
  | updateOrderStatus (id : Id) (status : String) (trackingId : Option String)
  | cancelOrder (now : Nat) (id : Id)
  deriving DecidableEq, Repr

/-- Dispatch of one request to its handler. -/
def handle [CaseMapping] (s : Store) : Request → Store × Response
  | Request.createCollection b => createCollection s b
  | Request.updateCollection id b => updateCollection s id b
  | Request.deleteCollection id => deleteCollection s id
  | Request.createProduct b => createProduct s b
  | Request.updateProduct id b => updateProduct s id b
  | Request.deleteProduct id => deleteProduct s id
  | Request.updateProductQuantities id quantities => updateProductQuantities s id quantities
  | Request.updateOrderStatus id status trackingId => updateOrderStatus s id status trackingId
  | Request.cancelOrder now id => cancelOrder s now id

/-- The store after a sequence of requests, handled one after the other. -/
def run [CaseMapping] (s : Store) (requests : List Request) : Store :=
  requests.foldl (fun st r => (handle st r).1) s

/-- The responses to a sequence of requests, in order. -/
def responses [CaseMapping] : Store → List Request → List Response
  | _, [] => []
  | s, r :: rs => (handle s r).2 :: responses (handle s r).1 rs

/-- Number of active products that reference a collection. -/
def activeProductsOf (ps : List Product) (id : Id) : Nat :=
  ps.countP (fun p => p.isActive && p.collection == id)

/-! ## Saving a new order (models/Order.js) -/

/-- `Order.create(doc)`, the save of a new document. No route of the repository creates
orders, so this is the save of the model itself: the validators run first, then the
pre-save hook sets the order number from the clock and `countDocuments()`, then the
document is inserted under the unique index on `orderNumber`. `none` when the save
throws. -/
def createOrder [CaseMapping] (s : Store) (now : Nat) (doc : Order) : Option Store :=
  if validateOrder doc then
    let order := orderPreSave true now s.orders.length
      { doc with id := s.nextId, couponCode := doc.couponCode.map upper }
    if s.orders.all (fun o => o.orderNumber != order.orderNumber) then
      some { s with orders := s.orders ++ [order], nextId := s.nextId + 1 }
    else none
  else none

/-- Sequential creation: each save, given with the reading of the clock at its time,
completes before the next one starts; a save that throws stores nothing. -/
def createOrders [CaseMapping] (s : Store) : List (Nat × Order) → Store
  | [] => s
  | (now, doc) :: rest => createOrders ((createOrder s now doc).getD s) rest

/-! ## models/Coupon.js validators and hook, routes/couponRoutes.js -/

/-- Validator `minlength`. -/
def minlength (n : Nat) : Option String → Bool
  | none => true
  | some s => n ≤ jsLength s

/-- Validator `min: 0` on an optional number. -/
def nonNegative : Option Int → Bool
  | none => true
  | some x => decide (0 ≤ x)

/-- Validators of priceConditionSchema. -/
def validatePriceCondition : Option PriceCondition → Bool
  | none => true
  | some pc => nonNegative pc.low && nonNegative pc.high

/-- Validators of couponSchema on a whole document. -/
def validateCoupon (c : Coupon) : Bool :=
  requiredStr (some c.couponCode) && minlength 3 (some c.couponCode) &&
  maxlength 20 (some c.couponCode) &&
  validatePriceCondition c.priceCondition &&
  decide (0 ≤ c.reductionPrice) &&
  decide (0 ≤ c.reductionPercent) && decide (c.reductionPercent ≤ 100) &&
  decide (1 ≤ c.maxUsage)

/-- Hook couponSchema.pre('save'): `true` when the hook lets the save go on. The first
call of `next` decides, so each of the two tests ends the save with its error. -/
def couponPreSave (c : Coupon) : Bool :=
  if c.reductionPrice == 0 && c.reductionPercent == 0 then false
  else if decide (c.reductionPrice > 0) && decide (c.reductionPercent > 0) then false
  else true

/-- Unique index on `couponCode`: no other document carries the code. -/
def couponCodeIsFree (cs : List Coupon) (self : Option Id) (code : String) : Bool :=
  cs.all (fun c => c.couponCode != code || self == some c.id)

/-- Body of POST /api/coupons; an absent path is `none`. -/
structure CouponBody where
  couponCode : Option String
  applicable : Option (List Id)
  priceCondition : Option PriceCondition
  reductionPrice : Option Int
  reductionPercent : Option Int
  maxUsage : Option Int
  expiryDate : Option Int
  deriving DecidableEq, Repr

/-- Query `User.find({ role: 'customer', isActive: true }).select('_id')`. -/
def activeCustomerIds (users : List User) : List Id :=
  (users.filter (fun u => u.role == "customer" && u.isActive)).map User.id

/-- The list `applicableUsers` of the create handler. -/
def applicableUsers (s : Store) (applicable : Option (List Id)) : List Id :=
  match applicable with
  | some (u :: us) => u :: us
  | _ => activeCustomerIds s.users

/-- Document built by Coupon.create from the handler's object (`reductionPrice || 0`,
`reductionPercent || 0`, defaults of the schema), or `none` when validation fails. -/
def newCoupon [CaseMapping] (id : Id) (applicable : List Id) (b : CouponBody) : Option Coupon :=
  match b.couponCode.map (fun code => upper (trim code)), b.expiryDate with
  | some code, some expiryDate =>
    let coupon : Coupon :=
      { id := id, couponCode := code, applicable := applicable, usedBy := [],
        priceCondition := b.priceCondition,
        reductionPrice := b.reductionPrice.getD 0,
        reductionPercent := b.reductionPercent.getD 0,
        maxUsage := b.maxUsage.getD 100, isActive := true, expiryDate := expiryDate }
    if validateCoupon coupon then some coupon else none
  | _, _ => none

/-- Handler router.post('/') of couponRoutes.js. -/
def createCoupon [CaseMapping] (s : Store) (b : CouponBody) : Store × Response :=
  match newCoupon s.nextId (applicableUsers s b.applicable) b with
  | none => (s, Response.thrown)
  | some coupon =>
    if couponPreSave coupon && couponCodeIsFree s.coupons none coupon.couponCode then
      ({ s with coupons := s.coupons ++ [coupon], nextId := s.nextId + 1 }, Response.created)
    else (s, Response.thrown)

/-- Body of PUT /api/coupons/:id, handed whole to findByIdAndUpdate. The keys that are
schema paths are set (`$set`), each `none` when absent. The keys that are update operators
(`$inc`, `$push`, `$mul`, ...) are `operators`: what they make of the matched document
is decided by the database, so they are carried as that function, `none` of it being an
update that the database or the update validators refuse; `operators` is `none` when the
body has no operator key. -/
structure CouponUpdate where
  couponCode : Option String
  applicable : Option (List Id)
  usedBy : Option (List CouponUsage)
  priceCondition : Option PriceCondition
  reductionPrice : Option Int
  reductionPercent : Option Int
  maxUsage : Option Int
  isActive : Option Bool
  expiryDate : Option Int
  operators : Option (Coupon → Option Coupon)

/-- Update validators of couponSchema on the paths present in the update. The pre-save
hook is not run by findByIdAndUpdate. -/
def validateCouponUpdate [CaseMapping] (b : CouponUpdate) : Bool :=
  let code := b.couponCode.map (fun c => upper (trim c))
  (code.isNone || requiredStr code) && minlength 3 code && maxlength 20 code &&
  validatePriceCondition b.priceCondition &&
  nonNegative b.reductionPrice &&
  nonNegative b.reductionPercent &&
  (match b.reductionPercent with
    | some x => decide (x ≤ 100)
    | none => true) &&
  (match b.maxUsage with
    | some x => decide (1 ≤ x)
    | none => true)

/-- The schema paths of the update document applied to a coupon: every path of the body
is set. -/
def applyCouponUpdate [CaseMapping] (b : CouponUpdate) (c : Coupon) : Coupon :=
  { c with
      couponCode := (b.couponCode.map (fun code => upper (trim code))).getD c.couponCode,
      applicable := b.applicable.getD c.applicable,
      usedBy := b.usedBy.getD c.usedBy,
      priceCondition := match b.priceCondition with
        | some pc => some pc
        | none => c.priceCondition,
      reductionPrice := b.reductionPrice.getD c.reductionPrice,
      reductionPercent := b.reductionPercent.getD c.reductionPercent,
      maxUsage := b.maxUsage.getD c.maxUsage,
      isActive := b.isActive.getD c.isActive,
      expiryDate := b.expiryDate.getD c.expiryDate }

/-- Handler router.put('/:id') of couponRoutes.js. -/
def updateCoupon [CaseMapping] (s : Store) (id : Id) (b : CouponUpdate) : Store × Response :=
  match findById Coupon.id s.coupons id with
  | none => (s, Response.notFound)
  | some coupon =>
    if validateCouponUpdate b &&
        (match b.couponCode with
          | some code => couponCodeIsFree s.coupons (some id) (upper (trim code))
          | none => true) then
      match b.operators with
      | none =>
        ({ s with coupons := updateById Coupon.id s.coupons id (applyCouponUpdate b) },
          Response.ok)
      | some operators =>
        match operators (applyCouponUpdate b coupon) with
        | some updated =>
          ({ s with coupons := updateById Coupon.id s.coupons id (fun _ => updated) },
            Response.ok)
        | none => (s, Response.thrown)
    else (s, Response.thrown)

/-- Handler router.delete('/:id') of couponRoutes.js. -/
def deleteCoupon (s : Store) (id : Id) : Store × Response :=
  match findById Coupon.id s.coupons id with
  | none => (s, Response.notFound)
  | some _ =>
    ({ s with
        coupons := updateById Coupon.id s.coupons id (fun c => { c with isActive := false }) },
      Response.ok)

/-- Handler router.patch('/:id/toggle') of couponRoutes.js:
`coupon.isActive = !coupon.isActive; await coupon.save()`. -/
def toggleCoupon (s : Store) (id : Id) : Store × Response :=
  match findById Coupon.id s.coupons id with
  | none => (s, Response.notFound)
  | some coupon =>
    let coupon := { coupon with isActive := !coupon.isActive }
    if validateCoupon coupon && couponPreSave coupon then
      ({ s with
          coupons := updateById Coupon.id s.coupons id
            (fun c => { c with isActive := coupon.isActive }) },
        Response.ok)
    else (s, Response.thrown)

/-- The object `stats` of GET /api/coupons/:id/stats. The path `usagePercentage`, a
floating-point quotient formatted by `toFixed(2)`, is left out. -/
structure CouponStats where
  totalApplicableUsers : Nat
  totalUsed : Nat
  remainingUsage : Int
  isExpired : Bool
  deriving DecidableEq, Repr

/-- Handler router.get('/:id/stats') of couponRoutes.js, with the reading `now` of the
clock; `none` is the 404 response. -/
def getCouponStats (s : Store) (now : Nat) (id : Id) : Option CouponStats :=
  match findById Coupon.id s.coupons id with
  | none => none
  | some coupon =>
    some { totalApplicableUsers := coupon.applicable.length,
           totalUsed := coupon.usedBy.length,
           remainingUsage := coupon.maxUsage - coupon.usedBy.length,
           isExpired := decide (coupon.expiryDate < (now : Int)) }

/-- The write requests of the coupon routes. -/
inductive CouponRequest where
  | create (b : CouponBody)
  | update (id : Id) (b : CouponUpdate)
  | toggle (id : Id)
  | delete (id : Id)

/-- Dispatch of one coupon request to its handler. -/
def handleCoupon [CaseMapping] (s : Store) : CouponRequest → Store × Response
  | CouponRequest.create b => createCoupon s b
  | CouponRequest.update id b => updateCoupon s id b
  | CouponRequest.toggle id => toggleCoupon s id
  | CouponRequest.delete id => deleteCoupon s id

/-- The store after a sequence of coupon requests. -/
def runCoupons [CaseMapping] (s : Store) (requests : List CouponRequest) : Store :=
  requests.foldl (fun st r => (handleCoupon st r).1) s

/-- The responses to a sequence of coupon requests, in order. -/
def couponResponses [CaseMapping] : Store → List CouponRequest → List Response
  | _, [] => []
  | s, r :: rs => (handleCoupon s r).2 :: couponResponses (handleCoupon s r).1 rs

/-! ## models/Discount.js validators and hook, routes/discountRoutes.js -/

/-- Validators of discountSchema on a whole document. -/
def validateDiscount (d : Discount) : Bool :=
  requiredStr (some d.name) && maxlength 100 (some d.name) &&
  decide (0 ≤ d.discountPercent) && decide (d.discountPercent ≤ 90) &&
  maxlength 200 d.description

/-- Hook discountSchema.pre('save'): `true` when the hook lets the save go on. -/
def discountPreSave (d : Discount) : Bool :=
  if decide (d.endDate ≤ d.startDate) then false else true

/-- Body of POST /api/discounts; an absent path is `none`. -/
structure DiscountBody where
  name : Option String
  products : Option (List Id)
  discountPercent : Option Int
  startDate : Option Int
  endDate : Option Int
  description : Option String
  deriving DecidableEq, Repr

/-- Query `Product.find({ isActive: true }).select('_id')`. -/
def activeProductIds (ps : List Product) : List Id :=
  (ps.filter (fun p => p.isActive)).map Product.id

/-- The list `applicableProducts` of the create handler. -/
def applicableProducts (s : Store) (products : Option (List Id)) : List Id :=
  match products with
  | some (p :: ps) => p :: ps
  | _ => activeProductIds s.products

/-- Document built by Discount.create from the handler's object (`startDate` defaults to
the clock), or `none` when validation fails. -/
def newDiscount (id : Id) (products : List Id) (now : Nat) (b : DiscountBody) :
    Option Discount :=
  match b.name.map trim, b.discountPercent, b.endDate with
  | some name, some discountPercent, some endDate =>
    let discount : Discount :=
      { id := id, name := name, products := products, discountPercent := discountPercent,
        isActive := true, startDate := b.startDate.getD (now : Int), endDate := endDate,
        description := b.description.map trim }
    if validateDiscount discount then some discount else none
  | _, _, _ => none

/-- Handler router.post('/') of discountRoutes.js. -/
def createDiscount (s : Store) (now : Nat) (b : DiscountBody) : Store × Response :=
  match newDiscount s.nextId (applicableProducts s b.products) now b with
  | none => (s, Response.thrown)
  | some discount =>
    if discountPreSave discount then
      ({ s with discounts := s.discounts ++ [discount], nextId := s.nextId + 1 },
        Response.created)
    else (s, Response.thrown)

/-- Body of PUT /api/discounts/:id, handed whole to findByIdAndUpdate. -/
structure DiscountUpdate where
  name : Option String
  products : Option (List Id)
  discountPercent : Option Int
  isActive : Option Bool
  startDate : Option Int
  endDate : Option Int
  description : Option String
  deriving DecidableEq, Repr

/-- Update validators of discountSchema on the paths present in the update. The pre-save
hook is not run by findByIdAndUpdate. -/
def validateDiscountUpdate (b : DiscountUpdate) : Bool :=
  let name := b.name.map trim
  (name.isNone || requiredStr name) && maxlength 100 name &&
  (match b.discountPercent with
    | some x => decide (0 ≤ x) && decide (x ≤ 90)
    | none => true) &&
  maxlength 200 (b.description.map trim)

/-- The update document applied to a discount: every path of the body is set. -/
def applyDiscountUpdate (b : DiscountUpdate) (d : Discount) : Discount :=
  { d with
      name := (b.name.map trim).getD d.name,
      products := b.products.getD d.products,
      discountPercent := b.discountPercent.getD d.discountPercent,
      isActive := b.isActive.getD d.isActive,
      startDate := b.startDate.getD d.startDate,
      endDate := b.endDate.getD d.endDate,
      description := match b.description with
        | some text => some (trim text)
        | none => d.description }

/-- Handler router.put('/:id') of discountRoutes.js. -/
def updateDiscount (s : Store) (id : Id) (b : DiscountUpdate) : Store × Response :=
  match findById Discount.id s.discounts id with
  | none => (s, Response.notFound)
  | some _ =>
    if validateDiscountUpdate b then
      ({ s with discounts := updateById Discount.id s.discounts id (applyDiscountUpdate b) },
        Response.ok)
    else (s, Response.thrown)

/-- Handler router.delete('/:id') of discountRoutes.js. -/
def deleteDiscount (s : Store) (id : Id) : Store × Response :=
  match findById Discount.id s.discounts id with
  | none => (s, Response.notFound)
  | some _ =>
    ({ s with
        discounts := updateById Discount.id s.discounts id
          (fun d => { d with isActive := false }) },
      Response.ok)

/-- Handler router.patch('/:id/toggle') of discountRoutes.js:
`discount.isActive = !discount.isActive; await discount.save()`. -/
def toggleDiscount (s : Store) (id : Id) : Store × Response :=
  match findById Discount.id s.discounts id with
  | none => (s, Response.notFound)
  | some discount =>
    let discount := { discount with isActive := !discount.isActive }
    if validateDiscount discount && discountPreSave discount then
      ({ s with
          discounts := updateById Discount.id s.discounts id
            (fun d => { d with isActive := discount.isActive }) },
        Response.ok)
    else (s, Response.thrown)

/-- The write requests of the discount routes. -/
inductive DiscountRequest where
  | create (now : Nat) (b : DiscountBody)
  | update (id : Id) (b : DiscountUpdate)
  | toggle (id : Id)
  | delete (id : Id)
  deriving DecidableEq, Repr

/-- Dispatch of one discount request to its handler. -/
def handleDiscount (s : Store) : DiscountRequest → Store × Response
  | DiscountRequest.create now b => createDiscount s now b
  | DiscountRequest.update id b => updateDiscount s id b
  | DiscountRequest.toggle id => toggleDiscount s id
  | DiscountRequest.delete id => deleteDiscount s id

/-- The store after a sequence of discount requests. -/
def runDiscounts (s : Store) (requests : List DiscountRequest) : Store :=
  requests.foldl (fun st r => (handleDiscount st r).1) s

/-- The responses to a sequence of discount requests, in order. -/
def discountResponses : Store → List DiscountRequest → List Response
  | _, [] => []
  | s, r :: rs => (handleDiscount s r).2 :: discountResponses (handleDiscount s r).1 rs

/-! ## Notions used to state the variant claims -/

/-- The (product, size, color) triple of a variant row: the key of the unique index. -/
def ProductQuantity.triple (q : ProductQuantity) : Id × String × String :=
  (q.product, q.size, q.color)

/-- At most one variant row per (product, size, color) triple. -/
def uniqueTriples (qs : List ProductQuantity) : Prop :=
  (qs.map ProductQuantity.triple).Nodup

instance uniqueTriplesDecidable (qs : List ProductQuantity) : Decidable (uniqueTriples qs) :=
  inferInstanceAs (Decidable (qs.map ProductQuantity.triple).Nodup)

/-- The entries of a batch that the loop applies: those before the first entry that
fails validation. -/
def appliedEntries (quantities : List QuantityEntry) : List QuantityEntry :=
  quantities.takeWhile validateEntry

/-- The entries applied by a sequence of batches, oldest first. -/
def appliedLog : List (List QuantityEntry) → List QuantityEntry
  | [] => []
  | b :: bs => appliedEntries b ++ appliedLog bs

/-- The most recent entry of a log (oldest first) that names the triple of row `q`. -/
def lastEntryFor [CaseMapping] (product : Id) (q : ProductQuantity) : List QuantityEntry → Option QuantityEntry
  | [] => none
  | e :: es =>
    match lastEntryFor product q es with
    | some later => some later
    | none => if matchesEntry product e q then some e else none

/-! ## Invariant and sample data used in the statements below -/

/-- The case mapping that changes the letters `a` to `z` and `A` to `Z` only. The
evaluations on sample data below are made with it: their strings are ASCII, where every
case mapping has its values. -/
instance asciiCase : CaseMapping where
  toUpperCase := asciiUpper
  toLowerCase := asciiLower
  toUpperCase_ascii := fun _ _ => rfl
  toLowerCase_ascii := fun _ _ => rfl

/-- Every variant row references a stored product. -/
def variantsReferenceProducts (s : Store) : Prop :=
  ∀ q ∈ s.quantities, ∃ p ∈ s.products, p.id = q.product

/-- An order as the order routes find it in the store. -/
def sampleOrder (status : String) : Order :=
  { id := 0, user := 7, orderNumber := "ORD1700000000000001",
    items := [{ productQuantity := 3, productName := some "Shirt",
                productDescription := some "Cotton shirt", productImageUrl := none,
                quantity := 1, price := 1000, size := some "S", color := some "red" }],
    totalMRP := 1000, discountAmount := 200, finalAmount := 800, couponCode := some "SAVE20",
    status := status, paymentStatus := "pending", trackingId := none }

/-- A store holding the sample order and nothing else. -/
def orderStore (status : String) : Store :=
  { collections := [], products := [], quantities := [], orders := [sampleOrder status],
    nextId := 1 }

/-- Body `{ name: 'Summer', imageUrl: 'summer.png' }`. -/
def summerBody : CollectionBody :=
  { name := some "Summer", imageUrl := some "summer.png", description := none }

/-- A valid product body referencing a collection. -/
def shirtBody (collection : Id) : ProductBody :=
  { collection := some collection, name := some "Shirt", description := some "Cotton shirt",
    type := some "top", gender := some "unisex", activity := some "casual", images := [],
    availableColors := ["red"], availableSizes := ["S"] }

/-- A store holding the collection Summer and nothing else. -/
def summerStore : Store :=
  (createCollection Store.empty summerBody).1

/-- The store holding Summer and the shirt (id 1), without variant rows. -/
def shirtStore : Store :=
  (createProduct summerStore (shirtBody 0)).1

/-- The Summer store with one shirt (id 1), one trouser (id 2) and a variant row of each. -/
def stockedStore : Store :=
  run Store.empty
    [Request.createCollection summerBody,
     Request.createProduct (shirtBody 0),
     Request.createProduct { shirtBody 0 with name := some "Trouser", type := some "bottom" },
     Request.updateProductQuantities 1 [{ size := "S", color := "red", quantity := 5, price := 999 }],
     Request.updateProductQuantities 2 [{ size := "S", color := "red", quantity := 2, price := 500 }]]

/-- The batch of the scenario `[{S,red,qty:5,price:999},{M,red,qty:0,price:999}]` and the
same batch with other quantities. -/
def scenarioBatches : List (List QuantityEntry) :=
  [[{ size := "S", color := "red", quantity := 5, price := 999 },
    { size := "M", color := "red", quantity := 0, price := 999 }],
   [{ size := "S", color := "red", quantity := 7, price := 999 },
    { size := "M", color := "red", quantity := 3, price := 999 }]]

/-- The paths of a coupon-create body other than reductionPrice and reductionPercent are
valid: the code is present, of 3 to 20 characters after the setters and unused, the
price condition has no negative bound, maxUsage (or its default) is at least 1, and the
expiry date is present. -/
def couponOtherFieldsValid [CaseMapping] (s : Store) (b : CouponBody) : Bool :=
  match b.couponCode.map (fun code => upper (trim code)), b.expiryDate with
  | some code, some _ =>
    requiredStr (some code) && minlength 3 (some code) && maxlength 20 (some code) &&
    validatePriceCondition b.priceCondition && decide (1 ≤ b.maxUsage.getD 100) &&
    couponCodeIsFree s.coupons none code
  | _, _ => false

/-- The request is a coupon update whose body names the path `usedBy` or holds an update
operator. -/
def namesUsedByOrOperator : CouponRequest → Bool
  | CouponRequest.update _ b => b.usedBy.isSome || b.operators.isSome
  | _ => false

/-- Reading of a decimal numeral, used to compare order numbers. -/
def decValue (cs : List Char) : Nat :=
  cs.foldl (fun acc c => 10 * acc + (c.toNat - 48)) 0

/-- The stored order numbers are pairwise different, and the order at position `i` carries
the number built from a clock reading from `times`, not later than `t`, and from
`i + 1`. -/
def orderNumbersInv (times : List Nat) (t : Nat) (s : Store) : Prop :=
  (s.orders.map Order.orderNumber).Nodup ∧
  ∀ (i : Nat) (o : Order), s.orders[i]? = some o →
    ∃ now, now ∈ times ∧ now ≤ t ∧
      o.orderNumber = "ORD" ++ toString now ++ padStart3 (toString (i + 1))

/-- An active customer. -/
def alice : User :=
  { id := 0, name := "Alice", email := "alice@example.com", mobile := "9876543210",
    role := "customer", address := none, orderHistory := [], isActive := true }

/-- A store holding the customer Alice and nothing else. -/
def customerStore : Store :=
  { collections := [], products := [], quantities := [], orders := [], nextId := 1,
    users := [alice] }

/-- The coupon of the scenario: SAVE20, 20 percent, one use, orders from 500. -/
def save20Body : CouponBody :=
  { couponCode := some "save20", applicable := none,
    priceCondition := some { low := some 500, high := none },
    reductionPrice := none, reductionPercent := some 20, maxUsage := some 1,
    expiryDate := some 1800000000000 }

/-- An update body that names no path. -/
def emptyCouponUpdate : CouponUpdate :=
  { couponCode := none, applicable := none, usedBy := none, priceCondition := none,
    reductionPrice := none, reductionPercent := none, maxUsage := none, isActive := none,
    expiryDate := none, operators := none }

/-- A valid discount body: 10 percent from time 100 to time 200 on all products. -/
def saleBody : DiscountBody :=
  { name := some "Sale", products := none, discountPercent := some 10,
    startDate := some 100, endDate := some 200, description := none }

/-- An update body that names no path. -/
def emptyDiscountUpdate : DiscountUpdate :=
  { name := none, products := none, discountPercent := none, isActive := none,
    startDate := none, endDate := none, description := none }

/-- An order document that passes the validators of the Order schema although its
amounts do not add up. -/
def inconsistentOrder : Order :=
  { sampleOrder "pending" with totalMRP := 100, discountAmount := 500, finalAmount := 7 }

/-! ## config/aws.js and routes/uploadRoutes.js -/

/-- The JavaScript values that reach generateS3Key: a form field is a string or is absent
(`undefined`); `null` is the default of the parameters `color` and `filename`. -/
inductive JsValue where
  | undefined
  | null
  | string (s : String)
  deriving DecidableEq, Repr

/-- Text of a value inside a template literal. -/
def templateText : JsValue → String
  | JsValue.undefined => "undefined"
  | JsValue.null => "null"
  | JsValue.string s => s

/-- Default parameter `= null`: it replaces an `undefined` argument. -/
def orNull : JsValue → JsValue
  | JsValue.undefined => JsValue.null
  | v => v

/-- Function generateS3Key of config/aws.js. -/
def generateS3Key (type name color filename : JsValue) : String :=
  if type = JsValue.string "product" then
    "products/" ++ templateText name ++ "/" ++ templateText (orNull color) ++ "/" ++
      templateText (orNull filename)
  else if type = JsValue.string "collection" then
    "collections/" ++ templateText name ++ "/" ++ templateText (orNull filename)
  else
    "misc/" ++ templateText (orNull filename)

/-- Template `${Date.now()}-${file.originalname}` of the upload handlers. -/
def uploadFilename (now : Nat) (originalname : String) : String :=
  toString now ++ "-" ++ originalname

/-- One entry of the `data` of an upload response. -/
structure UploadResult where
  url : String
  key : String
  filename : String
  deriving DecidableEq, Repr

/-- Handler router.post('/single') of uploadRoutes.js for an uploaded file, when the
upload succeeds: the key under which the file is stored, and the response data. `now` is
the reading of the clock, `location` what S3 returns as `result.Location` for a key. -/
def uploadSingle (location : String → String) (type name color : JsValue) (now : Nat)
    (originalname : String) : String × UploadResult :=
  let filename := uploadFilename now originalname
  let key := generateS3Key type name color (JsValue.string filename)
  (key, { url := location key, key := key, filename := originalname })

/-- A file of a multiple upload, with the readings of the clock at the two evaluations of
`Date.now()` made for it: in the loop that stores it and in the `map` that builds the
response. -/
structure UploadedFile where
  originalname : String
  storedAt : Nat
  reportedAt : Nat
  deriving DecidableEq, Repr

/-- Handler router.post('/multiple') of uploadRoutes.js, when all uploads succeed: the
keys under which the files are stored, and the response data. -/
def uploadMultiple (location : String → String) (type name color : JsValue)
    (files : List UploadedFile) : List String × List UploadResult :=
  let keys := files.map (fun file =>
    generateS3Key type name color (JsValue.string (uploadFilename file.storedAt file.originalname)))
  (keys,
   (List.zip keys files).map (fun kf =>
    { url := location kf.1,
      key := generateS3Key type name color
        (JsValue.string (uploadFilename kf.2.reportedAt kf.2.originalname)),
      filename := kf.2.originalname }))

/-- Location that S3 reports for a key in the evaluations below. -/
def sampleLocation (key : String) : String :=
  "https://bucket.s3.amazonaws.com/" ++ key

/-! ## models/User.js validators, routes/userRoutes.js -/

/-- The class `\d` of a JavaScript regular expression. -/
def isRegexDigit (c : Char) : Bool :=
  decide ('0'.toNat ≤ c.toNat) && decide (c.toNat ≤ '9'.toNat)

/-- Regular expression `/^\S+@\S+\.\S+$/` of `email`: no whitespace anywhere, an `@` after
at least one character, and a later `.` with at least one character on each side. -/
def matchesEmail (s : String) : Bool :=
  s.data.all (fun c => !isRegexSpace c) &&
  (List.range s.data.length).any (fun i =>
    decide (1 ≤ i) && s.data[i]? == some '@' &&
    (List.range s.data.length).any (fun j =>
      decide (i + 2 ≤ j) && decide (j + 2 ≤ s.data.length) && s.data[j]? == some '.'))

/-- Regular expression `/^[6-9]\d{9}$/` of `mobile`. -/
def matchesMobile (s : String) : Bool :=
  match s.data with
  | c :: rest =>
    decide ('6'.toNat ≤ c.toNat) && decide (c.toNat ≤ '9'.toNat) &&
    decide (rest.length = 9) && rest.all isRegexDigit
  | [] => false

/-- Regular expression `/^[1-9][0-9]{5}$/` of `pincode`. -/
def matchesPincode (s : String) : Bool :=
  match s.data with
  | c :: rest =>
    decide ('1'.toNat ≤ c.toNat) && decide (c.toNat ≤ '9'.toNat) &&
    decide (rest.length = 5) && rest.all isRegexDigit
  | [] => false

/-- Validators of addressSchema, after the `trim` setters. -/
def validateAddress : Option Address → Bool
  | none => true
  | some a =>
    a.line1.length != 0 && a.area.length != 0 && a.city.length != 0 &&
    a.pincode.length != 0 && matchesPincode a.pincode

/-- Validators of userSchema on a whole document. -/
def validateUser (u : User) : Bool :=
  requiredStr (some u.name) && maxlength 50 (some u.name) &&
  requiredStr (some u.email) && matchesEmail u.email &&
  requiredStr (some u.mobile) && matchesMobile u.mobile &&
  inEnum ["customer", "owner"] (some u.role) &&
  validateAddress u.address

/-- Unique index on `email` (the only unique path of userSchema): no other document
carries the email. -/
def emailIsFree (us : List User) (email : String) : Bool :=
  us.all (fun u => u.email != email)

/-- The object handed to `User.create`; an absent path is `none`. -/
structure UserBody where
  name : Option String
  email : Option String
  mobile : Option String
  role : Option String
  address : Option Address
  deriving DecidableEq, Repr

/-- Document built from the object by the setters and defaults of userSchema. -/
def newUser [CaseMapping] (id : Id) (b : UserBody) : Option User :=
  match b.name.map trim, b.email.map lower, b.mobile with
  | some name, some email, some mobile =>
    let user : User :=
      { id := id, name := name, email := email, mobile := mobile,
        role := b.role.getD "customer",
        address := b.address.map (fun a =>
          { line1 := trim a.line1, area := trim a.area, city := trim a.city,
            pincode := a.pincode }),
        orderHistory := [], isActive := true }
    if validateUser user then some user else none
  | _, _, _ => none

/-- `User.create(doc)`, the save of a new document. No route of the repository creates
users, so this is the save of the model itself: setters and validators, then the insert
under the unique index on `email`. `none` when the save throws. -/
def createUser [CaseMapping] (s : Store) (b : UserBody) : Option Store :=
  match newUser s.nextId b with
  | none => none
  | some user =>
    if emailIsFree s.users user.email then
      some { s with users := s.users ++ [user], nextId := s.nextId + 1 }
    else none

/-- Handler router.get('/customers/:id') of userRoutes.js; the populated order history
is left out of the response data. -/
def getCustomer (s : Store) (id : Id) : Response × Option User :=
  match findById User.id s.users id with
  | none => (Response.notFound, none)
  | some customer => (Response.ok, some customer)

/-- Handler router.patch('/customers/:id/status') of userRoutes.js:
`customer.isActive = isActive; await customer.save()`. -/
def updateCustomerStatus (s : Store) (id : Id) (isActive : Bool) : Store × Response :=
  match findById User.id s.users id with
  | none => (s, Response.notFound)
  | some customer =>
    if validateUser { customer with isActive := isActive } then
      ({ s with
          users := updateById User.id s.users id (fun u => { u with isActive := isActive }) },
        Response.ok)
    else (s, Response.thrown)

/-! ## Read handlers by id -/

/-- Handler router.get('/:id') of collectionRoutes.js. -/
def getCollection (s : Store) (id : Id) : Response × Option Collection :=
  match findById Collection.id s.collections id with
  | none => (Response.notFound, none)
  | some collection => (Response.ok, some collection)

/-- Handler router.get('/:id') of productRoutes.js: the product, its populated
collection and its variant rows. -/
def getProduct (s : Store) (id : Id) :
    Response × Option (Product × Option Collection × List ProductQuantity) :=
  match findById Product.id s.products id with
  | none => (Response.notFound, none)
  | some product =>
    (Response.ok,
     some (product, findById Collection.id s.collections product.collection,
       s.quantities.filter (fun q => q.product == id)))

/-- Handler router.get('/:id/quantities') of productRoutes.js: the active variant rows of
the product id; the product itself is not looked up. -/
def getProductQuantities (s : Store) (id : Id) : Response × List ProductQuantity :=
  (Response.ok, s.quantities.filter (fun q => q.product == id && q.isActive))

/-- Handler router.get('/:id') of orderRoutes.js: the order and its populated user. -/
def getOrder (s : Store) (id : Id) : Response × Option (Order × Option User) :=
  match findById Order.id s.orders id with
  | none => (Response.notFound, none)
  | some order => (Response.ok, some (order, findById User.id s.users order.user))

/-- Handler router.get('/:id') of couponRoutes.js; the populated users are left out of
the response data. -/
def getCoupon (s : Store) (id : Id) : Response × Option Coupon :=
  match findById Coupon.id s.coupons id with
  | none => (Response.notFound, none)
  | some coupon => (Response.ok, some coupon)

/-- Handler router.get('/:id') of discountRoutes.js; the populated products are left out
of the response data. -/
def getDiscount (s : Store) (id : Id) : Response × Option Discount :=
  match findById Discount.id s.discounts id with
  | none => (Response.notFound, none)
  | some discount => (Response.ok, some discount)

/-- A second customer with the mobile number of Alice and an email of his own. -/
def bobBody : UserBody :=
  { name := some "Bob", email := some "Bob@Example.com", mobile := some "9876543210",
    role := none, address := none }

/-! ## frontend/src/pages/AddProduct.tsx: the payload of onSubmit -/

/-- The condition `value.trim()`: a string is truthy when it is not empty. -/
def trimmedTruthy (s : String) : Bool :=
  (jsTrim s).length != 0

/-- The values of the add-product form handed to onSubmit. -/
structure ProductForm where
  name : String
  description : String
  collection : String
  type : String
  gender : String
  activity : String
  availableColors : List String
  availableSizes : List String
  images : List ProductImage
  deriving DecidableEq, Repr

/-- The object `cleanedData` built by onSubmit and sent to the product-create request. -/
def cleanedData (data : ProductForm) : ProductForm :=
  { data with
      availableColors := data.availableColors.filter (fun color => trimmedTruthy color),
      availableSizes := data.availableSizes.filter (fun size => trimmedTruthy size),
      images := (data.images.filter (fun img =>
          trimmedTruthy img.color && img.urls.any (fun url => trimmedTruthy url))).map
        (fun img => { img with urls := img.urls.filter (fun url => trimmedTruthy url) }) }

/-- A string is blank: empty or made of whitespace only. -/
def isBlank (s : String) : Prop :=
  ∀ c ∈ s.data, isRegexSpace c = true

instance isBlankDecidable (s : String) : Decidable (isBlank s) :=
  inferInstanceAs (Decidable (∀ c ∈ s.data, isRegexSpace c = true))

/-- The cleaned payload in the words of the claim: the non-blank colors and sizes in their
order; the image groups whose color is not blank and that have a non-blank URL, in their
order, each with its non-blank URLs in their order; all other fields as they are. -/
def cleanedPayloadSpec (data : ProductForm) : ProductForm :=
  { data with
      availableColors := data.availableColors.filter (fun color => decide (¬ isBlank color)),
      availableSizes := data.availableSizes.filter (fun size => decide (¬ isBlank size)),
      images := (data.images.filter (fun img =>
          decide (¬ isBlank img.color ∧ ∃ url ∈ img.urls, ¬ isBlank url))).map
        (fun img => { color := img.color,
                      urls := img.urls.filter (fun url => decide (¬ isBlank url)) }) }

/-- The form as the page opens it, with one color typed in and blank rows left over. -/
def sampleForm : ProductForm :=
  { name := "Shirt", description := "Cotton shirt", collection := "0", type := "top",
    gender := "m", activity := "casual",
    availableColors := ["red", "  ", ""], availableSizes := ["M", " "],
    images := [{ color := "red", urls := ["a.png", " "] }, { color := "", urls := ["b.png"] },
               { color := "blue", urls := ["", "  "] }] }

/-! ## routes/analyticsRoutes.js -/

/-- Row of the top-products result; `name` is the `_id` of the group, the product name of
its line items (`none` for line items without a name). -/
structure TopProduct where
  name : Option String
  totalSold : Int
  totalRevenue : Int
  deriving DecidableEq, Repr

/-- Stage `{ $unwind: '$items' }`: one document per line item. -/
def unwindItems (orders : List Order) : List OrderItem :=
  orders.flatMap (fun o => o.items)

/-- Stage `$group` by `$items.product.name`, with `$sum` of the quantity and of
quantity times price. -/
def groupByProductName (items : List OrderItem) : List TopProduct :=
  ((items.map OrderItem.productName).dedup).map (fun name =>
    { name := name,
      totalSold := ((items.filter (fun i => i.productName == name)).map
        (fun i => i.quantity)).sum,
      totalRevenue := ((items.filter (fun i => i.productName == name)).map
        (fun i => i.quantity * i.price)).sum })

/-- Order of `{ $sort: { totalSold: -1 } }`: the first row sold at least as much. -/
def soldAtLeast (a b : TopProduct) : Prop :=
  b.totalSold ≤ a.totalSold

instance soldAtLeastDecidable : DecidableRel soldAtLeast :=
  fun a b => inferInstanceAs (Decidable (b.totalSold ≤ a.totalSold))

instance soldAtLeastTotal : IsTotal TopProduct soldAtLeast :=
  ⟨fun a b => le_total b.totalSold a.totalSold⟩

instance soldAtLeastTrans : IsTrans TopProduct soldAtLeast :=
  ⟨fun _ _ _ hab hbc => le_trans hbc hab⟩

/-- Handler router.get('/top-products') of analyticsRoutes.js: unwind, group, sort by
totalSold descending (rows with equal totalSold in the order of the groups, one of the
orders the database may give), limit 10. -/
def getTopProducts (s : Store) : List TopProduct :=
  ((groupByProductName (unwindItems s.orders)).insertionSort soldAtLeast).take 10

/-- The `Date` arithmetic used by the order statistics: local midnight of the day and of
the first day of the month of an instant (`new Date(y, m, d)`), and the year, month and
day of month of an instant (`$year`, `$month`, `$dayOfMonth`). -/
structure Calendar where
  startOfDay : Int → Int
  startOfMonth : Int → Int
  dayOf : Int → Nat × Nat × Nat

/-- The `switch (period)` that builds `dateFilter`, applied to a `createdAt`. -/
def dateFilter (cal : Calendar) (now : Int) (period : String) (createdAt : Int) : Bool :=
  if period = "day" then decide (cal.startOfDay now ≤ createdAt)
  else if period = "week" then decide (now - 7 * 24 * 60 * 60 * 1000 ≤ createdAt)
  else if period = "month" then decide (cal.startOfMonth now ≤ createdAt)
  else true

/-- Row of `ordersByStatus`. -/
structure StatusGroup where
  status : String
  count : Nat
  totalAmount : Int
  deriving DecidableEq, Repr

/-- Row of `dailyOrders`. -/
structure DayGroup where
  day : Nat × Nat × Nat
  count : Nat
  revenue : Int
  deriving DecidableEq, Repr

/-- The object `totalStats`. -/
structure TotalStats where
  totalOrders : Nat
  totalRevenue : Int
  averageOrderValue : Rat
  deriving DecidableEq, Repr

/-- The `data` of the order-stats response. -/
structure OrderStats where
  ordersByStatus : List StatusGroup
  dailyOrders : List DayGroup
  totalStats : TotalStats
  period : String
  deriving DecidableEq, Repr

/-- Order of `{ $sort: { '_id.year': 1, '_id.month': 1, '_id.day': 1 } }`. -/
def dayNotAfter (a b : DayGroup) : Prop :=
  a.day.1 < b.day.1 ∨ (a.day.1 = b.day.1 ∧
    (a.day.2.1 < b.day.2.1 ∨ (a.day.2.1 = b.day.2.1 ∧ a.day.2.2 ≤ b.day.2.2)))

instance dayNotAfterDecidable : DecidableRel dayNotAfter :=
  fun a b => inferInstanceAs (Decidable (a.day.1 < b.day.1 ∨ (a.day.1 = b.day.1 ∧
    (a.day.2.1 < b.day.2.1 ∨ (a.day.2.1 = b.day.2.1 ∧ a.day.2.2 ≤ b.day.2.2)))))

/-- Accumulator `$sum` over Number values: the values are added as doubles, starting from
0, in the order of the documents. -/
def sumNumbers (amounts : List Int) : Int :=
  amounts.foldl (fun total amount => toDouble (total + amount)) 0

/-- Handler router.get('/orders-stats') of analyticsRoutes.js. `createdAt` gives the
creation timestamp that `timestamps: true` keeps with each order, `now` is the reading of
the clock, `period` the query parameter (default `week`); `average` is the accumulator
`$avg`, a floating-point quotient, on the amounts of a group that is not empty. -/
def getOrdersStats (cal : Calendar) (average : List Int → Rat) (createdAt : Order → Int)
    (s : Store) (now : Int) (period : Option String) : OrderStats :=
  let period := period.getD "week"
  let matched := s.orders.filter (fun o => dateFilter cal now period (createdAt o))
  { ordersByStatus := ((matched.map Order.status).dedup).map (fun status =>
      { status := status,
        count := (matched.filter (fun o => o.status == status)).length,
        totalAmount := sumNumbers ((matched.filter (fun o => o.status == status)).map
          Order.finalAmount) }),
    dailyOrders := (((matched.map (fun o => cal.dayOf (createdAt o))).dedup).map (fun day =>
      { day := day,
        count := (matched.filter (fun o => cal.dayOf (createdAt o) == day)).length,
        revenue := sumNumbers ((matched.filter (fun o => cal.dayOf (createdAt o) == day)).map
          Order.finalAmount) })).insertionSort dayNotAfter,
    totalStats := match matched with
      | [] => { totalOrders := 0, totalRevenue := 0, averageOrderValue := 0 }
      | _ :: _ =>
        { totalOrders := matched.length,
          totalRevenue := sumNumbers (matched.map Order.finalAmount),
          averageOrderValue := average (matched.map Order.finalAmount) },
    period := period }

/-- The calendar of January 1970 in UTC, for the evaluations below. -/
def january1970 : Calendar :=
  { startOfDay := fun t => t - t % 86400000,
    startOfMonth := fun _ => 0,
    dayOf := fun t => (1970, 1, (t / 86400000).toNat + 1) }

/-- A store with three orders: two line items named Shirt and one named Cap. -/
def salesStore : Store :=
  { collections := [], products := [], quantities := [],
    orders :=
      [{ sampleOrder "pending" with id := 0 },
       { sampleOrder "delivered" with
           id := 1, orderNumber := "ORD1700000000001002", finalAmount := 500,
           items := [{ productQuantity := 3, productName := some "Shirt",
                       productDescription := none, productImageUrl := none,
                       quantity := 2, price := 1000, size := none, color := none },
                     { productQuantity := 4, productName := some "Cap",
                       productDescription := none, productImageUrl := none,
                       quantity := 5, price := 100, size := none, color := none }] }],
    nextId := 2 }

/-- Six orders in three statuses, each status with one order of amount 1 and one of
amount 2^53. -/
def roundingStore : Store :=
  { collections := [], products := [], quantities := [],
    orders :=
      [{ sampleOrder "pending" with id := 0, finalAmount := 1 },
       { sampleOrder "confirmed" with id := 1, finalAmount := 1 },
       { sampleOrder "shipped" with id := 2, finalAmount := 1 },
       { sampleOrder "pending" with id := 3, finalAmount := 9007199254740992 },
       { sampleOrder "confirmed" with id := 4, finalAmount := 9007199254740992 },
       { sampleOrder "shipped" with id := 5, finalAmount := 9007199254740992 }],
    nextId := 6 }

/-- The exact quotient, standing for `$avg` in the evaluations below. -/
def exactAverage (amounts : List Int) : Rat :=
  (amounts.sum : Rat) / amounts.length

/-! ## Lemmas on findById and updateFirst -/

theorem findById_updateById_same {α : Type} (key : α → Id) (f : α → α)
    (hkey : ∀ x, key (f x) = key x) (docs : List α) (id : Id) :
    findById key (updateById key docs id f) id = (findById key docs id).map f := by
  unfold findById updateById
  induction docs with
  | nil => simp [updateFirst]
  | cons d ds ih =>
    by_cases h : key d = id
    · simp [updateFirst, List.find?_cons, h, hkey]
    · simp [updateFirst, List.find?_cons, h, ih]

theorem findById_updateById_ne {α : Type} (key : α → Id) (f : α → α)
    (hkey : ∀ x, key (f x) = key x) (docs : List α) (id other : Id) (hne : other ≠ id) :
    findById key (updateById key docs id f) other = findById key docs other := by
  unfold findById updateById
  induction docs with
  | nil => simp [updateFirst]
  | cons d ds ih =>
    by_cases h : key d = id
    · have h2 : ¬ key d = other := fun e => hne (e.symm.trans h)
      simp [updateFirst, List.find?_cons, h, hkey, hne.symm]
    · by_cases h3 : key d = other
      · have h4 : (key d == id) = false := by simpa using h
        have h5 : (key d == other) = true := by simpa using h3
        simp only [updateFirst, h4, List.find?_cons, h5]
        simp [h3]
      · simp [updateFirst, List.find?_cons, h, h3, ih]

theorem length_updateFirst {α : Type} (p : α → Bool) (f : α → α) (docs : List α) :
    (updateFirst p f docs).length = docs.length := by
  induction docs with
  | nil => rfl
  | cons d ds ih =>
    by_cases h : p d = true
    · simp [updateFirst, h]
    · simp [updateFirst, h, ih]

theorem map_updateFirst {α β : Type} (p : α → Bool) (f : α → α) (g : α → β)
    (hg : ∀ x, g (f x) = g x) (docs : List α) :
    (updateFirst p f docs).map g = docs.map g := by
  induction docs with
  | nil => rfl
  | cons d ds ih =>
    by_cases h : p d = true
    · simp [updateFirst, h, hg]
    · simp [updateFirst, h, ih]

/-- A document that the filter does not match keeps its place and its content. -/
theorem getElem?_updateFirst_of_not {α : Type} (p : α → Bool) (f : α → α) (docs : List α)
    (i : Nat) (x : α) (hx : docs[i]? = some x) (hp : p x = false) :
    (updateFirst p f docs)[i]? = some x := by
  induction docs generalizing i with
  | nil => simp at hx
  | cons d ds ih =>
    cases i with
    | zero =>
      simp at hx
      subst hx
      simp [updateFirst, hp]
    | succ j =>
      simp at hx
      by_cases h : p d = true
      · simp [updateFirst, h, hx]
      · simp [updateFirst, h, ih j hx]

theorem mem_updateFirst_of_not {α : Type} (p : α → Bool) (f : α → α) (docs : List α)
    (x : α) (hx : x ∈ docs) (hp : p x = false) : x ∈ updateFirst p f docs := by
  obtain ⟨i, hi⟩ := List.getElem?_of_mem hx
  exact List.getElem?_mem (getElem?_updateFirst_of_not p f docs i x hi hp)

theorem mem_updateFirst {α : Type} (p : α → Bool) (f : α → α) (docs : List α) (q : α)
    (hq : q ∈ updateFirst p f docs) : q ∈ docs ∨ ∃ x ∈ docs, q = f x := by
  induction docs with
  | nil => simp [updateFirst] at hq
  | cons d ds ih =>
    by_cases h : p d = true
    · simp only [updateFirst, h, if_true, List.mem_cons] at hq
      rcases hq with hq | hq
      · exact Or.inr ⟨d, by simp, hq⟩
      · exact Or.inl (by simp [hq])
    · have hfalse : p d = false := by simpa using h
      simp only [updateFirst, hfalse, Bool.false_eq_true, if_false, List.mem_cons] at hq
      rcases hq with hq | hq
      · exact Or.inl (by simp [hq])
      · rcases ih hq with h1 | ⟨x, hx, hqx⟩
        · exact Or.inl (by simp [h1])
        · exact Or.inr ⟨x, by simp [hx], hqx⟩

/-- Under a unique key, a row of the updated list is either the rewritten match or an
unmatched row of the old list. -/
theorem mem_updateFirst_unique {α β : Type} (p : α → Bool) (f : α → α) (t : α → β) (key : β)
    (hp : ∀ x, p x = true ↔ t x = key) (docs : List α) (hu : (docs.map t).Nodup)
    (q : α) (hq : q ∈ updateFirst p f docs) :
    (∃ x ∈ docs, p x = true ∧ q = f x) ∨ (p q = false ∧ q ∈ docs) := by
  induction docs with
  | nil => simp [updateFirst] at hq
  | cons d ds ih =>
    have hu2 : t d ∉ ds.map t ∧ (ds.map t).Nodup := by simpa using hu
    by_cases h : p d = true
    · simp only [updateFirst, h, if_true, List.mem_cons] at hq
      rcases hq with hq | hq
      · exact Or.inl ⟨d, by simp, h, hq⟩
      · right
        refine ⟨?_, by simp [hq]⟩
        by_contra hpq
        have hpq2 : p q = true := by simpa using hpq
        have e1 : t q = t d := ((hp q).mp hpq2).trans ((hp d).mp h).symm
        exact hu2.1 (e1 ▸ List.mem_map_of_mem t hq)
    · have hfalse : p d = false := by simpa using h
      simp only [updateFirst, hfalse, List.mem_cons] at hq
      simp only [Bool.false_eq_true, if_false, List.mem_cons] at hq
      rcases hq with hq | hq
      · exact Or.inr ⟨hq ▸ hfalse, by simp [hq]⟩
      · rcases ih hu2.2 hq with ⟨x, hx, hpx, hqx⟩ | ⟨hpq, hmem⟩
        · exact Or.inl ⟨x, by simp [hx], hpx, hqx⟩
        · exact Or.inr ⟨hpq, by simp [hmem]⟩

/-- An integer of magnitude at most 2^53 is a double. -/
theorem toDouble_of_natAbs_le (n : Int) (h : n.natAbs ≤ 2 ^ 53) : toDouble n = n := by
  unfold toDouble
  rw [if_pos h]

/-! ## C1: the cached count after product create / delete -/

/-- C1 (evaluation at the failing input): from the empty store, creating the collection
Summer, creating one product in it and deleting that product twice are all answered with
success, and leave the collection with productsCount = -1 while no active product
references it. -/
theorem productsCount_after_double_delete :
    responses Store.empty
        [Request.createCollection summerBody, Request.createProduct (shirtBody 0),
         Request.deleteProduct 1, Request.deleteProduct 1]
      = [Response.created, Response.created, Response.ok, Response.ok] ∧
    (findById Collection.id
        (run Store.empty
          [Request.createCollection summerBody, Request.createProduct (shirtBody 0),
           Request.deleteProduct 1, Request.deleteProduct 1]).collections 0).map
        Collection.productsCount = some (-1) ∧
    activeProductsOf
        (run Store.empty
          [Request.createCollection summerBody, Request.createProduct (shirtBody 0),
           Request.deleteProduct 1, Request.deleteProduct 1]).products 0 = 0 := by
  decide

/-! ## C2: product creation -/

/-- C2 (counterexample): the collection id 0 of the request resolves to a stored
collection, yet a body without a name adds no product and leaves productsCount at 0. And
with the productsCount of Summer set to 2^53 by a collection update, a valid
product-create request is answered 201 and leaves productsCount at 2^53. -/
theorem createProduct_invalid_body_adds_nothing :
    (findById Collection.id summerStore.collections 0).isSome = true ∧
    ¬ ((createProduct summerStore { shirtBody 0 with name := none }).1.products.length
        = summerStore.products.length + 1) ∧
    (findById Collection.id
        (createProduct summerStore { shirtBody 0 with name := none }).1.collections 0).map
      Collection.productsCount = some 0 ∧
    responses Store.empty
        [Request.createCollection summerBody,
         Request.updateCollection 0
           { name := none, imageUrl := none, description := none, isActive := none,
             productsCount := some 9007199254740992 },
         Request.createProduct (shirtBody 0)]
      = [Response.created, Response.ok, Response.created] ∧
    (findById Collection.id
        (run Store.empty
          [Request.createCollection summerBody,
           Request.updateCollection 0
             { name := none, imageUrl := none, description := none, isActive := none,
               productsCount := some 9007199254740992 },
           Request.createProduct (shirtBody 0)]).collections 0).map
        Collection.productsCount = some 9007199254740992 := by
  decide

/-- C2 (amended): for a product-create request whose collection id resolves to a stored
collection: when the body passes the setters and validators of the Product schema, the
request is answered 201, appends exactly one product (the validated document, referencing
that collection) to the store, sets that collection's productsCount to the double nearest
to the old count plus one, which is the old count plus one whenever that sum is at most
2^53 in magnitude, and leaves every other collection document in place and unchanged;
when the body fails validation, the request throws and the store is unchanged. -/
theorem createProduct_increments_count [CaseMapping] (s : Store) (b : ProductBody) (cid : Id)
    (c : Collection)
    (hb : b.collection = some cid)
    (hc : findById Collection.id s.collections cid = some c) :
    (∀ p : Product, newProduct s.nextId cid b = some p →
      (createProduct s b).2 = Response.created ∧
      (createProduct s b).1.products = s.products ++ [p] ∧
      p.collection = cid ∧
      findById Collection.id (createProduct s b).1.collections cid
        = some { c with productsCount := toDouble (c.productsCount + 1) } ∧
      ((c.productsCount + 1).natAbs ≤ 2 ^ 53 →
        findById Collection.id (createProduct s b).1.collections cid
          = some { c with productsCount := c.productsCount + 1 }) ∧
      (createProduct s b).1.collections.length = s.collections.length ∧
      (∀ (i : Nat) (d : Collection), s.collections[i]? = some d → d.id ≠ cid →
        (createProduct s b).1.collections[i]? = some d)) ∧
    (newProduct s.nextId cid b = none → createProduct s b = (s, Response.thrown)) := by
  constructor
  · intro p hp
    have hcid : p.collection = cid := by
      unfold newProduct at hp
      split at hp
      · split at hp
        · simp only [Option.some.injEq] at hp
          rw [← hp]
        · simp at hp
      · simp at hp
    have hcount : findById Collection.id (createProduct s b).1.collections cid
        = some { c with productsCount := toDouble (c.productsCount + 1) } := by
      simp only [createProduct, hb, hc, hp]
      have h := findById_updateById_same Collection.id
        (fun c : Collection => { c with productsCount := toDouble (c.productsCount + 1) })
        (fun _ => rfl) s.collections cid
      rw [h, hc]
      rfl
    refine ⟨?_, ?_, hcid, hcount, ?_, ?_, ?_⟩
    · simp [createProduct, hb, hc, hp]
    · simp [createProduct, hb, hc, hp]
    · intro hsafe
      rw [hcount, toDouble_of_natAbs_le _ hsafe]
    · simp only [createProduct, hb, hc, hp]
      exact length_updateFirst _ _ _
    · intro i d hd hne
      simp only [createProduct, hb, hc, hp]
      exact getElem?_updateFirst_of_not _ _ _ i d hd (by simpa using hne)
  · intro hp
    simp [createProduct, hb, hc, hp]

/-- C2 (witness): the amended statement applied to the Summer store and the shirt body. -/
theorem createProduct_increments_count_witness :
    (createProduct summerStore (shirtBody 0)).2 = Response.created ∧
    (createProduct summerStore (shirtBody 0)).1.products.length = 1 ∧
    (findById Collection.id (createProduct summerStore (shirtBody 0)).1.collections 0).map
      Collection.productsCount = some 1 :=
  have h := (createProduct_increments_count summerStore (shirtBody 0) 0
    { id := 0, name := "Summer", imageUrl := "summer.png", description := none,
      isActive := true, productsCount := 0 }
    (by decide) (by decide)).1
    { id := 1, collection := 0, name := "Shirt", description := "Cotton shirt",
      type := "top", gender := "unisex", activity := "casual", images := [],
      availableColors := ["red"], availableSizes := ["S"], isActive := true }
    (by decide)
  ⟨h.1, by rw [h.2.1]; decide, by rw [h.2.2.2.2.1 (by decide)]; rfl⟩

/-! ## C3: product deletion -/

/-- C3 (counterexample): Summer holds one product and its productsCount is set to -2^53 by
a collection update; deleting the product is answered with success and leaves
productsCount at -2^53, which is not one less. -/
theorem deleteProduct_keeps_count_at_double_limit :
    responses Store.empty
        [Request.createCollection summerBody, Request.createProduct (shirtBody 0),
         Request.updateCollection 0
           { name := none, imageUrl := none, description := none, isActive := none,
             productsCount := some (-9007199254740992) },
         Request.deleteProduct 1]
      = [Response.created, Response.created, Response.ok, Response.ok] ∧
    (findById Collection.id
        (run Store.empty
          [Request.createCollection summerBody, Request.createProduct (shirtBody 0),
           Request.updateCollection 0
             { name := none, imageUrl := none, description := none, isActive := none,
               productsCount := some (-9007199254740992) }]).collections 0).map
        Collection.productsCount = some (-9007199254740992) ∧
    (findById Collection.id
        (run Store.empty
          [Request.createCollection summerBody, Request.createProduct (shirtBody 0),
           Request.updateCollection 0
             { name := none, imageUrl := none, description := none, isActive := none,
               productsCount := some (-9007199254740992) },
           Request.deleteProduct 1]).collections 0).map
        Collection.productsCount = some (-9007199254740992) ∧
    (-9007199254740992 : Int) ≠ -9007199254740992 - 1 := by
  decide

/-- C3 (amended): deleting a stored product is answered with success; afterwards no
variant row of that product is left, every variant row of another product is kept as
often as it was stored, the product record is kept in place with isActive = false and
nothing else changed, every other product is untouched, and the parent collection's
productsCount is the double nearest to the old count minus one, which is the old count
minus one whenever that difference is at most 2^53 in magnitude, while every other
collection is untouched. -/
theorem deleteProduct_effect (s : Store) (id : Id) (p : Product)
    (hp : findById Product.id s.products id = some p) :
    (deleteProduct s id).2 = Response.ok ∧
    (∀ q ∈ (deleteProduct s id).1.quantities, q.product ≠ id) ∧
    (∀ q : ProductQuantity, q.product ≠ id →
      (deleteProduct s id).1.quantities.count q = s.quantities.count q) ∧
    findById Product.id (deleteProduct s id).1.products id = some { p with isActive := false } ∧
    (deleteProduct s id).1.products.length = s.products.length ∧
    (∀ (i : Nat) (d : Product), s.products[i]? = some d → d.id ≠ id →
      (deleteProduct s id).1.products[i]? = some d) ∧
    (∀ c : Collection, findById Collection.id s.collections p.collection = some c →
      findById Collection.id (deleteProduct s id).1.collections p.collection
        = some { c with productsCount := toDouble (c.productsCount - 1) } ∧
      ((c.productsCount - 1).natAbs ≤ 2 ^ 53 →
        findById Collection.id (deleteProduct s id).1.collections p.collection
          = some { c with productsCount := c.productsCount - 1 })) ∧
    (deleteProduct s id).1.collections.length = s.collections.length ∧
    (∀ (i : Nat) (d : Collection), s.collections[i]? = some d → d.id ≠ p.collection →
      (deleteProduct s id).1.collections[i]? = some d) := by
  refine ⟨?_, ?_, ?_, ?_, ?_, ?_, ?_, ?_, ?_⟩
  · simp [deleteProduct, hp]
  · intro q hq
    simp only [deleteProduct, hp, List.mem_filter] at hq
    simpa using hq.2
  · intro q hq
    simp only [deleteProduct, hp]
    rw [List.count_filter]
    simpa using hq
  · simp only [deleteProduct, hp]
    have h := findById_updateById_same Product.id
      (fun d : Product => { d with isActive := false }) (fun _ => rfl) s.products id
    rw [h, hp]
    rfl
  · simp only [deleteProduct, hp]
    exact length_updateFirst _ _ _
  · intro i d hd hne
    simp only [deleteProduct, hp]
    exact getElem?_updateFirst_of_not _ _ _ i d hd (by simpa using hne)
  · intro c hc
    have hcount : findById Collection.id (deleteProduct s id).1.collections p.collection
        = some { c with productsCount := toDouble (c.productsCount - 1) } := by
      simp only [deleteProduct, hp]
      have h := findById_updateById_same Collection.id
        (fun d : Collection => { d with productsCount := toDouble (d.productsCount - 1) })
        (fun _ => rfl) s.collections p.collection
      rw [h, hc]
      rfl
    refine ⟨hcount, ?_⟩
    intro hsafe
    rw [hcount, toDouble_of_natAbs_le _ hsafe]
  · simp only [deleteProduct, hp]
    exact length_updateFirst _ _ _
  · intro i d hd hne
    simp only [deleteProduct, hp]
    exact getElem?_updateFirst_of_not _ _ _ i d hd (by simpa using hne)

/-- C3 (witness): deleting the shirt of the stocked store takes the count of Summer from
2 to 1. -/
theorem deleteProduct_effect_witness :
    findById Product.id stockedStore.products 1
      = some { id := 1, collection := 0, name := "Shirt", description := "Cotton shirt",
               type := "top", gender := "unisex", activity := "casual", images := [],
               availableColors := ["red"], availableSizes := ["S"], isActive := true } ∧
    (deleteProduct stockedStore 1).2 = Response.ok ∧
    (∀ q ∈ (deleteProduct stockedStore 1).1.quantities, q.product ≠ 1) ∧
    (findById Collection.id (deleteProduct stockedStore 1).1.collections 0).map
      Collection.productsCount = some 1 :=
  have h := deleteProduct_effect stockedStore 1
    { id := 1, collection := 0, name := "Shirt", description := "Cotton shirt",
      type := "top", gender := "unisex", activity := "casual", images := [],
      availableColors := ["red"], availableSizes := ["S"], isActive := true } (by decide)
  ⟨by decide, h.1, h.2.1,
   by
    rw [(h.2.2.2.2.2.2.1
      { id := 0, name := "Summer", imageUrl := "summer.png", description := none,
        isActive := true, productsCount := 2 } (by decide)).2 (by decide)]
    rfl⟩

/-! ## C4: create collection, create product, delete product, delete collection -/

/-- C4 (evaluation at the failing input): after creating the collection Summer, creating
one product in it and deleting that product, productsCount is back at 0, but the
collection-delete request is answered 400 and the collection stays active, because the
soft-deleted product is still counted by the guard. -/
theorem deleteCollection_after_product_delete_refused :
    responses Store.empty
        [Request.createCollection summerBody, Request.createProduct (shirtBody 0),
         Request.deleteProduct 1, Request.deleteCollection 0]
      = [Response.created, Response.created, Response.ok, Response.badRequest] ∧
    (findById Collection.id
        (run Store.empty
          [Request.createCollection summerBody, Request.createProduct (shirtBody 0),
           Request.deleteProduct 1]).collections 0).map Collection.productsCount = some 0 ∧
    (findById Collection.id
        (run Store.empty
          [Request.createCollection summerBody, Request.createProduct (shirtBody 0),
           Request.deleteProduct 1, Request.deleteCollection 0]).collections 0).map
        Collection.isActive = some true := by
  decide

/-! ## C5: the guard of collection deletion -/

/-- C5 (the guard at the failing inputs): for a stored collection that no active product
references while a soft-deleted product document still references it, the delete request
is answered 400 and leaves the store as it was, the collection still active: the guard
counts the product documents of the collection whatever their isActive. -/
theorem deleteCollection_refused_for_inactive_product (s : Store) (id : Id) (c : Collection)
    (p : Product)
    (hc : findById Collection.id s.collections id = some c)
    (hp : p ∈ s.products) (hpc : p.collection = id)
    (hnone : activeProductsOf s.products id = 0) :
    p.isActive = false ∧
    deleteCollection s id = (s, Response.badRequest) ∧
    findById Collection.id (deleteCollection s id).1.collections id = some c := by
  have hinactive : p.isActive = false := by
    unfold activeProductsOf at hnone
    rw [List.countP_eq_zero] at hnone
    have h := hnone p hp
    simpa [hpc] using h
  have hpos : countProductsOf s.products id > 0 := by
    unfold countProductsOf
    exact List.countP_pos_iff.mpr ⟨p, hp, by simpa using hpc⟩
  have hresult : deleteCollection s id = (s, Response.badRequest) := by
    simp [deleteCollection, hc, hpos]
  refine ⟨hinactive, hresult, ?_⟩
  rw [hresult]
  exact hc

/-- C5 (witness): Summer after its only product was created and deleted. -/
theorem deleteCollection_refused_for_inactive_product_witness :
    activeProductsOf
        (run Store.empty
          [Request.createCollection summerBody, Request.createProduct (shirtBody 0),
           Request.deleteProduct 1]).products 0 = 0 ∧
    deleteCollection
        (run Store.empty
          [Request.createCollection summerBody, Request.createProduct (shirtBody 0),
           Request.deleteProduct 1]) 0
      = (run Store.empty
          [Request.createCollection summerBody, Request.createProduct (shirtBody 0),
           Request.deleteProduct 1], Response.badRequest) :=
  ⟨by decide,
   (deleteCollection_refused_for_inactive_product
      (run Store.empty
        [Request.createCollection summerBody, Request.createProduct (shirtBody 0),
         Request.deleteProduct 1]) 0
      { id := 0, name := "Summer", imageUrl := "summer.png", description := none,
        isActive := true, productsCount := 0 }
      { id := 1, collection := 0, name := "Shirt", description := "Cotton shirt",
        type := "top", gender := "unisex", activity := "casual", images := [],
        availableColors := ["red"], availableSizes := ["S"], isActive := false }
      (by decide) (by decide) rfl (by decide)).2.1⟩

/-! ## C6: collection update and the cached count -/

/-- C6 (counterexample): an update whose body is `{ productsCount: 99 }` is answered
with success and stores 99 where 0 was stored. -/
theorem updateCollection_overwrites_productsCount :
    (findById Collection.id summerStore.collections 0).map Collection.productsCount = some 0 ∧
    (updateCollection summerStore 0
      { name := none, imageUrl := none, description := none, isActive := none,
        productsCount := some 99 }).2 = Response.ok ∧
    (findById Collection.id
      (updateCollection summerStore 0
        { name := none, imageUrl := none, description := none, isActive := none,
          productsCount := some 99 }).1.collections 0).map Collection.productsCount
      = some 99 := by
  decide

/-- C6 (amended): a collection-update request whose body has no productsCount path
leaves the productsCount of every stored collection as it was, whatever else the body
holds and whether or not the update is accepted. -/
theorem updateCollection_keeps_productsCount (s : Store) (id : Id) (b : CollectionUpdate)
    (hb : b.productsCount = none) :
    (updateCollection s id b).1.collections.map (fun c => (c.id, c.productsCount))
      = s.collections.map (fun c => (c.id, c.productsCount)) := by
  unfold updateCollection
  split
  · rfl
  · split
    · simp only [updateById]
      apply map_updateFirst
      intro c
      simp [applyCollectionUpdate, hb]
    · rfl

/-- C6 (witness): renaming Summer keeps its count. -/
theorem updateCollection_keeps_productsCount_witness :
    (updateCollection stockedStore 0
        { name := some "Winter", imageUrl := none, description := none, isActive := none,
          productsCount := none }).1.collections.map (fun c => (c.id, c.productsCount))
      = [(0, 2)] :=
  (updateCollection_keeps_productsCount stockedStore 0
    { name := some "Winter", imageUrl := none, description := none, isActive := none,
      productsCount := none } rfl).trans (by decide)

/-! ## C7: variant upsert -/

theorem matchesEntry_iff [CaseMapping] (id : Id) (e : QuantityEntry) (q : ProductQuantity) :
    matchesEntry id e q = true ↔ q.triple = (id, upper e.size, lower e.color) := by
  simp [matchesEntry, ProductQuantity.triple, and_assoc]

theorem matchesEntry_congr [CaseMapping] (id : Id) (e : QuantityEntry) (q r : ProductQuantity)
    (h : q.triple = r.triple) : matchesEntry id e q = matchesEntry id e r := by
  simp only [ProductQuantity.triple, Prod.mk.injEq] at h
  simp [matchesEntry, h.1, h.2.1, h.2.2]

theorem map_triple_upsert [CaseMapping] (id : Id) (e : QuantityEntry) (qs : List ProductQuantity) :
    (updateFirst (matchesEntry id e)
        (fun q => { q with quantity := e.quantity, price := e.price }) qs).map
      ProductQuantity.triple = qs.map ProductQuantity.triple :=
  map_updateFirst (matchesEntry id e)
    (fun q => { q with quantity := e.quantity, price := e.price })
    ProductQuantity.triple (fun _ => rfl) qs

theorem upsertQuantity_products [CaseMapping] (id : Id) (s : Store) (e : QuantityEntry) :
    (upsertQuantity id s e).products = s.products := by
  unfold upsertQuantity
  split <;> rfl

theorem upsertQuantity_triples [CaseMapping] (id : Id) (s : Store) (e : QuantityEntry)
    (t : Id × String × String) (ht : t ∈ s.quantities.map ProductQuantity.triple) :
    t ∈ (upsertQuantity id s e).quantities.map ProductQuantity.triple := by
  unfold upsertQuantity
  split
  · simp only
    rw [map_triple_upsert]
    exact ht
  · simp only [List.map_append, List.mem_append]
    exact Or.inl ht

theorem upsertQuantity_has_row [CaseMapping] (id : Id) (s : Store) (e : QuantityEntry) :
    (id, upper e.size, lower e.color) ∈
      (upsertQuantity id s e).quantities.map ProductQuantity.triple := by
  unfold upsertQuantity
  split
  next x hx =>
    simp only
    rw [map_triple_upsert]
    have hmem := List.mem_of_find?_eq_some hx
    have hpx := List.find?_some hx
    rw [← (matchesEntry_iff id e x).mp hpx]
    exact List.mem_map_of_mem _ hmem
  next hx =>
    simp [ProductQuantity.triple]

theorem upsertQuantity_unique [CaseMapping] (id : Id) (s : Store) (e : QuantityEntry)
    (hu : uniqueTriples s.quantities) : uniqueTriples (upsertQuantity id s e).quantities := by
  unfold upsertQuantity
  split
  next x hx =>
    simp only [uniqueTriples]
    rw [map_triple_upsert]
    exact hu
  next hx =>
    simp only [uniqueTriples, List.map_append, List.map_cons, List.map_nil]
    rw [List.nodup_append]
    refine ⟨hu, List.nodup_singleton _, ?_⟩
    intro t ht ht2
    simp only [List.mem_singleton] at ht2
    obtain ⟨q, hq, hqt⟩ := List.mem_map.mp ht
    have hm : matchesEntry id e q = true := by
      rw [matchesEntry_iff, hqt, ht2]
      rfl
    have := List.find?_eq_none.mp hx q hq
    exact this hm

theorem upsertQuantity_mem [CaseMapping] (id : Id) (s : Store) (e : QuantityEntry)
    (hu : uniqueTriples s.quantities) (q : ProductQuantity)
    (hq : q ∈ (upsertQuantity id s e).quantities) :
    (matchesEntry id e q = true ∧ q.quantity = e.quantity ∧ q.price = e.price) ∨
    (matchesEntry id e q = false ∧ q ∈ s.quantities) := by
  unfold upsertQuantity at hq
  split at hq
  next x hx =>
    simp only at hq
    rcases mem_updateFirst_unique (matchesEntry id e) _ ProductQuantity.triple
        (id, upper e.size, lower e.color) (matchesEntry_iff id e) s.quantities hu q hq with
      ⟨y, _, hpy, hqy⟩ | h
    · left
      subst hqy
      refine ⟨?_, rfl, rfl⟩
      rw [← hpy]
      exact matchesEntry_congr id e _ _ rfl
    · exact Or.inr h
  next hx =>
    simp only [List.mem_append, List.mem_singleton] at hq
    rcases hq with hq | hq
    · right
      refine ⟨?_, hq⟩
      have := List.find?_eq_none.mp hx q hq
      simpa using this
    · left
      subst hq
      refine ⟨?_, rfl, rfl⟩
      rw [matchesEntry_iff]
      rfl

theorem upsertQuantity_keeps [CaseMapping] (id : Id) (s : Store) (e : QuantityEntry) (q : ProductQuantity)
    (hq : q ∈ s.quantities) (hm : matchesEntry id e q = false) :
    q ∈ (upsertQuantity id s e).quantities := by
  unfold upsertQuantity
  split
  · simp only
    exact mem_updateFirst_of_not _ _ _ q hq hm
  · simp only [List.mem_append]
    exact Or.inl hq

theorem upsertLoop_eq_foldl [CaseMapping] (id : Id) (s : Store) (qs : List QuantityEntry) :
    (upsertLoop id s qs).1 = (appliedEntries qs).foldl (upsertQuantity id) s := by
  induction qs generalizing s with
  | nil => rfl
  | cons e es ih =>
    by_cases h : validateEntry e = true
    · simp only [upsertLoop, h, if_true, appliedEntries, List.takeWhile_cons, List.foldl_cons]
      exact ih _
    · have hfalse : validateEntry e = false := by simpa using h
      simp [upsertLoop, hfalse, appliedEntries, List.takeWhile_cons]

theorem foldl_upsert_products [CaseMapping] (id : Id) (log : List QuantityEntry) (s : Store) :
    (log.foldl (upsertQuantity id) s).products = s.products := by
  induction log generalizing s with
  | nil => rfl
  | cons e es ih =>
    simp only [List.foldl_cons]
    rw [ih, upsertQuantity_products]

theorem run_upsert_eq_foldl [CaseMapping] (id : Id) (p : Product) (batches : List (List QuantityEntry))
    (s : Store) (hp : findById Product.id s.products id = some p) :
    run s (batches.map (Request.updateProductQuantities id))
      = (appliedLog batches).foldl (upsertQuantity id) s := by
  induction batches generalizing s with
  | nil => rfl
  | cons b bs ih =>
    have hstep : (handle s (Request.updateProductQuantities id b)).1
        = (appliedEntries b).foldl (upsertQuantity id) s := by
      simp only [handle, updateProductQuantities, hp]
      exact upsertLoop_eq_foldl id s b
    have hp2 : findById Product.id
        ((appliedEntries b).foldl (upsertQuantity id) s).products id = some p := by
      rw [foldl_upsert_products]
      exact hp
    show run (handle s (Request.updateProductQuantities id b)).1
        (bs.map (Request.updateProductQuantities id)) = _
    rw [hstep, ih _ hp2, appliedLog, List.foldl_append]

theorem foldl_upsert_spec [CaseMapping] (id : Id) (log : List QuantityEntry) (s : Store)
    (hu : uniqueTriples s.quantities) :
    uniqueTriples (log.foldl (upsertQuantity id) s).quantities ∧
    (∀ q ∈ (log.foldl (upsertQuantity id) s).quantities,
      match lastEntryFor id q log with
      | some e => q.quantity = e.quantity ∧ q.price = e.price
      | none => q ∈ s.quantities) ∧
    (∀ q ∈ s.quantities, lastEntryFor id q log = none →
      q ∈ (log.foldl (upsertQuantity id) s).quantities) ∧
    (∀ t ∈ s.quantities.map ProductQuantity.triple,
      t ∈ (log.foldl (upsertQuantity id) s).quantities.map ProductQuantity.triple) ∧
    (∀ e ∈ log, (id, upper e.size, lower e.color) ∈
      (log.foldl (upsertQuantity id) s).quantities.map ProductQuantity.triple) := by
  induction log generalizing s with
  | nil =>
    refine ⟨hu, ?_, ?_, ?_, ?_⟩
    · intro q hq
      simpa [lastEntryFor] using hq
    · intro q hq _
      exact hq
    · intro t ht
      exact ht
    · intro e he
      simp at he
  | cons e es ih =>
    obtain ⟨h1, h2, h3, h4, h5⟩ := ih (upsertQuantity id s e) (upsertQuantity_unique id s e hu)
    simp only [List.foldl_cons]
    refine ⟨h1, ?_, ?_, ?_, ?_⟩
    · intro q hq
      have hq2 := h2 q hq
      simp only [lastEntryFor]
      cases hlast : lastEntryFor id q es with
      | some later =>
        rw [hlast] at hq2
        exact hq2
      | none =>
        rw [hlast] at hq2
        simp only at hq2
        rcases upsertQuantity_mem id s e hu q hq2 with ⟨hm, hqty, hprice⟩ | ⟨hm, hmem⟩
        · simp only [hm, if_true]
          exact ⟨hqty, hprice⟩
        · simp only [hm, Bool.false_eq_true, if_false]
          exact hmem
    · intro q hq hnone
      simp only [lastEntryFor] at hnone
      cases hlast : lastEntryFor id q es with
      | some later =>
        rw [hlast] at hnone
        simp at hnone
      | none =>
        rw [hlast] at hnone
        have hm : matchesEntry id e q = false := by
          by_contra hne
          have htrue : matchesEntry id e q = true := by simpa using hne
          simp [htrue] at hnone
        exact h3 q (upsertQuantity_keeps id s e q hq hm) hlast
    · intro t ht
      exact h4 t (upsertQuantity_triples id s e t ht)
    · intro e2 he2
      rcases List.mem_cons.mp he2 with heq | hmem
      · subst heq
        exact h4 _ (upsertQuantity_has_row id s e2)
      · exact h5 e2 hmem

/-- C7: starting from a store with at most one variant row per triple, after any
sequence of variant-upsert batches for a stored product the store still holds at most
one row per (product, size, color) triple; each row named by an applied entry (an entry
preceded in its batch by valid entries only, and valid itself) carries the quantity and
price of the most recent applied entry naming its triple; a row named by no applied
entry is a row of the initial store, unchanged, and every such row of the initial store
is still stored; every applied entry has its row. -/
theorem upsert_batches_latest [CaseMapping] (s : Store) (id : Id) (p : Product)
    (batches : List (List QuantityEntry))
    (hp : findById Product.id s.products id = some p)
    (hu : uniqueTriples s.quantities) :
    uniqueTriples (run s (batches.map (Request.updateProductQuantities id))).quantities ∧
    (∀ q ∈ (run s (batches.map (Request.updateProductQuantities id))).quantities,
      match lastEntryFor id q (appliedLog batches) with
      | some e => q.quantity = e.quantity ∧ q.price = e.price
      | none => q ∈ s.quantities) ∧
    (∀ q ∈ s.quantities, lastEntryFor id q (appliedLog batches) = none →
      q ∈ (run s (batches.map (Request.updateProductQuantities id))).quantities) ∧
    (∀ e ∈ appliedLog batches,
      ∃ q ∈ (run s (batches.map (Request.updateProductQuantities id))).quantities,
        matchesEntry id e q = true) := by
  rw [run_upsert_eq_foldl id p batches s hp]
  obtain ⟨h1, h2, h3, _, h5⟩ := foldl_upsert_spec id (appliedLog batches) s hu
  refine ⟨h1, h2, h3, ?_⟩
  intro e he
  obtain ⟨q, hq, hqt⟩ := List.mem_map.mp (h5 e he)
  exact ⟨q, hq, (matchesEntry_iff id e q).mpr hqt⟩

/-- C7 (witness): the scenario batches applied to the shirt leave exactly two rows, with
quantities 7 and 3. -/
theorem upsert_batches_latest_witness :
    uniqueTriples
      (run shirtStore (scenarioBatches.map (Request.updateProductQuantities 1))).quantities ∧
    (run shirtStore (scenarioBatches.map (Request.updateProductQuantities 1))).quantities.map
      (fun q => (q.size, q.color, q.quantity)) = [("S", "red", 7), ("M", "red", 3)] :=
  ⟨(upsert_batches_latest shirtStore 1
      { id := 1, collection := 0, name := "Shirt", description := "Cotton shirt",
        type := "top", gender := "unisex", activity := "casual", images := [],
        availableColors := ["red"], availableSizes := ["S"], isActive := true }
      scenarioBatches (by decide) (by decide)).1,
   by decide⟩

/-! ## C8: variant rows and the product's declared sizes and colors -/

theorem variantsReferenceProducts_of_ids (s t : Store)
    (hq : ∀ q ∈ t.quantities, q ∈ s.quantities)
    (hp : t.products.map Product.id = s.products.map Product.id)
    (h : variantsReferenceProducts s) : variantsReferenceProducts t := by
  intro q hqt
  obtain ⟨p, hps, hid⟩ := h q (hq q hqt)
  have hmem : q.product ∈ t.products.map Product.id := by
    rw [hp, ← hid]
    exact List.mem_map_of_mem _ hps
  obtain ⟨p2, hp2, hid2⟩ := List.mem_map.mp hmem
  exact ⟨p2, hp2, hid2⟩

theorem upsertQuantity_references [CaseMapping] (id : Id) (p : Product) (s : Store) (e : QuantityEntry)
    (hp : findById Product.id s.products id = some p)
    (h : variantsReferenceProducts s) : variantsReferenceProducts (upsertQuantity id s e) := by
  intro q hq
  rw [upsertQuantity_products]
  unfold upsertQuantity at hq
  split at hq
  · simp only at hq
    rcases mem_updateFirst _ _ _ q hq with hq | ⟨x, hx, hqx⟩
    · exact h q hq
    · obtain ⟨p2, hp2, hid2⟩ := h x hx
      exact ⟨p2, hp2, by rw [hid2, hqx]⟩
  · simp only [List.mem_append, List.mem_singleton] at hq
    rcases hq with hq | hq
    · exact h q hq
    · refine ⟨p, List.mem_of_find?_eq_some hp, ?_⟩
      have := List.find?_some hp
      rw [hq]
      simpa using this

theorem upsertLoop_references [CaseMapping] (id : Id) (p : Product) (qs : List QuantityEntry) (s : Store)
    (hp : findById Product.id s.products id = some p)
    (h : variantsReferenceProducts s) : variantsReferenceProducts (upsertLoop id s qs).1 := by
  induction qs generalizing s with
  | nil => exact h
  | cons e es ih =>
    by_cases hv : validateEntry e = true
    · simp only [upsertLoop, hv, if_true]
      exact ih _ (by rw [upsertQuantity_products]; exact hp)
        (upsertQuantity_references id p s e hp h)
    · have hfalse : validateEntry e = false := by simpa using hv
      simpa [upsertLoop, hfalse] using h

theorem handle_references [CaseMapping] (s : Store) (r : Request) (h : variantsReferenceProducts s) :
    variantsReferenceProducts (handle s r).1 := by
  cases r with
  | createCollection b =>
    apply variantsReferenceProducts_of_ids s _ _ _ h
    · intro q hq
      simp only [handle, createCollection] at hq
      split at hq
      · split at hq
        · split at hq <;> exact hq
        · exact hq
      · exact hq
    · simp only [handle, createCollection]
      split
      · split
        · split <;> rfl
        · rfl
      · rfl
  | updateCollection id b =>
    apply variantsReferenceProducts_of_ids s _ _ _ h
    · intro q hq
      simp only [handle, updateCollection] at hq
      split at hq
      · exact hq
      · split at hq <;> exact hq
    · simp only [handle, updateCollection]
      split
      · rfl
      · split <;> rfl
  | deleteCollection id =>
    apply variantsReferenceProducts_of_ids s _ _ _ h
    · intro q hq
      simp only [handle, deleteCollection] at hq
      split at hq
      · exact hq
      · split at hq <;> exact hq
    · simp only [handle, deleteCollection]
      split
      · rfl
      · split <;> rfl
  | createProduct b =>
    intro q hq
    simp only [handle, createProduct] at hq ⊢
    cases hcol : b.collection with
    | none =>
      simp only [hcol] at hq ⊢
      exact h q hq
    | some cid =>
      simp only [hcol] at hq ⊢
      cases hfind : findById Collection.id s.collections cid with
      | none =>
        simp only [hfind] at hq ⊢
        exact h q hq
      | some c =>
        simp only [hfind] at hq ⊢
        cases hnew : newProduct s.nextId cid b with
        | none =>
          simp only [hnew] at hq ⊢
          exact h q hq
        | some product =>
          simp only [hnew] at hq ⊢
          obtain ⟨p, hp, hid⟩ := h q hq
          exact ⟨p, by simp [hp], hid⟩
  | updateProduct id b =>
    apply variantsReferenceProducts_of_ids s _ _ _ h
    · intro q hq
      simp only [handle, updateProduct] at hq
      split at hq
      · exact hq
      · split at hq <;> exact hq
    · simp only [handle, updateProduct]
      split
      · rfl
      · split
        · exact map_updateFirst _ (applyProductUpdate b) Product.id (fun _ => rfl) s.products
        · rfl
  | deleteProduct id =>
    apply variantsReferenceProducts_of_ids s _ _ _ h
    · intro q hq
      simp only [handle, deleteProduct] at hq
      split at hq
      · exact hq
      · exact (List.mem_filter.mp hq).1
    · simp only [handle, deleteProduct]
      split
      · rfl
      · exact map_updateFirst _ (fun p : Product => { p with isActive := false }) Product.id
          (fun _ => rfl) s.products
  | updateProductQuantities id quantities =>
    simp only [handle, updateProductQuantities]
    split
    · exact h
    · rename_i p hp
      exact upsertLoop_references id p quantities s hp h
  | updateOrderStatus id status trackingId =>
    apply variantsReferenceProducts_of_ids s _ _ _ h
    · intro q hq
      simp only [handle, updateOrderStatus] at hq
      split at hq
      · exact hq
      · split at hq <;> exact hq
    · simp only [handle, updateOrderStatus]
      split
      · rfl
      · split <;> rfl
  | cancelOrder now id =>
    apply variantsReferenceProducts_of_ids s _ _ _ h
    · intro q hq
      simp only [handle, cancelOrder] at hq
      split at hq
      · exact hq
      · split at hq
        · exact hq
        · split at hq <;> exact hq
    · simp only [handle, cancelOrder]
      split
      · rfl
      · split
        · rfl
        · split <;> rfl

theorem run_references [CaseMapping] (requests : List Request) (s : Store)
    (h : variantsReferenceProducts s) : variantsReferenceProducts (run s requests) := by
  induction requests generalizing s with
  | nil => exact h
  | cons r rs ih => exact ih _ (handle_references s r h)

/-- C8 (counterexample): the shirt is created with availableSizes = [S] and
availableColors = [red]; an upsert of (M, blue) for it is answered with success and
stores a row whose size and color are in neither list. -/
theorem variant_outside_declared_sets :
    responses summerStore
        [Request.createProduct (shirtBody 0),
         Request.updateProductQuantities 1
           [{ size := "M", color := "blue", quantity := 1, price := 1 }]]
      = [Response.created, Response.ok] ∧
    (run summerStore
        [Request.createProduct (shirtBody 0),
         Request.updateProductQuantities 1
           [{ size := "M", color := "blue", quantity := 1, price := 1 }]]).quantities
      = [{ id := 2, product := 1, size := "M", color := "blue", quantity := 1, price := 1,
           isActive := true }] ∧
    (findById Product.id
        (run summerStore
          [Request.createProduct (shirtBody 0),
           Request.updateProductQuantities 1
             [{ size := "M", color := "blue", quantity := 1, price := 1 }]]).products 1).map
        (fun p => (p.availableSizes, p.availableColors)) = some (["S"], ["red"]) ∧
    "M" ∉ ["S"] ∧ "blue" ∉ ["red"] := by
  decide

/-- C8 (amended): after any sequence of requests handled from the empty store (collection
create / update / delete, product create / update / delete, variant upsert, order status
update and cancel), every stored variant row references a stored product. Nothing relates
the row's size and color to that product's availableSizes and availableColors. -/
theorem variants_reference_stored_products [CaseMapping] (requests : List Request) :
    ∀ q ∈ (run Store.empty requests).quantities,
      ∃ p ∈ (run Store.empty requests).products, p.id = q.product :=
  run_references requests Store.empty (by intro q hq; simp [Store.empty] at hq)

/-- C8 (witness): the row (M, blue) stored for the shirt references the stored shirt. -/
theorem variants_reference_stored_products_witness :
    ∃ p ∈ (run Store.empty
        [Request.createCollection summerBody, Request.createProduct (shirtBody 0),
         Request.updateProductQuantities 1
           [{ size := "M", color := "blue", quantity := 1, price := 1 }]]).products,
      p.id = 1 :=
  variants_reference_stored_products
    [Request.createCollection summerBody, Request.createProduct (shirtBody 0),
     Request.updateProductQuantities 1
       [{ size := "M", color := "blue", quantity := 1, price := 1 }]]
    { id := 2, product := 1, size := "M", color := "blue", quantity := 1, price := 1,
      isActive := true }
    (by decide)

/-! ## C9: order status update -/

/-- C9 (counterexample): a shipped order is moved back to pending by the status-update
operation, which answers with success. -/
theorem updateOrderStatus_moves_backwards :
    (findById Order.id (orderStore "shipped").orders 0).map Order.status = some "shipped" ∧
    (updateOrderStatus (orderStore "shipped") 0 "pending" none).2 = Response.ok ∧
    (findById Order.id
        (updateOrderStatus (orderStore "shipped") 0 "pending" none).1.orders 0).map
      Order.status = some "pending" := by
  decide

/-- C9 (amended): for a stored order, a requested status that is one of the six values
of the schema's enum is stored whatever the current status is (no transition order is
checked), with the tracking id replaced when a non-empty one is supplied and every other
field and every other order untouched; a requested status outside the enum fails and
leaves the store unchanged. Requests for cancelled on an order that is delivered or
cancelled are left out of this statement. -/
theorem updateOrderStatus_effect (s : Store) (id : Id) (o : Order) (status : String)
    (trackingId : Option String)
    (ho : findById Order.id s.orders id = some o) :
    (status ∈ statusEnum →
      ¬ (status = "cancelled" ∧ (o.status = "delivered" ∨ o.status = "cancelled")) →
      (updateOrderStatus s id status trackingId).2 = Response.ok ∧
      findById Order.id (updateOrderStatus s id status trackingId).1.orders id
        = some { o with
            status := status,
            trackingId := match trackingId with
              | some t => if t.length != 0 then some t else o.trackingId
              | none => o.trackingId } ∧
      (updateOrderStatus s id status trackingId).1.orders.length = s.orders.length ∧
      (∀ (i : Nat) (d : Order), s.orders[i]? = some d → d.id ≠ id →
        (updateOrderStatus s id status trackingId).1.orders[i]? = some d)) ∧
    (status ∉ statusEnum →
      updateOrderStatus s id status trackingId = (s, Response.thrown)) := by
  constructor
  · intro hmem _
    have hc : statusEnum.contains status = true := by simpa using hmem
    refine ⟨?_, ?_, ?_, ?_⟩
    · simp [updateOrderStatus, ho, hmem]
    · simp only [updateOrderStatus, ho, hc, if_true]
      have h := findById_updateById_same Order.id
        (fun d : Order =>
          { d with
              status := status,
              trackingId := match trackingId with
                | some t => if t.length != 0 then some t else d.trackingId
                | none => d.trackingId })
        (fun _ => rfl) s.orders id
      rw [h, ho]
      rfl
    · simp only [updateOrderStatus, ho, hc, if_true]
      exact length_updateFirst _ _ _
    · intro i d hd hne
      simp only [updateOrderStatus, ho, hc, if_true]
      exact getElem?_updateFirst_of_not _ _ _ i d hd (by simpa using hne)
  · intro hnot
    have hc : statusEnum.contains status = false := by simpa using hnot
    simp [updateOrderStatus, ho, hnot]

/-- C9 (witness): shipped to pending is stored; the status `returned` is refused. -/
theorem updateOrderStatus_effect_witness :
    (updateOrderStatus (orderStore "shipped") 0 "pending" none).2 = Response.ok ∧
    updateOrderStatus (orderStore "shipped") 0 "returned" none
      = (orderStore "shipped", Response.thrown) :=
  ⟨((updateOrderStatus_effect (orderStore "shipped") 0 (sampleOrder "shipped") "pending" none
      (by decide)).1 (by decide) (by decide)).1,
   (updateOrderStatus_effect (orderStore "shipped") 0 (sampleOrder "shipped") "returned" none
      (by decide)).2 (by decide)⟩

/-! ## C10: order cancellation -/

theorem validateOrder_cancelled (o : Order) (hv : validateOrder o = true) :
    validateOrder { o with status := "cancelled" } = true := by
  simp only [validateOrder, Bool.and_eq_true] at hv ⊢
  obtain ⟨⟨⟨⟨⟨⟨h1, h2⟩, h3⟩, h4⟩, h5⟩, _⟩, h7⟩ := hv
  exact ⟨⟨⟨⟨⟨⟨h1, h2⟩, h3⟩, h4⟩, h5⟩, by decide⟩, h7⟩

/-- C10: for a stored order that satisfies the Order schema, the cancel operation answers
400 and leaves the store unchanged exactly when the order's status is delivered or
cancelled; in every other status it answers with success and the stored order is the old
one with status cancelled: order number, line items, totalMRP, discountAmount, finalAmount
and all other fields are the old ones, and every other order is untouched. -/
theorem cancelOrder_effect (s : Store) (now : Nat) (id : Id) (o : Order)
    (ho : findById Order.id s.orders id = some o)
    (hv : validateOrder o = true) :
    (cancelOrder s now id = (s, Response.badRequest) ↔
      (o.status = "delivered" ∨ o.status = "cancelled")) ∧
    ((cancelOrder s now id).2 = Response.badRequest ↔
      (o.status = "delivered" ∨ o.status = "cancelled")) ∧
    (¬ (o.status = "delivered" ∨ o.status = "cancelled") →
      (cancelOrder s now id).2 = Response.ok ∧
      findById Order.id (cancelOrder s now id).1.orders id
        = some { o with status := "cancelled" } ∧
      (cancelOrder s now id).1.orders.length = s.orders.length ∧
      (∀ (i : Nat) (d : Order), s.orders[i]? = some d → d.id ≠ id →
        (cancelOrder s now id).1.orders[i]? = some d)) := by
  have hv2 := validateOrder_cancelled o hv
  by_cases hst : o.status = "delivered" ∨ o.status = "cancelled"
  · have hc : ["delivered", "cancelled"].contains o.status = true := by simpa using hst
    refine ⟨?_, ?_, ?_⟩
    · simp [cancelOrder, ho, hc, hst]
    · simp [cancelOrder, ho, hc, hst]
    · intro hn
      exact absurd hst hn
  · have hc : ["delivered", "cancelled"].contains o.status = false := by simpa using hst
    have hresp : (cancelOrder s now id).2 = Response.ok := by
      simp [cancelOrder, ho, hst, orderPreSave, hv2]
    refine ⟨?_, ?_, ?_⟩
    · constructor
      · intro h
        rw [h] at hresp
        simp at hresp
      · intro h
        exact absurd h hst
    · constructor
      · intro h
        rw [h] at hresp
        simp at hresp
      · intro h
        exact absurd h hst
    · intro _
      refine ⟨hresp, ?_, ?_, ?_⟩
      · simp only [cancelOrder, ho, hc, orderPreSave, hv2, Bool.false_eq_true, if_false, if_true]
        have h := findById_updateById_same Order.id
          (fun d : Order => { d with status := "cancelled", orderNumber := o.orderNumber })
          (fun _ => rfl) s.orders id
        rw [h, ho]
        rfl
      · simp only [cancelOrder, ho, hc, orderPreSave, hv2, Bool.false_eq_true, if_false, if_true]
        exact length_updateFirst _ _ _
      · intro i d hd hne
        simp only [cancelOrder, ho, hc, orderPreSave, hv2, Bool.false_eq_true, if_false, if_true]
        exact getElem?_updateFirst_of_not _ _ _ i d hd (by simpa using hne)

/-- C10 (witness): a delivered order is refused, a shipped order is cancelled. -/
theorem cancelOrder_effect_witness :
    cancelOrder (orderStore "delivered") 1700000000500 0
      = (orderStore "delivered", Response.badRequest) ∧
    findById Order.id (cancelOrder (orderStore "shipped") 1700000000500 0).1.orders 0
      = some (sampleOrder "cancelled") :=
  ⟨(cancelOrder_effect (orderStore "delivered") 1700000000500 0 (sampleOrder "delivered")
      (by decide) (by decide)).1.mpr (by decide),
   ((cancelOrder_effect (orderStore "shipped") 1700000000500 0 (sampleOrder "shipped")
      (by decide) (by decide)).2.2 (by decide)).2.1⟩

/-! ## C11: the amounts of an order -/

/-- C11 (counterexample): an order with totalMRP = 100, discountAmount = 500 and
finalAmount = 7 passes the validators of the Order schema and is stored by the save of the
model, although 7 is not 100 - 500 and 500 exceeds 100. -/
theorem order_schema_accepts_inconsistent_amounts :
    validateOrder inconsistentOrder = true ∧
    (createOrder Store.empty 1700000000000 inconsistentOrder).map
        (fun s => s.orders.map (fun o => (o.totalMRP, o.discountAmount, o.finalAmount)))
      = some [(100, 500, 7)] ∧
    inconsistentOrder.finalAmount ≠ inconsistentOrder.totalMRP - inconsistentOrder.discountAmount ∧
    ¬ (inconsistentOrder.discountAmount ≤ inconsistentOrder.totalMRP) := by
  decide

/-- C11 (amended): every order that passes the validators of the Order schema has
totalMRP, discountAmount and finalAmount each at least 0; the schema states no relation
between the three amounts. -/
theorem validateOrder_amounts_nonneg (o : Order) (h : validateOrder o = true) :
    0 ≤ o.totalMRP ∧ 0 ≤ o.discountAmount ∧ 0 ≤ o.finalAmount := by
  simp only [validateOrder, Bool.and_eq_true, decide_eq_true_eq] at h
  exact ⟨h.1.1.1.1.2, h.1.1.1.2, h.1.1.2⟩

/-- C11 (witness): the sample order. -/
theorem validateOrder_amounts_nonneg_witness :
    0 ≤ (sampleOrder "pending").totalMRP ∧ 0 ≤ (sampleOrder "pending").discountAmount ∧
    0 ≤ (sampleOrder "pending").finalAmount :=
  validateOrder_amounts_nonneg (sampleOrder "pending") (by decide)

/-! ## C13: catalog writes and stored orders -/

theorem upsertQuantity_orders [CaseMapping] (id : Id) (s : Store) (e : QuantityEntry) :
    (upsertQuantity id s e).orders = s.orders := by
  unfold upsertQuantity
  split <;> rfl

theorem upsertLoop_orders [CaseMapping] (id : Id) (qs : List QuantityEntry) (s : Store) :
    (upsertLoop id s qs).1.orders = s.orders := by
  induction qs generalizing s with
  | nil => rfl
  | cons e es ih =>
    by_cases hv : validateEntry e = true
    · simp only [upsertLoop, hv, if_true]
      rw [ih, upsertQuantity_orders]
    · have hfalse : validateEntry e = false := by simpa using hv
      simp [upsertLoop, hfalse]

/-- C13: a product update, a product delete and a variant upsert each leave the list of
stored orders exactly as it was, whatever the request holds: every order, with every line
item's product name, description, image, size, color, price and quantity, is unchanged. -/
theorem catalog_writes_keep_orders [CaseMapping] (s : Store) (id : Id) (b : ProductUpdate)
    (quantities : List QuantityEntry) :
    (updateProduct s id b).1.orders = s.orders ∧
    (deleteProduct s id).1.orders = s.orders ∧
    (updateProductQuantities s id quantities).1.orders = s.orders := by
  refine ⟨?_, ?_, ?_⟩
  · unfold updateProduct
    split
    · rfl
    · split <;> rfl
  · unfold deleteProduct
    split <;> rfl
  · unfold updateProductQuantities
    split
    · rfl
    · exact upsertLoop_orders id quantities s

/-! ## C14: reductionPrice and reductionPercent of stored coupons -/

/-- C14 (evaluation at the failing input): after creating SAVE20 (20 percent), an update
with body `{ reductionPrice: 50 }` is answered with success and stores a coupon with both
reductions positive; an update with body `{ reductionPercent: 0 }` is answered with
success and stores a coupon with both reductions zero. -/
theorem coupon_update_bypasses_reduction_hook :
    couponResponses customerStore
        [CouponRequest.create save20Body,
         CouponRequest.update 1 { emptyCouponUpdate with reductionPrice := some 50 }]
      = [Response.created, Response.ok] ∧
    (runCoupons customerStore
        [CouponRequest.create save20Body,
         CouponRequest.update 1 { emptyCouponUpdate with reductionPrice := some 50 }]).coupons.map
        (fun c => (c.reductionPrice, c.reductionPercent)) = [(50, 20)] ∧
    couponResponses customerStore
        [CouponRequest.create save20Body,
         CouponRequest.update 1 { emptyCouponUpdate with reductionPercent := some 0 }]
      = [Response.created, Response.ok] ∧
    (runCoupons customerStore
        [CouponRequest.create save20Body,
         CouponRequest.update 1 { emptyCouponUpdate with reductionPercent := some 0 }]).coupons.map
        (fun c => (c.reductionPrice, c.reductionPercent)) = [(0, 0)] := by
  decide

/-! ## C15: the reduction rule at coupon creation -/

theorem newCoupon_some [CaseMapping] (id : Id) (applicable : List Id) (b : CouponBody) (c : Coupon)
    (h : newCoupon id applicable b = some c) :
    c.reductionPrice = b.reductionPrice.getD 0 ∧
    c.reductionPercent = b.reductionPercent.getD 0 ∧
    c.applicable = applicable ∧ c.usedBy = [] ∧ validateCoupon c = true := by
  unfold newCoupon at h
  split at h
  · simp only at h
    split at h
    · rename_i hv
      simp only [Option.some.injEq] at h
      subst h
      exact ⟨rfl, rfl, rfl, rfl, hv⟩
    · simp at h
  · simp at h

/-- C15 (counterexample): with a valid code, price condition, maxUsage and expiry date,
reductionPrice absent and reductionPercent = 150, exactly one of the two reductions is
positive, yet the creation is rejected and stores nothing. -/
theorem createCoupon_rejects_percent_above_100 :
    couponOtherFieldsValid customerStore { save20Body with reductionPercent := some 150 } = true ∧
    createCoupon customerStore { save20Body with reductionPercent := some 150 }
      = (customerStore, Response.thrown) := by
  decide

/-- C15 (amended): coupon creation is rejected, storing nothing, when reductionPrice and
reductionPercent are both zero or absent, and when both are positive; with all other
fields valid it is accepted, storing one new coupon with these two values, when one of
the two is positive and the other is zero or absent, provided a positive
reductionPercent does not exceed 100. -/
theorem createCoupon_reduction_rule [CaseMapping] (s : Store) (b : CouponBody) :
    (b.reductionPrice.getD 0 = 0 ∧ b.reductionPercent.getD 0 = 0 →
      createCoupon s b = (s, Response.thrown)) ∧
    (0 < b.reductionPrice.getD 0 ∧ 0 < b.reductionPercent.getD 0 →
      createCoupon s b = (s, Response.thrown)) ∧
    (couponOtherFieldsValid s b = true →
      ((0 < b.reductionPrice.getD 0 ∧ b.reductionPercent.getD 0 = 0) ∨
        (b.reductionPrice.getD 0 = 0 ∧ 0 < b.reductionPercent.getD 0 ∧
          b.reductionPercent.getD 0 ≤ 100)) →
      (createCoupon s b).2 = Response.created ∧
      ∃ c : Coupon, (createCoupon s b).1.coupons = s.coupons ++ [c] ∧
        c.reductionPrice = b.reductionPrice.getD 0 ∧
        c.reductionPercent = b.reductionPercent.getD 0) := by
  refine ⟨?_, ?_, ?_⟩
  · rintro ⟨h1, h2⟩
    unfold createCoupon
    cases hnew : newCoupon s.nextId (applicableUsers s b.applicable) b with
    | none => rfl
    | some c =>
      obtain ⟨hp, hq, _, _, _⟩ := newCoupon_some _ _ _ _ hnew
      have hhook : couponPreSave c = false := by
        simp [couponPreSave, hp, hq, h1, h2]
      simp [hhook]
  · rintro ⟨h1, h2⟩
    unfold createCoupon
    cases hnew : newCoupon s.nextId (applicableUsers s b.applicable) b with
    | none => rfl
    | some c =>
      obtain ⟨hp, hq, _, _, _⟩ := newCoupon_some _ _ _ _ hnew
      have hhook : couponPreSave c = false := by
        have h3 : ¬ b.reductionPrice.getD 0 = 0 := by omega
        simp [couponPreSave, hp, hq, h1, h2, h3]
      simp [hhook]
  · intro hvalid hone
    unfold couponOtherFieldsValid at hvalid
    cases hcode : b.couponCode with
    | none => simp [hcode] at hvalid
    | some code =>
      cases hexp : b.expiryDate with
      | none => simp [hcode, hexp] at hvalid
      | some expiry =>
        simp only [hcode, hexp, Option.map_some', Bool.and_eq_true, decide_eq_true_eq] at hvalid
        obtain ⟨⟨⟨⟨⟨v1, v2⟩, v3⟩, v4⟩, v5⟩, v6⟩ := hvalid
        have hrange : 0 ≤ b.reductionPrice.getD 0 ∧ 0 ≤ b.reductionPercent.getD 0 ∧
            b.reductionPercent.getD 0 ≤ 100 := by omega
        have hhook : ¬ (b.reductionPrice.getD 0 = 0 ∧ b.reductionPercent.getD 0 = 0) ∧
            ¬ (0 < b.reductionPrice.getD 0 ∧ 0 < b.reductionPercent.getD 0) := by omega
        have hnew : newCoupon s.nextId (applicableUsers s b.applicable) b
            = some { id := s.nextId, couponCode := upper (trim code),
                     applicable := applicableUsers s b.applicable, usedBy := [],
                     priceCondition := b.priceCondition,
                     reductionPrice := b.reductionPrice.getD 0,
                     reductionPercent := b.reductionPercent.getD 0,
                     maxUsage := b.maxUsage.getD 100, isActive := true,
                     expiryDate := expiry } := by
          simp [newCoupon, hcode, hexp, validateCoupon, v1, v2, v3, v4, v5, hrange]
        have hpre : couponPreSave
            { id := s.nextId, couponCode := upper (trim code),
              applicable := applicableUsers s b.applicable, usedBy := [],
              priceCondition := b.priceCondition,
              reductionPrice := b.reductionPrice.getD 0,
              reductionPercent := b.reductionPercent.getD 0,
              maxUsage := b.maxUsage.getD 100, isActive := true,
              expiryDate := expiry } = true := by
          simp only [couponPreSave]
          rcases hone with ⟨h1, h2⟩ | ⟨h1, h2, _⟩
          · have h3 : ¬ b.reductionPrice.getD 0 = 0 := by omega
            simp [h2, h3]
          · have h3 : ¬ b.reductionPercent.getD 0 = 0 := by omega
            simp [h1, h3]
        simp only [createCoupon, hnew, hpre, v6, Bool.and_self, if_true]
        exact ⟨by trivial, _, rfl, rfl, rfl⟩

/-- C15 (witness): SAVE20 with 20 percent is accepted, SAVE20 without any reduction and
SAVE20 with both reductions are rejected. -/
theorem createCoupon_reduction_rule_witness :
    createCoupon customerStore { save20Body with reductionPercent := none }
      = (customerStore, Response.thrown) ∧
    createCoupon customerStore { save20Body with reductionPrice := some 50 }
      = (customerStore, Response.thrown) ∧
    (createCoupon customerStore save20Body).2 = Response.created :=
  ⟨(createCoupon_reduction_rule customerStore { save20Body with reductionPercent := none }).1
      (by decide),
   (createCoupon_reduction_rule customerStore { save20Body with reductionPrice := some 50 }).2.1
      (by decide),
   ((createCoupon_reduction_rule customerStore save20Body).2.2 (by decide) (by decide)).1⟩

/-! ## C16: the usage ledger and maxUsage -/

theorem forall_mem_updateFirst {α : Type} (p : α → Bool) (f : α → α) (P : α → Prop)
    (docs : List α) (hall : ∀ x ∈ docs, P x) (hf : ∀ x, P x → P (f x)) :
    ∀ q ∈ updateFirst p f docs, P q := by
  intro q hq
  rcases mem_updateFirst p f docs q hq with h | ⟨x, hx, hqx⟩
  · exact hall q h
  · rw [hqx]
    exact hf x (hall x hx)

theorem validateCoupon_maxUsage (c : Coupon) (h : validateCoupon c = true) :
    1 ≤ c.maxUsage := by
  simp only [validateCoupon, Bool.and_eq_true, decide_eq_true_eq] at h
  exact h.2

theorem validateCouponUpdate_maxUsage [CaseMapping] (b : CouponUpdate) (h : validateCouponUpdate b = true)
    (m : Int) (hm : b.maxUsage = some m) : 1 ≤ m := by
  simp only [validateCouponUpdate, Bool.and_eq_true, hm, decide_eq_true_eq] at h
  exact h.2

theorem handleCoupon_keeps_ledger [CaseMapping] (s : Store) (r : CouponRequest)
    (hr : namesUsedByOrOperator r = false)
    (h : ∀ c ∈ s.coupons, c.usedBy = [] ∧ 1 ≤ c.maxUsage) :
    ∀ c ∈ (handleCoupon s r).1.coupons, c.usedBy = [] ∧ 1 ≤ c.maxUsage := by
  cases r with
  | create b =>
    simp only [handleCoupon, createCoupon]
    cases hnew : newCoupon s.nextId (applicableUsers s b.applicable) b with
    | none => exact h
    | some c =>
      simp only
      split
      · intro q hq
        simp only [List.mem_append, List.mem_singleton] at hq
        rcases hq with hq | hq
        · exact h q hq
        · obtain ⟨_, _, _, hu, hv⟩ := newCoupon_some _ _ _ _ hnew
          rw [hq]
          exact ⟨hu, validateCoupon_maxUsage c hv⟩
      · exact h
  | update id b =>
    have hnone : b.usedBy = none := by
      cases hb : b.usedBy with
      | none => rfl
      | some u => simp [namesUsedByOrOperator, hb] at hr
    have hplain : b.operators = none := by
      cases hb : b.operators with
      | none => rfl
      | some u => simp [namesUsedByOrOperator, hb] at hr
    simp only [handleCoupon, updateCoupon, hplain]
    split
    · exact h
    · split
      · rename_i hcond
        have hv : validateCouponUpdate b = true := by
          simp only [Bool.and_eq_true] at hcond
          exact hcond.1
        apply forall_mem_updateFirst _ (applyCouponUpdate b) _ s.coupons h
        intro x hx
        refine ⟨?_, ?_⟩
        · simp [applyCouponUpdate, hnone, hx.1]
        · cases hm : b.maxUsage with
          | none => simpa [applyCouponUpdate, hm] using hx.2
          | some m => simpa [applyCouponUpdate, hm] using validateCouponUpdate_maxUsage b hv m hm
      · exact h
  | toggle id =>
    simp only [handleCoupon, toggleCoupon]
    split
    · exact h
    · rename_i coupon _
      split
      · exact forall_mem_updateFirst _
          (fun c : Coupon => { c with isActive := !coupon.isActive }) _ s.coupons h
          (fun x hx => hx)
      · exact h
  | delete id =>
    simp only [handleCoupon, deleteCoupon]
    split
    · exact h
    · exact forall_mem_updateFirst _ (fun c : Coupon => { c with isActive := false }) _
        s.coupons h (fun x hx => hx)

theorem runCoupons_keeps_ledger [CaseMapping] (requests : List CouponRequest) (s : Store)
    (hr : ∀ r ∈ requests, namesUsedByOrOperator r = false)
    (h : ∀ c ∈ s.coupons, c.usedBy = [] ∧ 1 ≤ c.maxUsage) :
    ∀ c ∈ (runCoupons s requests).coupons, c.usedBy = [] ∧ 1 ≤ c.maxUsage := by
  induction requests generalizing s with
  | nil => exact h
  | cons r rs ih =>
    exact ih (handleCoupon s r).1 (fun x hx => hr x (List.mem_cons_of_mem r hx))
      (handleCoupon_keeps_ledger s r (hr r (List.mem_cons_self r rs)) h)

/-- C16 (counterexample): SAVE20 is created with maxUsage = 1; an update whose body names
`usedBy` with two entries is answered with success, after which the ledger has 2 entries
against maxUsage = 1 and the stats operation reports remainingUsage = -1. An update whose
body is `{ $inc: { maxUsage: -5 } }` is answered with success as well and leaves
maxUsage = -4, reported as remainingUsage = -4. -/
theorem coupon_update_overfills_usedBy :
    couponResponses customerStore
        [CouponRequest.create save20Body,
         CouponRequest.update 1 { emptyCouponUpdate with
           usedBy := some [{ user := some 0, usedAt := 1 }, { user := some 0, usedAt := 2 }] }]
      = [Response.created, Response.ok] ∧
    (runCoupons customerStore
        [CouponRequest.create save20Body,
         CouponRequest.update 1 { emptyCouponUpdate with
           usedBy := some [{ user := some 0, usedAt := 1 }, { user := some 0, usedAt := 2 }] }]).coupons.map
        (fun c => (c.usedBy.length, c.maxUsage)) = [(2, 1)] ∧
    (getCouponStats
        (runCoupons customerStore
          [CouponRequest.create save20Body,
           CouponRequest.update 1 { emptyCouponUpdate with
             usedBy := some [{ user := some 0, usedAt := 1 }, { user := some 0, usedAt := 2 }] }])
        1700000000000 1).map CouponStats.remainingUsage = some (-1) ∧
    couponResponses customerStore
        [CouponRequest.create save20Body,
         CouponRequest.update 1 { emptyCouponUpdate with
           operators := some (fun c => some { c with maxUsage := c.maxUsage - 5 }) }]
      = [Response.created, Response.ok] ∧
    (getCouponStats
        (runCoupons customerStore
          [CouponRequest.create save20Body,
           CouponRequest.update 1 { emptyCouponUpdate with
             operators := some (fun c => some { c with maxUsage := c.maxUsage - 5 }) }])
        1700000000000 1).map CouponStats.remainingUsage = some (-4) := by
  decide

/-- C16 (amended): starting without coupons, after any sequence of coupon create, toggle
and delete requests and of update requests whose body neither names `usedBy` nor holds an
update operator, every stored coupon has an empty usage ledger (no route appends to it)
and maxUsage at least 1, so usedBy has at most maxUsage entries and the remainingUsage
reported by the stats operation is never negative. -/
theorem coupons_usedBy_within_maxUsage [CaseMapping] (s : Store) (requests : List CouponRequest)
    (hs : s.coupons = [])
    (hr : ∀ r ∈ requests, namesUsedByOrOperator r = false) :
    (∀ c ∈ (runCoupons s requests).coupons,
      c.usedBy = [] ∧ (c.usedBy.length : Int) ≤ c.maxUsage) ∧
    (∀ (now : Nat) (id : Id) (stats : CouponStats),
      getCouponStats (runCoupons s requests) now id = some stats →
      0 ≤ stats.remainingUsage) := by
  have hinv := runCoupons_keeps_ledger requests s hr (by intro c hc; simp [hs] at hc)
  constructor
  · intro c hc
    obtain ⟨h1, h2⟩ := hinv c hc
    refine ⟨h1, ?_⟩
    rw [h1]
    simp only [List.length_nil, Nat.cast_zero]
    omega
  · intro now id stats hstats
    unfold getCouponStats at hstats
    split at hstats
    · simp at hstats
    · rename_i coupon hfind
      obtain ⟨h1, h2⟩ := hinv coupon (List.mem_of_find?_eq_some hfind)
      simp only [Option.some.injEq] at hstats
      rw [← hstats]
      simp only [h1, List.length_nil, Nat.cast_zero]
      omega

/-- C16 (witness): SAVE20 created, toggled and given maxUsage = 5 reports
remainingUsage = 5. -/
theorem coupons_usedBy_within_maxUsage_witness :
    getCouponStats
        (runCoupons customerStore
          [CouponRequest.create save20Body, CouponRequest.toggle 1,
           CouponRequest.update 1 { emptyCouponUpdate with maxUsage := some 5 }])
        1700000000000 1
      = some { totalApplicableUsers := 1, totalUsed := 0, remainingUsage := 5,
               isExpired := false } ∧
    (0 : Int) ≤ 5 :=
  ⟨by decide,
   (coupons_usedBy_within_maxUsage customerStore
      [CouponRequest.create save20Body, CouponRequest.toggle 1,
       CouponRequest.update 1 { emptyCouponUpdate with maxUsage := some 5 }]
      (by decide) (by decide)).2 1700000000000 1
      { totalApplicableUsers := 1, totalUsed := 0, remainingUsage := 5, isExpired := false }
      (by decide)⟩

/-! ## C17: the eligibility list of a new coupon -/

/-- C17 (counterexample): with Alice the only active customer, a coupon created without
a list of eligible customers, or with an empty one, is stored with the list [Alice], not
with the empty list. -/
theorem createCoupon_stores_customer_snapshot :
    (createCoupon customerStore save20Body).2 = Response.created ∧
    (createCoupon customerStore save20Body).1.coupons.map Coupon.applicable = [[0]] ∧
    (createCoupon customerStore { save20Body with applicable := some [] }).1.coupons.map
      Coupon.applicable = [[0]] ∧
    ([0] : List Id) ≠ [] := by
  decide

/-- C17 (amended): a coupon-create request with an empty or absent list of eligible
customers that is accepted stores one new coupon whose `applicable` list is the ids of
the users that have role customer and are active at creation time: a frozen list, which
is empty only when there is no such user. -/
theorem createCoupon_applicable_default [CaseMapping] (s : Store) (b : CouponBody)
    (hb : b.applicable = none ∨ b.applicable = some [])
    (hc : (createCoupon s b).2 = Response.created) :
    ∃ c : Coupon, (createCoupon s b).1.coupons = s.coupons ++ [c] ∧
      c.applicable = activeCustomerIds s.users := by
  have happ : applicableUsers s b.applicable = activeCustomerIds s.users := by
    rcases hb with h | h <;> simp [applicableUsers, h]
  unfold createCoupon at hc ⊢
  cases hnew : newCoupon s.nextId (applicableUsers s b.applicable) b with
  | none => simp [hnew] at hc
  | some c =>
    simp only [hnew] at hc ⊢
    obtain ⟨_, _, ha, _, _⟩ := newCoupon_some _ _ _ _ hnew
    split
    · exact ⟨c, rfl, ha.trans happ⟩
    · rename_i hcond
      simp [hcond] at hc

/-- C17 (witness): SAVE20 created in the store that holds Alice. -/
theorem createCoupon_applicable_default_witness :
    ∃ c : Coupon, (createCoupon customerStore save20Body).1.coupons
        = customerStore.coupons ++ [c] ∧
      c.applicable = activeCustomerIds customerStore.users :=
  createCoupon_applicable_default customerStore save20Body (Or.inl rfl) (by decide)

/-! ## C18: expiry as reported by the stats operation -/

/-- C18 (counterexample): SAVE20 expires at 1800000000000; at that very instant the
stats operation reports isExpired = false. -/
theorem coupon_not_expired_at_expiry_instant :
    (findById Coupon.id (createCoupon customerStore save20Body).1.coupons 1).map
      Coupon.expiryDate = some 1800000000000 ∧
    (getCouponStats (createCoupon customerStore save20Body).1 1800000000000 1).map
      CouponStats.isExpired = some false := by
  decide

/-- C18 (amended): for a stored coupon the stats operation reports isExpired = true
exactly when the current time is strictly greater than the expiryDate; at the instant
now = expiryDate it reports false. -/
theorem getCouponStats_isExpired (s : Store) (now : Nat) (id : Id) (c : Coupon)
    (hc : findById Coupon.id s.coupons id = some c) :
    ∃ stats : CouponStats, getCouponStats s now id = some stats ∧
      (stats.isExpired = true ↔ c.expiryDate < (now : Int)) ∧
      (c.expiryDate = (now : Int) → stats.isExpired = false) := by
  simp only [getCouponStats, hc]
  refine ⟨_, rfl, ?_, ?_⟩
  · simp
  · intro h
    simp [h]

/-- C18 (witness): SAVE20 one millisecond after its expiry. -/
theorem getCouponStats_isExpired_witness :
    ∃ stats : CouponStats,
      getCouponStats (createCoupon customerStore save20Body).1 1800000000001 1 = some stats ∧
      stats.isExpired = true :=
  have h := getCouponStats_isExpired (createCoupon customerStore save20Body).1 1800000000001 1
    { id := 1, couponCode := "SAVE20", applicable := [0], usedBy := [],
      priceCondition := some { low := some 500, high := none }, reductionPrice := 0,
      reductionPercent := 20, maxUsage := 1, isActive := true,
      expiryDate := 1800000000000 } (by decide)
  h.elim (fun stats hs => ⟨stats, hs.1, hs.2.1.mpr (by decide)⟩)

/-! ## C19: the range of discountPercent at discount creation -/

theorem newDiscount_some (id : Id) (products : List Id) (now : Nat) (b : DiscountBody)
    (d : Discount) (h : newDiscount id products now b = some d) :
    b.discountPercent = some d.discountPercent ∧ b.endDate = some d.endDate ∧
    d.startDate = b.startDate.getD (now : Int) ∧ d.products = products ∧
    validateDiscount d = true := by
  unfold newDiscount at h
  split at h
  · rename_i name percent endDate hname hpercent hend
    simp only at h
    split at h
    · rename_i hv
      simp only [Option.some.injEq] at h
      subst h
      exact ⟨hpercent, hend, rfl, rfl, hv⟩
    · simp at h
  · simp at h

theorem validateDiscount_percent (d : Discount) (h : validateDiscount d = true) :
    0 ≤ d.discountPercent ∧ d.discountPercent ≤ 90 := by
  simp only [validateDiscount, Bool.and_eq_true, decide_eq_true_eq] at h
  exact ⟨h.1.1.2, h.1.2⟩

/-- C19 (counterexample): a discount-create request with discountPercent = 0 and valid
other fields is answered 201 and stores a discount of 0 percent. -/
theorem createDiscount_accepts_zero_percent :
    (createDiscount Store.empty 50 { saleBody with discountPercent := some 0 }).2
      = Response.created ∧
    (createDiscount Store.empty 50 { saleBody with discountPercent := some 0 }).1.discounts.map
      Discount.discountPercent = [0] := by
  decide

/-- C19 (amended): discount creation is accepted only when discountPercent is present,
at least 0 and at most 90; a request with discountPercent below 0, above 90 or absent is
rejected and stores nothing. A discountPercent of 0 is within the accepted range. -/
theorem createDiscount_percent_range (s : Store) (now : Nat) (b : DiscountBody) :
    ((createDiscount s now b).2 = Response.created →
      ∃ p : Int, b.discountPercent = some p ∧ 0 ≤ p ∧ p ≤ 90) ∧
    (∀ p : Int, b.discountPercent = some p → (p < 0 ∨ 90 < p) →
      createDiscount s now b = (s, Response.thrown)) ∧
    (b.discountPercent = none → createDiscount s now b = (s, Response.thrown)) := by
  refine ⟨?_, ?_, ?_⟩
  · intro hc
    unfold createDiscount at hc
    cases hnew : newDiscount s.nextId (applicableProducts s b.products) now b with
    | none => simp [hnew] at hc
    | some d =>
      obtain ⟨hp, _, _, _, hv⟩ := newDiscount_some _ _ _ _ _ hnew
      obtain ⟨h0, h90⟩ := validateDiscount_percent d hv
      exact ⟨d.discountPercent, hp, h0, h90⟩
  · intro p hp hout
    unfold createDiscount
    cases hnew : newDiscount s.nextId (applicableProducts s b.products) now b with
    | none => rfl
    | some d =>
      obtain ⟨hp2, _, _, _, hv⟩ := newDiscount_some _ _ _ _ _ hnew
      obtain ⟨h0, h90⟩ := validateDiscount_percent d hv
      rw [hp] at hp2
      simp only [Option.some.injEq] at hp2
      omega
  · intro hnone
    unfold createDiscount
    cases hnew : newDiscount s.nextId (applicableProducts s b.products) now b with
    | none => rfl
    | some d =>
      obtain ⟨hp2, _, _, _, _⟩ := newDiscount_some _ _ _ _ _ hnew
      rw [hnone] at hp2
      simp at hp2

/-- C19 (witness): the 10 percent sale is accepted, a 91 percent sale is rejected. -/
theorem createDiscount_percent_range_witness :
    (∃ p : Int, saleBody.discountPercent = some p ∧ 0 ≤ p ∧ p ≤ 90) ∧
    createDiscount Store.empty 50 { saleBody with discountPercent := some 91 }
      = (Store.empty, Response.thrown) :=
  ⟨(createDiscount_percent_range Store.empty 50 saleBody).1 (by decide),
   (createDiscount_percent_range Store.empty 50
      { saleBody with discountPercent := some 91 }).2.1 91 rfl (by decide)⟩

/-! ## C20: start and end date of stored discounts -/

/-- C20 (evaluation at the failing input): the sale is created with startDate = 100 and
endDate = 200; an update with body `{ endDate: 50 }` is answered with success and stores
a discount whose endDate 50 is before its startDate 100. -/
theorem discount_update_bypasses_date_hook :
    discountResponses Store.empty
        [DiscountRequest.create 50 saleBody,
         DiscountRequest.update 0 { emptyDiscountUpdate with endDate := some 50 }]
      = [Response.created, Response.ok] ∧
    (runDiscounts Store.empty
        [DiscountRequest.create 50 saleBody,
         DiscountRequest.update 0 { emptyDiscountUpdate with endDate := some 50 }]).discounts.map
        (fun d => (d.startDate, d.endDate)) = [(100, 50)] ∧
    createDiscount Store.empty 50 { saleBody with endDate := some 50 }
      = (Store.empty, Response.thrown) := by
  decide

/-! ## C12: order numbers under sequential creation -/

theorem toDigitsCore_eq_digits (fuel : Nat) :
    ∀ (n : Nat) (ds : List Char), 0 < n → n < fuel →
      Nat.toDigitsCore 10 fuel n ds
        = ((Nat.digits 10 n).reverse.map Nat.digitChar) ++ ds := by
  induction fuel with
  | zero =>
    intro n ds _ h
    omega
  | succ f ih =>
    intro n ds hpos hlt
    rw [Nat.digits_def' (by norm_num) hpos]
    simp only [Nat.toDigitsCore]
    by_cases h0 : n / 10 = 0
    · simp [h0]
    · have hpos2 : 0 < n / 10 := Nat.pos_of_ne_zero h0
      have hlt2 : n / 10 < f := by omega
      simp only [h0, if_false]
      rw [ih (n / 10) _ hpos2 hlt2]
      simp

theorem toDigits_eq_digits (n : Nat) (hpos : 0 < n) :
    Nat.toDigits 10 n = (Nat.digits 10 n).reverse.map Nat.digitChar := by
  unfold Nat.toDigits
  rw [toDigitsCore_eq_digits (n + 1) n [] hpos (by omega)]
  simp

theorem toString_data (n : Nat) : (toString n).data = Nat.toDigits 10 n := rfl

theorem toDigits_length_mono (n m : Nat) (h : n ≤ m) :
    (Nat.toDigits 10 n).length ≤ (Nat.toDigits 10 m).length := by
  rcases Nat.eq_zero_or_pos m with hm | hm
  · have hn : n = 0 := by omega
    rw [hn, hm]
  · rw [toDigits_eq_digits m hm]
    rcases Nat.eq_zero_or_pos n with hn | hn
    · rw [hn]
      have hne : Nat.digits 10 m ≠ [] := Nat.digits_ne_nil_iff_ne_zero.mpr (by omega)
      have hlen : 0 < (Nat.digits 10 m).length := List.length_pos.mpr hne
      simpa [Nat.toDigits, Nat.toDigitsCore] using hlen
    · rw [toDigits_eq_digits n hn]
      simpa using Nat.le_digits_len_le 10 n m h

theorem digitChar_value (d : Nat) (h : d < 10) : (Nat.digitChar d).toNat - 48 = d := by
  interval_cases d <;> rfl

theorem decValue_digits (ds : List Nat) (h : ∀ d ∈ ds, d < 10) :
    decValue (ds.reverse.map Nat.digitChar) = Nat.ofDigits 10 ds := by
  induction ds with
  | nil => rfl
  | cons d rest ih =>
    have hrest : ∀ x ∈ rest, x < 10 := fun x hx => h x (List.mem_cons_of_mem d hx)
    have hd : d < 10 := h d (List.mem_cons_self d rest)
    have ih2 := ih hrest
    unfold decValue at ih2 ⊢
    simp only [List.reverse_cons, List.map_append, List.map_cons, List.map_nil,
      List.foldl_append, List.foldl_cons, List.foldl_nil]
    rw [ih2, digitChar_value d hd, Nat.ofDigits_cons]
    omega

theorem decValue_toDigits (n : Nat) : decValue (Nat.toDigits 10 n) = n := by
  rcases Nat.eq_zero_or_pos n with hn | hn
  · rw [hn]
    rfl
  · rw [toDigits_eq_digits n hn,
      decValue_digits _ (fun d hd => Nat.digits_lt_base (by norm_num) hd),
      Nat.ofDigits_digits]

theorem decValue_zeros (z : Nat) (cs : List Char) :
    decValue (List.replicate z '0' ++ cs) = decValue cs := by
  have hz : ∀ k : Nat,
      (List.replicate k '0').foldl (fun acc c => 10 * acc + (c.toNat - 48)) 0 = 0 := by
    intro k
    induction k with
    | zero => rfl
    | succ j ih =>
      simp only [List.replicate_succ, List.foldl_cons]
      exact ih
  unfold decValue
  rw [List.foldl_append, hz]

theorem padStart3_data (s : String) :
    (padStart3 s).data = List.replicate (3 - s.length) '0' ++ s.data := rfl

/-- Two order numbers built at clock readings `t1 ≤ t2` from counts `k1 < k2` differ. -/
theorem orderNumber_ne (t1 t2 k1 k2 : Nat) (ht : t1 ≤ t2) (hk : k1 < k2) :
    "ORD" ++ toString t1 ++ padStart3 (toString k1)
      ≠ "ORD" ++ toString t2 ++ padStart3 (toString k2) := by
  intro heq
  have hdata := congrArg String.data heq
  simp only [String.data_append, List.append_assoc, padStart3_data, toString_data] at hdata
  have hcancel := List.append_cancel_left hdata
  have hlt := toDigits_length_mono t1 t2 ht
  have hlk := toDigits_length_mono k1 k2 (Nat.le_of_lt hk)
  have hk1 : (toString k1).length = (Nat.toDigits 10 k1).length := rfl
  have hk2 : (toString k2).length = (Nat.toDigits 10 k2).length := rfl
  have hlen := congrArg List.length hcancel
  simp only [List.length_append, List.length_replicate, hk1, hk2] at hlen
  have hsame : (Nat.toDigits 10 t1).length = (Nat.toDigits 10 t2).length := by omega
  have hpad := (List.append_inj hcancel hsame).2
  have hval := congrArg decValue hpad
  rw [decValue_zeros, decValue_zeros, decValue_toDigits, decValue_toDigits] at hval
  omega

theorem createOrder_invalid [CaseMapping] (s : Store) (now : Nat) (doc : Order)
    (hv : validateOrder doc = false) : createOrder s now doc = none := by
  simp [createOrder, hv]

theorem createOrder_valid [CaseMapping] (times : List Nat) (t now : Nat) (s : Store) (doc : Order)
    (hinv : orderNumbersInv times t s) (ht : t ≤ now) (hmem : now ∈ times)
    (hv : validateOrder doc = true) :
    ∃ s2 : Store, createOrder s now doc = some s2 ∧
      s2.orders.length = s.orders.length + 1 ∧ orderNumbersInv times now s2 := by
  obtain ⟨hnodup, hnum⟩ := hinv
  have hfresh : ∀ o ∈ s.orders, o.orderNumber
      ≠ "ORD" ++ toString now ++ padStart3 (toString (s.orders.length + 1)) := by
    intro o ho
    obtain ⟨i, hi⟩ := List.getElem?_of_mem ho
    obtain ⟨t0, _, ht0, hnumber⟩ := hnum i o hi
    have hilt : i < s.orders.length := by
      by_contra hge
      rw [List.getElem?_eq_none (by omega)] at hi
      simp at hi
    rw [hnumber]
    exact orderNumber_ne t0 now (i + 1) (s.orders.length + 1) (by omega) (by omega)
  have hcheck : s.orders.all (fun o => o.orderNumber
      != "ORD" ++ toString now ++ padStart3 (toString (s.orders.length + 1))) = true := by
    rw [List.all_eq_true]
    intro o ho
    simpa using hfresh o ho
  have hcreate : createOrder s now doc
      = some { s with
          orders := s.orders ++
            [{ doc with
                id := s.nextId,
                couponCode := doc.couponCode.map upper,
                orderNumber :=
                  "ORD" ++ toString now ++ padStart3 (toString (s.orders.length + 1)) }],
          nextId := s.nextId + 1 } := by
    simp only [createOrder, hv, orderPreSave, if_true, hcheck]
  refine ⟨_, hcreate, ?_, ?_, ?_⟩
  · simp
  · simp only [List.map_append, List.map_cons, List.map_nil]
    rw [List.nodup_append]
    refine ⟨hnodup, List.nodup_singleton _, ?_⟩
    intro x hx hx2
    simp only [List.mem_singleton] at hx2
    obtain ⟨o, ho, hox⟩ := List.mem_map.mp hx
    exact hfresh o ho (hox.trans hx2)
  · intro i o hio
    simp only at hio
    rcases Nat.lt_trichotomy i s.orders.length with hlt | heq | hgt
    · rw [List.getElem?_append_left hlt] at hio
      obtain ⟨t0, hm0, ht0, hnumber⟩ := hnum i o hio
      exact ⟨t0, hm0, by omega, hnumber⟩
    · rw [heq, List.getElem?_append_right (Nat.le_refl _)] at hio
      simp only [Nat.sub_self, List.getElem?_cons_zero, Option.some.injEq] at hio
      rw [← hio, heq]
      exact ⟨now, hmem, Nat.le_refl _, rfl⟩
    · rw [List.getElem?_eq_none (by simp; omega)] at hio
      simp at hio

theorem createOrders_inv [CaseMapping] (times : List Nat) (creations : List (Nat × Order)) :
    ∀ (s : Store) (t : Nat), orderNumbersInv times t s →
      (∀ c ∈ creations, t ≤ c.1 ∧ c.1 ∈ times) →
      (creations.map Prod.fst).Pairwise (· ≤ ·) →
      (createOrders s creations).orders.length
          = s.orders.length + (creations.filter (fun c => validateOrder c.2)).length ∧
        ∃ t2, orderNumbersInv times t2 (createOrders s creations) := by
  induction creations with
  | nil =>
    intro s t hinv _ _
    exact ⟨by simp [createOrders], t, hinv⟩
  | cons c rest ih =>
    intro s t hinv hall hsorted
    obtain ⟨now, doc⟩ := c
    simp only [List.map_cons, List.pairwise_cons] at hsorted
    obtain ⟨hhead, htail⟩ := hsorted
    obtain ⟨htnow, hmem⟩ := hall (now, doc) (List.mem_cons_self _ _)
    have hrest : ∀ c ∈ rest, c.1 ∈ times := fun c hc => (hall c (List.mem_cons_of_mem _ hc)).2
    by_cases hv : validateOrder doc = true
    · obtain ⟨s2, hcreate, hlen, hinv2⟩ := createOrder_valid times t now s doc hinv htnow hmem hv
      have hrun : createOrders s ((now, doc) :: rest) = createOrders s2 rest := by
        simp [createOrders, hcreate]
      obtain ⟨hl, hex⟩ := ih s2 now hinv2
        (fun c hc => ⟨hhead c.1 (List.mem_map_of_mem Prod.fst hc), hrest c hc⟩) htail
      rw [hrun]
      refine ⟨?_, hex⟩
      rw [hl, hlen]
      simp [List.filter_cons, hv]
      omega
    · have hfalse : validateOrder doc = false := by simpa using hv
      have hrun : createOrders s ((now, doc) :: rest) = createOrders s rest := by
        simp [createOrders, createOrder_invalid s now doc hfalse]
      obtain ⟨hl, hex⟩ := ih s t hinv
        (fun c hc => ⟨(hall c (List.mem_cons_of_mem _ hc)).1, hrest c hc⟩) htail
      rw [hrun]
      refine ⟨?_, hex⟩
      rw [hl]
      simp [List.filter_cons, hfalse]

/-- C12: from the empty store, under sequential creation with a non-decreasing clock,
every order document that passes the validators is stored (no save is refused by the
unique index), the stored order numbers are pairwise different, and the order stored at
position i carries the number `ORD`, then the clock reading of its creation in decimal,
then i + 1 (the number of orders existing at that time plus one) in decimal, padded with
zeros on the left to three digits. -/
theorem sequential_order_numbers_distinct [CaseMapping] (creations : List (Nat × Order))
    (hclock : (creations.map Prod.fst).Pairwise (· ≤ ·)) :
    (createOrders Store.empty creations).orders.length
      = (creations.filter (fun c => validateOrder c.2)).length ∧
    ((createOrders Store.empty creations).orders.map Order.orderNumber).Nodup ∧
    (∀ (i : Nat) (o : Order), (createOrders Store.empty creations).orders[i]? = some o →
      ∃ now, now ∈ creations.map Prod.fst ∧
        o.orderNumber = "ORD" ++ toString now ++ padStart3 (toString (i + 1))) := by
  have hstart : orderNumbersInv (creations.map Prod.fst) 0 Store.empty := by
    refine ⟨by simp [Store.empty], ?_⟩
    intro i o hio
    simp [Store.empty] at hio
  obtain ⟨hlen, t2, hnodup, hnum⟩ := createOrders_inv (creations.map Prod.fst) creations
    Store.empty 0 hstart
    (fun c hc => ⟨Nat.zero_le _, List.mem_map_of_mem Prod.fst hc⟩) hclock
  refine ⟨by simpa [Store.empty] using hlen, hnodup, ?_⟩
  intro i o hio
  obtain ⟨now, hmem, _, hnumber⟩ := hnum i o hio
  exact ⟨now, hmem, hnumber⟩

/-- C12 (witness): two orders created at the same clock reading get the numbers
ORD1700000000000001 and ORD1700000000000002. -/
theorem sequential_order_numbers_distinct_witness :
    ((createOrders Store.empty
        [(1700000000000, sampleOrder "pending"), (1700000000000, sampleOrder "pending")]).orders.map
      Order.orderNumber).Nodup ∧
    (createOrders Store.empty
        [(1700000000000, sampleOrder "pending"), (1700000000000, sampleOrder "pending")]).orders.map
      Order.orderNumber = ["ORD1700000000000001", "ORD1700000000000002"] :=
  ⟨(sequential_order_numbers_distinct
      [(1700000000000, sampleOrder "pending"), (1700000000000, sampleOrder "pending")]
      (by simp)).2.1,
   by decide⟩

/-! ## C23: the keys built by generateS3Key -/

/-- C23: generateS3Key returns `products/{name}/{color}/{filename}` when type is the
string product, `collections/{name}/{filename}` when type is the string collection, and
`misc/{filename}` for every other type, where an argument appears as its text in a
template literal (an absent color or filename as `null`); for string arguments these are
the three formats with the strings themselves. The result is a function of the four
arguments: the collection key does not vary with color, the misc key with neither name
nor color. -/
theorem generateS3Key_format (type name color filename : JsValue) :
    (type = JsValue.string "product" →
      generateS3Key type name color filename
        = "products/" ++ templateText name ++ "/" ++ templateText (orNull color) ++ "/" ++
            templateText (orNull filename)) ∧
    (type = JsValue.string "collection" →
      generateS3Key type name color filename
        = "collections/" ++ templateText name ++ "/" ++ templateText (orNull filename)) ∧
    (type ≠ JsValue.string "product" → type ≠ JsValue.string "collection" →
      generateS3Key type name color filename = "misc/" ++ templateText (orNull filename)) ∧
    (∀ n c f : String,
      generateS3Key (JsValue.string "product") (JsValue.string n) (JsValue.string c)
          (JsValue.string f) = "products/" ++ n ++ "/" ++ c ++ "/" ++ f ∧
      generateS3Key (JsValue.string "collection") (JsValue.string n) color (JsValue.string f)
          = "collections/" ++ n ++ "/" ++ f ∧
      (type ≠ JsValue.string "product" → type ≠ JsValue.string "collection" →
        generateS3Key type name color (JsValue.string f) = "misc/" ++ f)) := by
  refine ⟨?_, ?_, ?_, ?_⟩
  · intro h
    simp [generateS3Key, h]
  · intro h
    simp [generateS3Key, h]
  · intro h1 h2
    simp [generateS3Key, h1, h2]
  · intro n c f
    refine ⟨by simp [generateS3Key, templateText, orNull],
      by simp [generateS3Key, templateText, orNull], ?_⟩
    intro h1 h2
    simp [generateS3Key, h1, h2, templateText, orNull]

/-- C23 (witness): the three kinds of key for the shirt image `a.png`. -/
theorem generateS3Key_format_witness :
    generateS3Key (JsValue.string "product") (JsValue.string "shirt") (JsValue.string "red")
        (JsValue.string "a.png") = "products/shirt/red/a.png" ∧
    generateS3Key (JsValue.string "collection") (JsValue.string "summer") JsValue.undefined
        (JsValue.string "a.png") = "collections/summer/a.png" ∧
    generateS3Key JsValue.undefined (JsValue.string "shirt") (JsValue.string "red")
        (JsValue.string "a.png") = "misc/a.png" :=
  ⟨(generateS3Key_format (JsValue.string "product") (JsValue.string "shirt")
      (JsValue.string "red") (JsValue.string "a.png")).1 rfl,
   (generateS3Key_format (JsValue.string "collection") (JsValue.string "summer")
      JsValue.undefined (JsValue.string "a.png")).2.1 rfl,
   (generateS3Key_format JsValue.undefined (JsValue.string "shirt")
      (JsValue.string "red") (JsValue.string "a.png")).2.2.1 (by decide) (by decide)⟩

/-! ## C30: distinct inputs, distinct keys -/

theorem split_at_separator {α : Type} (a : α) :
    ∀ (l1 l2 r1 r2 : List α), a ∉ l1 → a ∉ l2 → l1 ++ a :: r1 = l2 ++ a :: r2 →
      l1 = l2 ∧ r1 = r2 := by
  intro l1
  induction l1 with
  | nil =>
    intro l2 r1 r2 _ h2 heq
    cases l2 with
    | nil => simpa using heq
    | cons y ys =>
      simp only [List.nil_append, List.cons_append, List.cons.injEq] at heq
      exact absurd (by simp [heq.1]) h2
  | cons x xs ih =>
    intro l2 r1 r2 h1 h2 heq
    cases l2 with
    | nil =>
      simp only [List.nil_append, List.cons_append, List.cons.injEq] at heq
      exact absurd (by simp [heq.1]) h1
    | cons y ys =>
      simp only [List.cons_append, List.cons.injEq] at heq
      obtain ⟨h3, h4⟩ := ih ys r1 r2 (fun hm => h1 (List.mem_cons_of_mem x hm))
        (fun hm => h2 (List.mem_cons_of_mem y hm)) heq.2
      exact ⟨by rw [heq.1, h3], h4⟩

theorem generateS3Key_head (type name color filename : JsValue) :
    (generateS3Key type name color filename).data.head?
      = some (if type = JsValue.string "product" then 'p'
              else if type = JsValue.string "collection" then 'c' else 'm') := by
  unfold generateS3Key
  split
  · simp only [String.data_append, List.append_assoc]
    rfl
  · split
    · simp only [String.data_append, List.append_assoc]
      rfl
    · simp only [String.data_append]
      rfl

/-- C30 (counterexample): for type product, an absent name and the string `undefined`
are different inputs without any `/`, with the same color and filename, and they get the
same key; so do an absent color and the string `null`. -/
theorem generateS3Key_absent_name_collides :
    JsValue.undefined ≠ JsValue.string "undefined" ∧
    '/' ∉ (templateText JsValue.undefined).data ∧
    '/' ∉ (templateText (JsValue.string "undefined")).data ∧
    '/' ∉ (templateText (JsValue.string "red")).data ∧
    generateS3Key (JsValue.string "product") JsValue.undefined (JsValue.string "red")
        (JsValue.string "a.png")
      = generateS3Key (JsValue.string "product") (JsValue.string "undefined")
          (JsValue.string "red") (JsValue.string "a.png") ∧
    generateS3Key (JsValue.string "product") (JsValue.string "shirt") JsValue.undefined
        (JsValue.string "a.png")
      = generateS3Key (JsValue.string "product") (JsValue.string "shirt")
          (JsValue.string "null") (JsValue.string "a.png") := by
  decide

/-- C30 (amended): for type product and arguments whose name and color have no `/` in
their text (the text of an absent name is `undefined`, that of an absent color or
filename is `null`), two keys are equal exactly when the texts of name, of color and of
filename are equal; so for string arguments equal keys imply equal name, color and
filename, and two triples of strings that differ in one place get different keys. A key produced for type product is
never a key produced for another type, nor is a key produced for type collection ever a
key produced for a type other than product and collection. -/
theorem generateS3Key_injective :
    (∀ name1 color1 file1 name2 color2 file2 : JsValue,
      '/' ∉ (templateText name1).data → '/' ∉ (templateText (orNull color1)).data →
      '/' ∉ (templateText name2).data → '/' ∉ (templateText (orNull color2)).data →
      (generateS3Key (JsValue.string "product") name1 color1 file1
          = generateS3Key (JsValue.string "product") name2 color2 file2 ↔
        templateText name1 = templateText name2 ∧
        templateText (orNull color1) = templateText (orNull color2) ∧
        templateText (orNull file1) = templateText (orNull file2))) ∧
    (∀ n1 c1 f1 n2 c2 f2 : String,
      '/' ∉ n1.data → '/' ∉ c1.data → '/' ∉ n2.data → '/' ∉ c2.data →
      (generateS3Key (JsValue.string "product") (JsValue.string n1) (JsValue.string c1)
          (JsValue.string f1)
        = generateS3Key (JsValue.string "product") (JsValue.string n2) (JsValue.string c2)
            (JsValue.string f2) →
        n1 = n2 ∧ c1 = c2 ∧ f1 = f2) ∧
      (n1 ≠ n2 ∨ c1 ≠ c2 ∨ f1 ≠ f2 →
        generateS3Key (JsValue.string "product") (JsValue.string n1) (JsValue.string c1)
            (JsValue.string f1)
          ≠ generateS3Key (JsValue.string "product") (JsValue.string n2) (JsValue.string c2)
              (JsValue.string f2))) ∧
    (∀ type name1 color1 file1 name2 color2 file2 : JsValue,
      type ≠ JsValue.string "product" →
      generateS3Key (JsValue.string "product") name1 color1 file1
        ≠ generateS3Key type name2 color2 file2) ∧
    (∀ type name1 color1 file1 name2 color2 file2 : JsValue,
      type ≠ JsValue.string "product" → type ≠ JsValue.string "collection" →
      generateS3Key (JsValue.string "collection") name1 color1 file1
        ≠ generateS3Key type name2 color2 file2) := by
  have htexts : ∀ name1 color1 file1 name2 color2 file2 : JsValue,
      '/' ∉ (templateText name1).data → '/' ∉ (templateText (orNull color1)).data →
      '/' ∉ (templateText name2).data → '/' ∉ (templateText (orNull color2)).data →
      generateS3Key (JsValue.string "product") name1 color1 file1
        = generateS3Key (JsValue.string "product") name2 color2 file2 →
      templateText name1 = templateText name2 ∧
      templateText (orNull color1) = templateText (orNull color2) ∧
      templateText (orNull file1) = templateText (orNull file2) := by
    intro name1 color1 file1 name2 color2 file2 hn1 hc1 hn2 hc2 heq
    have hdata := congrArg String.data heq
    simp only [generateS3Key, if_true, String.data_append, List.append_assoc] at hdata
    have h1 := List.append_cancel_left hdata
    simp only [List.singleton_append] at h1
    obtain ⟨hn, hrest⟩ := split_at_separator '/' _ _ _ _ hn1 hn2 h1
    obtain ⟨hc, hf⟩ := split_at_separator '/' _ _ _ _ hc1 hc2 hrest
    exact ⟨String.ext hn, String.ext hc, String.ext hf⟩
  have hstrings : ∀ n1 c1 f1 n2 c2 f2 : String,
      '/' ∉ n1.data → '/' ∉ c1.data → '/' ∉ n2.data → '/' ∉ c2.data →
      generateS3Key (JsValue.string "product") (JsValue.string n1) (JsValue.string c1)
          (JsValue.string f1)
        = generateS3Key (JsValue.string "product") (JsValue.string n2) (JsValue.string c2)
            (JsValue.string f2) →
      n1 = n2 ∧ c1 = c2 ∧ f1 = f2 := by
    intro n1 c1 f1 n2 c2 f2 hn1 hc1 hn2 hc2 heq
    exact htexts (JsValue.string n1) (JsValue.string c1) (JsValue.string f1)
      (JsValue.string n2) (JsValue.string c2) (JsValue.string f2) hn1 hc1 hn2 hc2 heq
  refine ⟨?_, ?_, ?_, ?_⟩
  · intro name1 color1 file1 name2 color2 file2 hn1 hc1 hn2 hc2
    refine ⟨htexts name1 color1 file1 name2 color2 file2 hn1 hc1 hn2 hc2, ?_⟩
    rintro ⟨h1, h2, h3⟩
    simp only [generateS3Key, if_true, h1, h2, h3]
  · intro n1 c1 f1 n2 c2 f2 hn1 hc1 hn2 hc2
    refine ⟨hstrings n1 c1 f1 n2 c2 f2 hn1 hc1 hn2 hc2, ?_⟩
    intro hdiff heq
    obtain ⟨h1, h2, h3⟩ := hstrings n1 c1 f1 n2 c2 f2 hn1 hc1 hn2 hc2 heq
    rcases hdiff with h | h | h
    · exact h h1
    · exact h h2
    · exact h h3
  · intro type name1 color1 file1 name2 color2 file2 hne heq
    have h := congrArg (fun k => k.data.head?) heq
    simp only [generateS3Key_head, if_true, hne, if_false] at h
    split at h <;> simp at h
  · intro type name1 color1 file1 name2 color2 file2 hne1 hne2 heq
    have h := congrArg (fun k => k.data.head?) heq
    simp [generateS3Key_head, hne1, hne2] at h

/-- C30 (witness): the red and the blue image `a.png` of the shirt get different keys. -/
theorem generateS3Key_injective_witness :
    ('/' ∉ "shirt".data ∧ '/' ∉ "red".data ∧ '/' ∉ "blue".data) ∧
    generateS3Key (JsValue.string "product") (JsValue.string "shirt") (JsValue.string "red")
        (JsValue.string "a.png")
      ≠ generateS3Key (JsValue.string "product") (JsValue.string "shirt")
          (JsValue.string "blue") (JsValue.string "a.png") :=
  ⟨⟨by decide, by decide, by decide⟩,
   (generateS3Key_injective.2.1 "shirt" "red" "a.png" "shirt" "blue" "a.png"
    (by decide) (by decide) (by decide) (by decide)).2 (Or.inr (Or.inl (by decide)))⟩

/-! ## C29: the keys reported by the multiple upload -/

/-- C29 (evaluation at the failing input): one file `a.png` is uploaded for the product
shirt in red; the clock reads 1000 when the loop stores the file and 1001 when the
response is built. The file is stored under `products/shirt/red/1000-a.png`, the response
reports the key `products/shirt/red/1001-a.png`. The single upload with the same
arguments reports the key under which it stored the file. -/
theorem uploadMultiple_reports_other_key :
    (uploadMultiple sampleLocation (JsValue.string "product") (JsValue.string "shirt")
        (JsValue.string "red")
        [{ originalname := "a.png", storedAt := 1000, reportedAt := 1001 }]).1
      = ["products/shirt/red/1000-a.png"] ∧
    (uploadMultiple sampleLocation (JsValue.string "product") (JsValue.string "shirt")
        (JsValue.string "red")
        [{ originalname := "a.png", storedAt := 1000, reportedAt := 1001 }]).2.map
        UploadResult.key = ["products/shirt/red/1001-a.png"] ∧
    (uploadSingle sampleLocation (JsValue.string "product") (JsValue.string "shirt")
        (JsValue.string "red") 1000 "a.png").1
      = (uploadSingle sampleLocation (JsValue.string "product") (JsValue.string "shirt")
          (JsValue.string "red") 1000 "a.png").2.key := by
  decide

/-! ## C21: the product list of a new discount -/

/-- C21 (counterexample): with the shirt (id 1) the only active product, a discount
created without a product list, or with an empty one, is stored with the list [1], not
with the empty list; a product created afterwards (id 3) is not in the stored list. -/
theorem createDiscount_stores_product_snapshot :
    (createDiscount shirtStore 50 saleBody).2 = Response.created ∧
    (createDiscount shirtStore 50 saleBody).1.discounts.map Discount.products = [[1]] ∧
    (createDiscount shirtStore 50 { saleBody with products := some [] }).1.discounts.map
      Discount.products = [[1]] ∧
    (createProduct (createDiscount shirtStore 50 saleBody).1
        { shirtBody 0 with name := some "Trouser" }).1.products.map Product.id = [1, 3] ∧
    (createProduct (createDiscount shirtStore 50 saleBody).1
        { shirtBody 0 with name := some "Trouser" }).1.discounts.map Discount.products
      = [[1]] := by
  decide

/-- C21 (amended): a discount-create request with an empty or absent product list that is
accepted stores one new discount whose `products` list is the ids of the products that
are active at creation time: a frozen list, which is empty only when there is no active
product. A product created afterwards leaves the stored discounts as they are, so it is
not in that list. -/
theorem createDiscount_products_default [CaseMapping] (s : Store) (now : Nat) (b : DiscountBody)
    (hb : b.products = none ∨ b.products = some [])
    (hc : (createDiscount s now b).2 = Response.created) :
    (∃ d : Discount, (createDiscount s now b).1.discounts = s.discounts ++ [d] ∧
      d.products = activeProductIds s.products) ∧
    (∀ pb : ProductBody,
      (createProduct (createDiscount s now b).1 pb).1.discounts
        = (createDiscount s now b).1.discounts) := by
  have happ : applicableProducts s b.products = activeProductIds s.products := by
    rcases hb with h | h <;> simp [applicableProducts, h]
  constructor
  · unfold createDiscount at hc ⊢
    cases hnew : newDiscount s.nextId (applicableProducts s b.products) now b with
    | none => simp [hnew] at hc
    | some d =>
      simp only [hnew] at hc ⊢
      obtain ⟨_, _, _, hp, _⟩ := newDiscount_some _ _ _ _ _ hnew
      split
      · exact ⟨d, rfl, hp.trans happ⟩
      · rename_i hcond
        simp [hcond] at hc
  · intro pb
    unfold createProduct
    split
    · rfl
    · split
      · rfl
      · split <;> rfl

/-- C21 (witness): the sale created in the store that holds the shirt. -/
theorem createDiscount_products_default_witness :
    ∃ d : Discount, (createDiscount shirtStore 50 saleBody).1.discounts
        = shirtStore.discounts ++ [d] ∧
      d.products = activeProductIds shirtStore.products :=
  (createDiscount_products_default shirtStore 50 saleBody (Or.inl rfl) (by decide)).1

/-! ## C22: uniqueness of email and mobile -/

theorem newUser_email [CaseMapping] (id : Id) (b : UserBody) (u : User) (h : newUser id b = some u) :
    b.email.map lower = some u.email := by
  unfold newUser at h
  split at h
  · rename_i name email mobile hname hemail hmobile
    simp only at h
    split at h
    · simp only [Option.some.injEq] at h
      subst h
      exact hemail
    · simp at h
  · simp at h

/-- C22 (counterexample): with Alice stored, the User schema accepts Bob, who has an
email of his own and the mobile number of Alice, so two stored customers share a mobile
number; a user with the email of Alice is refused. -/
theorem user_schema_accepts_duplicate_mobile :
    (createUser customerStore bobBody).map (fun s => s.users.map User.mobile)
      = some ["9876543210", "9876543210"] ∧
    createUser customerStore
      { bobBody with email := some "ALICE@example.com", mobile := some "9123456789" }
      = none := by
  decide

/-- C22 (amended): the User schema's constraints reject storing a user whose email,
lowercased, equals the email of an already stored user, so the emails of the stored users
stay pairwise different; the schema has no such constraint on `mobile` (format check
only), and two stored customers may share a mobile number. -/
theorem createUser_email_unique [CaseMapping] (s s2 : Store) (b : UserBody)
    (h : createUser s b = some s2) :
    ∃ u : User, s2.users = s.users ++ [u] ∧ b.email.map lower = some u.email ∧
      (∀ v ∈ s.users, v.email ≠ u.email) ∧
      ((s.users.map User.email).Nodup → (s2.users.map User.email).Nodup) := by
  unfold createUser at h
  cases hnew : newUser s.nextId b with
  | none => simp [hnew] at h
  | some u =>
    simp only [hnew] at h
    split at h
    · rename_i hfree
      simp only [Option.some.injEq] at h
      subst h
      have hne : ∀ v ∈ s.users, v.email ≠ u.email := by
        intro v hv
        have := List.all_eq_true.mp hfree v hv
        simpa using this
      refine ⟨u, rfl, newUser_email _ _ _ hnew, hne, ?_⟩
      intro hnodup
      simp only [List.map_append, List.map_cons, List.map_nil]
      rw [List.nodup_append]
      refine ⟨hnodup, List.nodup_singleton _, ?_⟩
      intro x hx hx2
      simp only [List.mem_singleton] at hx2
      obtain ⟨v, hv, hvx⟩ := List.mem_map.mp hx
      exact hne v hv (hvx.trans hx2)
    · simp at h

/-- C22 (witness): Bob stored next to Alice. -/
theorem createUser_email_unique_witness :
    ∃ u : User,
      ({ customerStore with
          users := customerStore.users ++
            [{ id := 1, name := "Bob", email := "bob@example.com", mobile := "9876543210",
               role := "customer", address := none, orderHistory := [], isActive := true }],
          nextId := 2 } : Store).users = customerStore.users ++ [u] ∧
      bobBody.email.map lower = some u.email :=
  (createUser_email_unique customerStore
    { customerStore with
        users := customerStore.users ++
          [{ id := 1, name := "Bob", email := "bob@example.com", mobile := "9876543210",
             role := "customer", address := none, orderHistory := [], isActive := true }],
        nextId := 2 }
    bobBody (by decide)).elim (fun u hu => ⟨u, hu.1, hu.2.1⟩)

/-! ## C25: soft delete of coupons and discounts -/

/-- C25: deleting a stored coupon answers with success, keeps the record in place with
isActive = false and every other field as it was, leaves every other coupon in place and
unchanged, and changes no other part of the store; deleting a stored discount does the
same for discounts. -/
theorem soft_delete_coupon_discount (s : Store) (id : Id) :
    (∀ c : Coupon, findById Coupon.id s.coupons id = some c →
      (deleteCoupon s id).2 = Response.ok ∧
      findById Coupon.id (deleteCoupon s id).1.coupons id = some { c with isActive := false } ∧
      (deleteCoupon s id).1.coupons.length = s.coupons.length ∧
      (∀ (i : Nat) (x : Coupon), s.coupons[i]? = some x → x.id ≠ id →
        (deleteCoupon s id).1.coupons[i]? = some x) ∧
      (deleteCoupon s id).1 = { s with coupons := (deleteCoupon s id).1.coupons }) ∧
    (∀ d : Discount, findById Discount.id s.discounts id = some d →
      (deleteDiscount s id).2 = Response.ok ∧
      findById Discount.id (deleteDiscount s id).1.discounts id
        = some { d with isActive := false } ∧
      (deleteDiscount s id).1.discounts.length = s.discounts.length ∧
      (∀ (i : Nat) (x : Discount), s.discounts[i]? = some x → x.id ≠ id →
        (deleteDiscount s id).1.discounts[i]? = some x) ∧
      (deleteDiscount s id).1 = { s with discounts := (deleteDiscount s id).1.discounts }) := by
  constructor
  · intro c hc
    refine ⟨?_, ?_, ?_, ?_, ?_⟩
    · simp [deleteCoupon, hc]
    · simp only [deleteCoupon, hc]
      have h := findById_updateById_same Coupon.id
        (fun x : Coupon => { x with isActive := false }) (fun _ => rfl) s.coupons id
      rw [h, hc]
      rfl
    · simp only [deleteCoupon, hc]
      exact length_updateFirst _ _ _
    · intro i x hx hne
      simp only [deleteCoupon, hc]
      exact getElem?_updateFirst_of_not _ _ _ i x hx (by simpa using hne)
    · simp only [deleteCoupon, hc]
  · intro d hd
    refine ⟨?_, ?_, ?_, ?_, ?_⟩
    · simp [deleteDiscount, hd]
    · simp only [deleteDiscount, hd]
      have h := findById_updateById_same Discount.id
        (fun x : Discount => { x with isActive := false }) (fun _ => rfl) s.discounts id
      rw [h, hd]
      rfl
    · simp only [deleteDiscount, hd]
      exact length_updateFirst _ _ _
    · intro i x hx hne
      simp only [deleteDiscount, hd]
      exact getElem?_updateFirst_of_not _ _ _ i x hx (by simpa using hne)
    · simp only [deleteDiscount, hd]

/-- C25 (witness): SAVE20 and the sale, each deleted from the store that holds it. -/
theorem soft_delete_coupon_discount_witness :
    (deleteCoupon (createCoupon customerStore save20Body).1 1).2 = Response.ok ∧
    (deleteDiscount (createDiscount Store.empty 50 saleBody).1 0).2 = Response.ok :=
  ⟨((soft_delete_coupon_discount (createCoupon customerStore save20Body).1 1).1
      { id := 1, couponCode := "SAVE20", applicable := [0], usedBy := [],
        priceCondition := some { low := some 500, high := none }, reductionPrice := 0,
        reductionPercent := 20, maxUsage := 1, isActive := true,
        expiryDate := 1800000000000 } (by decide)).1,
   ((soft_delete_coupon_discount (createDiscount Store.empty 50 saleBody).1 0).2
      { id := 0, name := "Sale", products := [], discountPercent := 10, isActive := true,
        startDate := 100, endDate := 200, description := none } (by decide)).1⟩

/-! ## C26: operations on an absent id -/

/-- C26 (counterexample): the collection id 99 is absent from the store; a product-create
request that references it is answered 400, not 404. The product id 99 is absent as well;
listing its variants is answered 200 with an empty list. -/
theorem createProduct_absent_collection_is_400 :
    findById Collection.id summerStore.collections 99 = none ∧
    createProduct summerStore (shirtBody 99) = (summerStore, Response.badRequest) ∧
    Response.badRequest ≠ Response.notFound ∧
    findById Product.id summerStore.products 99 = none ∧
    getProductQuantities summerStore 99 = (Response.ok, []) := by
  decide

/-- C26 (amended): every operation that addresses a collection, product, order, coupon,
discount or customer by an id in its path that is absent from the store responds with
status 404 and leaves the store unchanged: get, update and delete of a collection; get,
update, delete and variant upsert of a product; get, status update and cancel of an order;
get, update, delete, toggle and stats of a coupon; get, update, delete and toggle of a
discount; get and status update of a customer. Product creation with an absent collection
id responds with status 400 and leaves the store unchanged. (Listing the variants of an
absent product id is left out of this statement.) -/
theorem absent_id_gives_404 [CaseMapping] (s : Store) (id : Id) :
    (findById Collection.id s.collections id = none →
      (getCollection s id).1 = Response.notFound ∧
      (∀ b, updateCollection s id b = (s, Response.notFound)) ∧
      deleteCollection s id = (s, Response.notFound) ∧
      (∀ b : ProductBody, b.collection = some id →
        createProduct s b = (s, Response.badRequest))) ∧
    (findById Product.id s.products id = none →
      (getProduct s id).1 = Response.notFound ∧
      (∀ b, updateProduct s id b = (s, Response.notFound)) ∧
      deleteProduct s id = (s, Response.notFound) ∧
      (∀ qs, updateProductQuantities s id qs = (s, Response.notFound))) ∧
    (findById Order.id s.orders id = none →
      (getOrder s id).1 = Response.notFound ∧
      (∀ status trackingId, updateOrderStatus s id status trackingId
        = (s, Response.notFound)) ∧
      (∀ now, cancelOrder s now id = (s, Response.notFound))) ∧
    (findById Coupon.id s.coupons id = none →
      (getCoupon s id).1 = Response.notFound ∧
      (∀ b, updateCoupon s id b = (s, Response.notFound)) ∧
      deleteCoupon s id = (s, Response.notFound) ∧
      toggleCoupon s id = (s, Response.notFound) ∧
      (∀ now, getCouponStats s now id = none)) ∧
    (findById Discount.id s.discounts id = none →
      (getDiscount s id).1 = Response.notFound ∧
      (∀ b, updateDiscount s id b = (s, Response.notFound)) ∧
      deleteDiscount s id = (s, Response.notFound) ∧
      toggleDiscount s id = (s, Response.notFound)) ∧
    (findById User.id s.users id = none →
      (getCustomer s id).1 = Response.notFound ∧
      (∀ isActive, updateCustomerStatus s id isActive = (s, Response.notFound))) := by
  refine ⟨?_, ?_, ?_, ?_, ?_, ?_⟩
  · intro h
    refine ⟨by simp [getCollection, h], fun b => by simp [updateCollection, h],
      by simp [deleteCollection, h], ?_⟩
    intro b hb
    simp [createProduct, hb, h]
  · intro h
    exact ⟨by simp [getProduct, h], fun b => by simp [updateProduct, h],
      by simp [deleteProduct, h], fun qs => by simp [updateProductQuantities, h]⟩
  · intro h
    exact ⟨by simp [getOrder, h], fun status trackingId => by simp [updateOrderStatus, h],
      fun now => by simp [cancelOrder, h]⟩
  · intro h
    exact ⟨by simp [getCoupon, h], fun b => by simp [updateCoupon, h],
      by simp [deleteCoupon, h], by simp [toggleCoupon, h],
      fun now => by simp [getCouponStats, h]⟩
  · intro h
    exact ⟨by simp [getDiscount, h], fun b => by simp [updateDiscount, h],
      by simp [deleteDiscount, h], by simp [toggleDiscount, h]⟩
  · intro h
    exact ⟨by simp [getCustomer, h], fun isActive => by simp [updateCustomerStatus, h]⟩

/-- C26 (witness): in the store that holds only Summer (id 0), the id 99 is absent from
every model; deleting the collection, the product and the coupon 99 are answered 404. -/
theorem absent_id_gives_404_witness :
    deleteCollection summerStore 99 = (summerStore, Response.notFound) ∧
    deleteProduct summerStore 99 = (summerStore, Response.notFound) ∧
    cancelOrder summerStore 1700000000000 99 = (summerStore, Response.notFound) ∧
    toggleCoupon summerStore 99 = (summerStore, Response.notFound) ∧
    toggleDiscount summerStore 99 = (summerStore, Response.notFound) ∧
    (getCustomer summerStore 99).1 = Response.notFound :=
  ⟨((absent_id_gives_404 summerStore 99).1 (by decide)).2.2.1,
   ((absent_id_gives_404 summerStore 99).2.1 (by decide)).2.2.1,
   ((absent_id_gives_404 summerStore 99).2.2.1 (by decide)).2.2 1700000000000,
   ((absent_id_gives_404 summerStore 99).2.2.2.1 (by decide)).2.2.2.1,
   ((absent_id_gives_404 summerStore 99).2.2.2.2.1 (by decide)).2.2.2,
   ((absent_id_gives_404 summerStore 99).2.2.2.2.2 (by decide)).1⟩

/-! ## C27: the payload of the add-product form -/

theorem forall_dropWhile_iff {α : Type} (p : α → Bool) (l : List α) :
    (∀ c ∈ l.dropWhile p, p c = true) ↔ ∀ c ∈ l, p c = true := by
  constructor
  · intro h
    induction l with
    | nil => simp
    | cons x xs ih =>
      by_cases hx : p x = true
      · intro c hc
        rcases List.mem_cons.mp hc with hcx | hcxs
        · rw [hcx]
          exact hx
        · exact ih (by simpa [List.dropWhile_cons, hx] using h) c hcxs
      · have hfalse : p x = false := by simpa using hx
        intro c hc
        exact h c (by simpa [List.dropWhile_cons, hfalse] using hc)
  · intro h c hc
    exact h c ((List.dropWhile_sublist p).subset hc)

theorem trimmedTruthy_eq (s : String) : trimmedTruthy s = decide (¬ isBlank s) := by
  have hiff : trimmedTruthy s = false ↔ isBlank s := by
    unfold trimmedTruthy jsTrim isBlank
    simp only [String.length, bne_eq_false_iff_eq, beq_iff_eq, List.length_eq_zero,
      List.reverse_eq_nil_iff, List.dropWhile_eq_nil_iff, List.mem_reverse]
    exact forall_dropWhile_iff isRegexSpace s.data
  by_cases h : isBlank s
  · simp [hiff.mpr h, h]
  · have ht : trimmedTruthy s = true := by
      cases hv : trimmedTruthy s with
      | true => rfl
      | false => exact absurd (hiff.mp hv) h
    simp [ht, h]

theorem cleanedData_eq_spec (data : ProductForm) : cleanedData data = cleanedPayloadSpec data := by
  have hfun : (fun x : String => trimmedTruthy x) = fun x => decide (¬ isBlank x) :=
    funext trimmedTruthy_eq
  have himg : (fun img : ProductImage =>
        trimmedTruthy img.color && img.urls.any (fun url => trimmedTruthy url))
      = fun img => decide (¬ isBlank img.color ∧ ∃ url ∈ img.urls, ¬ isBlank url) := by
    funext img
    rw [hfun, trimmedTruthy_eq]
    by_cases h1 : isBlank img.color
    · simp [h1]
    · by_cases h2 : ∃ url ∈ img.urls, ¬ isBlank url
      · simp [h1, h2]
      · have h3 : ∀ url ∈ img.urls, isBlank url := by
          intro url hurl
          by_contra hn
          exact h2 ⟨url, hurl, hn⟩
        simp [h1, h2]
        exact h3
  unfold cleanedData cleanedPayloadSpec
  rw [himg, hfun]

theorem cleanedPayloadSpec_idempotent (data : ProductForm) :
    cleanedPayloadSpec (cleanedPayloadSpec data) = cleanedPayloadSpec data := by
  have hkeep : ∀ img : ProductImage,
      (¬ isBlank img.color ∧ ∃ url ∈ img.urls, ¬ isBlank url) →
      ∃ url ∈ img.urls.filter (fun url => decide (¬ isBlank url)), ¬ isBlank url := by
    rintro img ⟨_, url, hurl, hnb⟩
    exact ⟨url, List.mem_filter.mpr ⟨hurl, by simpa using hnb⟩, hnb⟩
  have himages :
      ((((data.images.filter (fun img =>
          decide (¬ isBlank img.color ∧ ∃ url ∈ img.urls, ¬ isBlank url))).map
        (fun img : ProductImage =>
          ({ color := img.color,
             urls := img.urls.filter (fun url => decide (¬ isBlank url)) } : ProductImage))).filter
        (fun img => decide (¬ isBlank img.color ∧ ∃ url ∈ img.urls, ¬ isBlank url))).map
        (fun img : ProductImage =>
          ({ color := img.color,
             urls := img.urls.filter (fun url => decide (¬ isBlank url)) } : ProductImage)))
      = (data.images.filter (fun img =>
          decide (¬ isBlank img.color ∧ ∃ url ∈ img.urls, ¬ isBlank url))).map
        (fun img : ProductImage =>
          ({ color := img.color,
             urls := img.urls.filter (fun url => decide (¬ isBlank url)) } : ProductImage)) := by
    rw [List.filter_eq_self.mpr]
    · rw [List.map_map]
      apply List.map_congr_left
      intro img _
      simp [List.filter_filter]
    · intro img himg
      obtain ⟨orig, horig, hmap⟩ := List.mem_map.mp himg
      have hret := of_decide_eq_true (List.mem_filter.mp horig).2
      rw [← hmap]
      exact decide_eq_true ⟨hret.1, hkeep orig hret⟩
  unfold cleanedPayloadSpec
  simp only [List.filter_filter, Bool.and_self]
  simp only [ProductForm.mk.injEq, true_and]
  exact himages

/-- C27: the payload built by onSubmit is the cleaned payload of the claim: it holds no
blank color and no blank size; an image group is kept exactly when its color is not blank
and it has a non-blank URL, with only its non-blank URLs; colors, sizes, image groups and
URLs keep their relative order; all other fields are those of the form; and cleaning a
cleaned payload changes nothing. -/
theorem cleanedData_spec (data : ProductForm) :
    cleanedData data = cleanedPayloadSpec data ∧
    (∀ color ∈ (cleanedData data).availableColors, ¬ isBlank color) ∧
    (∀ size ∈ (cleanedData data).availableSizes, ¬ isBlank size) ∧
    (∀ img ∈ (cleanedData data).images,
      ¬ isBlank img.color ∧ img.urls ≠ [] ∧ ∀ url ∈ img.urls, ¬ isBlank url) ∧
    (∀ img ∈ data.images, (¬ isBlank img.color ∧ ∃ url ∈ img.urls, ¬ isBlank url) →
      ({ color := img.color, urls := img.urls.filter (fun url => decide (¬ isBlank url)) }
        : ProductImage) ∈ (cleanedData data).images) ∧
    (cleanedData data).availableColors.Sublist data.availableColors ∧
    (cleanedData data).availableSizes.Sublist data.availableSizes ∧
    ((cleanedData data).images.map ProductImage.color).Sublist
      (data.images.map ProductImage.color) ∧
    cleanedData (cleanedData data) = cleanedData data := by
  rw [cleanedData_eq_spec]
  refine ⟨rfl, ?_, ?_, ?_, ?_, ?_, ?_, ?_, ?_⟩
  · intro color hc
    exact of_decide_eq_true (List.mem_filter.mp hc).2
  · intro size hs
    exact of_decide_eq_true (List.mem_filter.mp hs).2
  · intro img himg
    obtain ⟨orig, horig, hmap⟩ := List.mem_map.mp himg
    have hret := of_decide_eq_true (List.mem_filter.mp horig).2
    obtain ⟨url, hurl, hnb⟩ := hret.2
    rw [← hmap]
    refine ⟨hret.1, ?_, ?_⟩
    · intro hnil
      have hmem : url ∈ orig.urls.filter (fun url => decide (¬ isBlank url)) :=
        List.mem_filter.mpr ⟨hurl, by simpa using hnb⟩
      simp only at hnil
      rw [hnil] at hmem
      simp at hmem
    · intro u hu
      exact of_decide_eq_true (List.mem_filter.mp hu).2
  · intro img himg hret
    exact List.mem_map.mpr ⟨img, List.mem_filter.mpr ⟨himg, decide_eq_true hret⟩, rfl⟩
  · exact List.filter_sublist _
  · exact List.filter_sublist _
  · have hcolor : (cleanedPayloadSpec data).images.map ProductImage.color
        = (data.images.filter (fun img =>
            decide (¬ isBlank img.color ∧ ∃ url ∈ img.urls, ¬ isBlank url))).map
          ProductImage.color := by
      simp [cleanedPayloadSpec, List.map_map, Function.comp_def]
    rw [hcolor]
    exact (List.filter_sublist _).map _
  · rw [cleanedData_eq_spec]
    exact cleanedPayloadSpec_idempotent data

/-- C27 (witness): the sample form keeps the color red, the size M and the group red with
the URL a.png. -/
theorem cleanedData_spec_witness :
    ¬ isBlank "red" ∧
    (cleanedData sampleForm).availableColors = ["red"] ∧
    (cleanedData sampleForm).images = [{ color := "red", urls := ["a.png"] }] :=
  ⟨(cleanedData_spec sampleForm).2.1 "red" (by decide), by decide, by decide⟩

/-! ## C24: the top-products query -/

theorem groupByProductName_names (items : List OrderItem) :
    (groupByProductName items).map TopProduct.name
      = (items.map OrderItem.productName).dedup := by
  simp [groupByProductName, List.map_map, Function.comp_def]

theorem mem_groupByProductName (items : List OrderItem) (row : TopProduct)
    (h : row ∈ groupByProductName items) :
    (∃ item ∈ items, item.productName = row.name) ∧
    row.totalSold = ((items.filter (fun i => i.productName == row.name)).map
      (fun i => i.quantity)).sum ∧
    row.totalRevenue = ((items.filter (fun i => i.productName == row.name)).map
      (fun i => i.quantity * i.price)).sum := by
  obtain ⟨name, hname, hrow⟩ := List.mem_map.mp h
  have hmem := List.mem_dedup.mp hname
  obtain ⟨item, hitem, hin⟩ := List.mem_map.mp hmem
  subst hrow
  exact ⟨⟨item, hitem, hin⟩, rfl, rfl⟩

/-- C24: for every store, the top-products query returns at most 10 rows with pairwise
different product names, in non-increasing order of totalSold; each row carries the name
of some line item, its totalSold is the sum of the quantities and its totalRevenue the sum
of quantity times price over all line items of all orders with that name; and a product
name of a line item that is missing from the result has a totalSold not larger than that
of any returned row. -/
theorem getTopProducts_spec (s : Store) :
    (getTopProducts s).length ≤ 10 ∧
    ((getTopProducts s).map TopProduct.name).Nodup ∧
    (getTopProducts s).Pairwise (fun a b => b.totalSold ≤ a.totalSold) ∧
    (∀ row ∈ getTopProducts s,
      (∃ item ∈ unwindItems s.orders, item.productName = row.name) ∧
      row.totalSold = (((unwindItems s.orders).filter
        (fun i => i.productName == row.name)).map (fun i => i.quantity)).sum ∧
      row.totalRevenue = (((unwindItems s.orders).filter
        (fun i => i.productName == row.name)).map (fun i => i.quantity * i.price)).sum) ∧
    (∀ item ∈ unwindItems s.orders,
      (∀ row ∈ getTopProducts s, row.name ≠ item.productName) →
      ∀ row ∈ getTopProducts s,
        (((unwindItems s.orders).filter (fun i => i.productName == item.productName)).map
          (fun i => i.quantity)).sum ≤ row.totalSold) := by
  have hperm := List.perm_insertionSort soldAtLeast (groupByProductName (unwindItems s.orders))
  have hsorted : List.Pairwise soldAtLeast
      ((groupByProductName (unwindItems s.orders)).insertionSort soldAtLeast) :=
    List.sorted_insertionSort soldAtLeast (groupByProductName (unwindItems s.orders))
  have hsub : (getTopProducts s).Sublist
      ((groupByProductName (unwindItems s.orders)).insertionSort soldAtLeast) :=
    List.take_sublist 10 _
  have hgroup : ∀ row ∈ getTopProducts s, row ∈ groupByProductName (unwindItems s.orders) :=
    fun row hrow => hperm.mem_iff.mp (hsub.subset hrow)
  refine ⟨?_, ?_, ?_, ?_, ?_⟩
  · exact List.length_take_le 10 _
  · have hnodup : ((groupByProductName (unwindItems s.orders)).map TopProduct.name).Nodup := by
      rw [groupByProductName_names]
      exact List.nodup_dedup _
    have hnodup2 := ((hperm.map TopProduct.name).nodup_iff).mpr hnodup
    exact hnodup2.sublist (hsub.map TopProduct.name)
  · exact hsorted.sublist hsub
  · intro row hrow
    exact mem_groupByProductName _ row (hgroup row hrow)
  · intro item hitem hmissing row hrow
    have hkey : item.productName ∈ ((unwindItems s.orders).map OrderItem.productName).dedup :=
      List.mem_dedup.mpr (List.mem_map_of_mem _ hitem)
    have hg : ({ name := item.productName,
                 totalSold := (((unwindItems s.orders).filter
                   (fun i => i.productName == item.productName)).map
                   (fun i => i.quantity)).sum,
                 totalRevenue := (((unwindItems s.orders).filter
                   (fun i => i.productName == item.productName)).map
                   (fun i => i.quantity * i.price)).sum } : TopProduct)
        ∈ groupByProductName (unwindItems s.orders) :=
      List.mem_map.mpr ⟨item.productName, hkey, rfl⟩
    have hg2 := hperm.mem_iff.mpr hg
    rw [← List.take_append_drop 10
      ((groupByProductName (unwindItems s.orders)).insertionSort soldAtLeast)] at hg2 hsorted
    rcases List.mem_append.mp hg2 with htake | hdrop
    · exact absurd rfl (hmissing _ htake)
    · exact (List.pairwise_append.mp hsorted).2.2 row hrow _ hdrop

/-- C24 (witness): in the sales store Cap (5 sold) comes before Shirt (3 sold). -/
theorem getTopProducts_spec_witness :
    getTopProducts salesStore
      = [{ name := some "Cap", totalSold := 5, totalRevenue := 500 },
         { name := some "Shirt", totalSold := 3, totalRevenue := 3000 }] ∧
    (∃ item ∈ unwindItems salesStore.orders, item.productName = some "Cap") :=
  ⟨by decide,
   ((getTopProducts_spec salesStore).2.2.2.1
      { name := some "Cap", totalSold := 5, totalRevenue := 500 } (by decide)).1⟩

/-! ## C28: the totals of the order statistics -/

theorem sum_map_ite_mem {κ M : Type} [DecidableEq κ] [AddCommMonoid M] (a : κ) (v : M)
    (keys : List κ) (hnodup : keys.Nodup) (hmem : a ∈ keys) :
    (keys.map (fun key => if a = key then v else 0)).sum = v := by
  induction keys with
  | nil => simp at hmem
  | cons k ks ih =>
    have hn : k ∉ ks ∧ ks.Nodup := by simpa using hnodup
    by_cases hak : a = k
    · have hzero : (ks.map (fun key => if a = key then v else 0)).sum = 0 := by
        have hall : ∀ key ∈ ks, (if a = key then v else 0) = 0 := by
          intro key hkey
          have hne : a ≠ key := fun e => hn.1 (hak ▸ e ▸ hkey)
          simp [hne]
        rw [List.map_congr_left hall]
        simp
      rw [List.map_cons, List.sum_cons, if_pos hak, hzero, add_zero]
    · have hin : a ∈ ks := by
        rcases List.mem_cons.mp hmem with h | h
        · exact absurd h hak
        · exact h
      simp [hak, ih hn.2 hin]

/-- Sums over the groups of a list add up to the sum over the list. -/
theorem sum_over_groups {α κ M : Type} [DecidableEq κ] [BEq κ] [LawfulBEq κ]
    [AddCommMonoid M] (k : α → κ)
    (f : α → M) (keys : List κ) (hnodup : keys.Nodup) (l : List α)
    (hall : ∀ x ∈ l, k x ∈ keys) :
    (keys.map (fun key => ((l.filter (fun x => k x == key)).map f).sum)).sum
      = (l.map f).sum := by
  induction l with
  | nil => simp
  | cons x xs ih =>
    have hxs : ∀ y ∈ xs, k y ∈ keys := fun y hy => hall y (List.mem_cons_of_mem x hy)
    have hx : k x ∈ keys := hall x (List.mem_cons_self x xs)
    have hterm : ∀ key, (((x :: xs).filter (fun y => k y == key)).map f).sum
        = (if k x = key then f x else 0) + ((xs.filter (fun y => k y == key)).map f).sum := by
      intro key
      by_cases hk : k x = key
      · simp [List.filter_cons, hk]
      · simp [List.filter_cons, hk]
    simp only [hterm, List.sum_map_add, ih hxs, sum_map_ite_mem (k x) (f x) keys hnodup hx,
      List.map_cons, List.sum_cons]

theorem length_eq_sum_ones {α : Type} (l : List α) : l.length = (l.map (fun _ => 1)).sum := by
  induction l with
  | nil => rfl
  | cons x xs ih =>
    rw [List.length_cons, List.map_cons, List.sum_cons, ← ih]
    omega

theorem count_over_groups {α κ : Type} [DecidableEq κ] [BEq κ] [LawfulBEq κ]
    (k : α → κ) (keys : List κ)
    (hnodup : keys.Nodup) (l : List α) (hall : ∀ x ∈ l, k x ∈ keys) :
    (keys.map (fun key => (l.filter (fun x => k x == key)).length)).sum = l.length := by
  have h := sum_over_groups k (fun _ => (1 : Nat)) keys hnodup l hall
  rw [← length_eq_sum_ones] at h
  rw [← h]
  congr 1
  apply List.map_congr_left
  intro key _
  exact length_eq_sum_ones _

/-- Double additions whose partial sums stay within 2^53 in magnitude are exact. -/
theorem foldl_toDouble_exact (l : List Int) :
    ∀ acc : Int, acc.natAbs + (l.map Int.natAbs).sum ≤ 2 ^ 53 →
      l.foldl (fun total amount => toDouble (total + amount)) acc = acc + l.sum := by
  induction l with
  | nil => intro acc _; simp
  | cons x xs ih =>
    intro acc h
    simp only [List.map_cons, List.sum_cons] at h
    have hstep : (acc + x).natAbs ≤ acc.natAbs + x.natAbs := Int.natAbs_add_le acc x
    simp only [List.foldl_cons, List.sum_cons]
    rw [toDouble_of_natAbs_le (acc + x) (by omega), ih (acc + x) (by omega)]
    omega

theorem sumNumbers_exact (l : List Int) (h : (l.map Int.natAbs).sum ≤ 2 ^ 53) :
    sumNumbers l = l.sum := by
  unfold sumNumbers
  rw [foldl_toDouble_exact l 0 (by simpa using h)]
  simp

theorem sum_natAbs_filter_le {α : Type} (f : α → Int) (p : α → Bool) (l : List α) :
    (((l.filter p).map f).map Int.natAbs).sum ≤ ((l.map f).map Int.natAbs).sum := by
  induction l with
  | nil => simp
  | cons x xs ih =>
    by_cases hp : p x = true
    · simp only [List.filter_cons, hp, if_true, List.map_cons, List.sum_cons]
      omega
    · have hfalse : p x = false := by simpa using hp
      simp only [List.filter_cons, hfalse, Bool.false_eq_true, if_false, List.map_cons,
        List.sum_cons]
      omega

theorem getOrdersStats_totalStats (cal : Calendar) (average : List Int → Rat)
    (createdAt : Order → Int) (s : Store) (now : Int) (period : Option String) :
    (getOrdersStats cal average createdAt s now period).totalStats.totalOrders
      = (s.orders.filter
          (fun o => dateFilter cal now (period.getD "week") (createdAt o))).length ∧
    (getOrdersStats cal average createdAt s now period).totalStats.totalRevenue
      = sumNumbers ((s.orders.filter
          (fun o => dateFilter cal now (period.getD "week") (createdAt o))).map
          Order.finalAmount) := by
  unfold getOrdersStats
  simp only
  cases s.orders.filter (fun o => dateFilter cal now (period.getD "week") (createdAt o)) with
  | nil => simp [sumNumbers]
  | cons o os => simp

/-- C28 (counterexample): six orders in three statuses, each status with one order of
amount 1 and one of amount 2^53, all matched. Each per-status totalAmount is 2^53 (the
double nearest to 2^53 + 1), and these add up to 3 * 2^53, exactly and as doubles, while
totalStats.totalRevenue is 3 * 2^53 + 4 (the double nearest to 3 * 2^53 + 3). -/
theorem getOrdersStats_rounded_sums_differ :
    (getOrdersStats january1970 exactAverage (fun _ => 0) roundingStore 100000000
        (some "all")).ordersByStatus.map StatusGroup.totalAmount
      = [9007199254740992, 9007199254740992, 9007199254740992] ∧
    (getOrdersStats january1970 exactAverage (fun _ => 0) roundingStore 100000000
        (some "all")).totalStats.totalRevenue = 27021597764222980 ∧
    ((getOrdersStats january1970 exactAverage (fun _ => 0) roundingStore 100000000
        (some "all")).ordersByStatus.map StatusGroup.totalAmount).sum
      ≠ (getOrdersStats january1970 exactAverage (fun _ => 0) roundingStore 100000000
          (some "all")).totalStats.totalRevenue ∧
    sumNumbers ((getOrdersStats january1970 exactAverage (fun _ => 0) roundingStore 100000000
        (some "all")).ordersByStatus.map StatusGroup.totalAmount)
      ≠ (getOrdersStats january1970 exactAverage (fun _ => 0) roundingStore 100000000
          (some "all")).totalStats.totalRevenue := by
  decide

/-- C28 (amended): for every store, calendar, clock reading and period, in the order-stats
result the per-status counts and the per-day counts each sum to totalStats.totalOrders;
when the amounts of the matched orders are integers whose magnitudes add up to at most
2^53, no sum is rounded: totalStats.totalRevenue is the sum of the matched amounts, and
the per-status totalAmount values and the per-day revenues each sum to it; and when no
order matches the period totalStats is
`{ totalOrders: 0, totalRevenue: 0, averageOrderValue: 0 }`. -/
theorem getOrdersStats_totals (cal : Calendar) (average : List Int → Rat)
    (createdAt : Order → Int) (s : Store) (now : Int) (period : Option String) :
    ((getOrdersStats cal average createdAt s now period).ordersByStatus.map
        StatusGroup.count).sum
      = (getOrdersStats cal average createdAt s now period).totalStats.totalOrders ∧
    ((getOrdersStats cal average createdAt s now period).dailyOrders.map DayGroup.count).sum
      = (getOrdersStats cal average createdAt s now period).totalStats.totalOrders ∧
    ((((s.orders.filter
          (fun o => dateFilter cal now (period.getD "week") (createdAt o))).map
          Order.finalAmount).map Int.natAbs).sum ≤ 2 ^ 53 →
      (getOrdersStats cal average createdAt s now period).totalStats.totalRevenue
        = ((s.orders.filter
            (fun o => dateFilter cal now (period.getD "week") (createdAt o))).map
            Order.finalAmount).sum ∧
      ((getOrdersStats cal average createdAt s now period).ordersByStatus.map
          StatusGroup.totalAmount).sum
        = (getOrdersStats cal average createdAt s now period).totalStats.totalRevenue ∧
      ((getOrdersStats cal average createdAt s now period).dailyOrders.map
          DayGroup.revenue).sum
        = (getOrdersStats cal average createdAt s now period).totalStats.totalRevenue) ∧
    ((∀ o ∈ s.orders, dateFilter cal now (period.getD "week") (createdAt o) = false) →
      (getOrdersStats cal average createdAt s now period).totalStats
        = { totalOrders := 0, totalRevenue := 0, averageOrderValue := 0 }) := by
  obtain ⟨htotal, hrevenue⟩ := getOrdersStats_totalStats cal average createdAt s now period
  rw [htotal, hrevenue]
  refine ⟨?_, ?_, ?_, ?_⟩
  · simp only [getOrdersStats, List.map_map, Function.comp_def]
    exact count_over_groups Order.status _ (List.nodup_dedup _) _
      (fun o ho => List.mem_dedup.mpr (List.mem_map_of_mem _ ho))
  · simp only [getOrdersStats]
    rw [((List.perm_insertionSort dayNotAfter _).map DayGroup.count).sum_eq]
    simp only [List.map_map, Function.comp_def]
    exact count_over_groups (fun o => cal.dayOf (createdAt o)) _ (List.nodup_dedup _) _
      (fun o ho => List.mem_dedup.mpr
        (List.mem_map_of_mem (fun o => cal.dayOf (createdAt o)) ho))
  · intro hsafe
    have hgroup : ∀ p : Order → Bool,
        sumNumbers (((s.orders.filter
          (fun o => dateFilter cal now (period.getD "week") (createdAt o))).filter p).map
          Order.finalAmount)
        = (((s.orders.filter
          (fun o => dateFilter cal now (period.getD "week") (createdAt o))).filter p).map
          Order.finalAmount).sum := fun p =>
      sumNumbers_exact _ (le_trans (sum_natAbs_filter_le Order.finalAmount p _) hsafe)
    rw [sumNumbers_exact _ hsafe]
    refine ⟨rfl, ?_, ?_⟩
    · simp only [getOrdersStats, List.map_map, Function.comp_def, hgroup]
      exact sum_over_groups Order.status Order.finalAmount _ (List.nodup_dedup _) _
        (fun o ho => List.mem_dedup.mpr (List.mem_map_of_mem _ ho))
    · simp only [getOrdersStats]
      rw [((List.perm_insertionSort dayNotAfter _).map DayGroup.revenue).sum_eq]
      simp only [List.map_map, Function.comp_def, hgroup]
      exact sum_over_groups (fun o => cal.dayOf (createdAt o)) Order.finalAmount _
        (List.nodup_dedup _) _
        (fun o ho => List.mem_dedup.mpr
          (List.mem_map_of_mem (fun o => cal.dayOf (createdAt o)) ho))
  · intro hnone
    have hnil : s.orders.filter
        (fun o => dateFilter cal now (period.getD "week") (createdAt o)) = [] := by
      rw [List.filter_eq_nil_iff]
      intro o ho
      simp [hnone o ho]
    simp only [getOrdersStats, hnil]

/-- C28 (witness): with no stored order the totals are zero; in the sales store, with the
amounts 800 and 500, the per-status amounts add up to the total revenue 1300. -/
theorem getOrdersStats_totals_witness :
    (getOrdersStats january1970 exactAverage (fun o => (o.id : Int) * 86400000 + 5)
        Store.empty 100000000 none).totalStats
      = { totalOrders := 0, totalRevenue := 0, averageOrderValue := 0 } ∧
    (getOrdersStats january1970 exactAverage (fun o => (o.id : Int) * 86400000 + 5)
        salesStore 100000000 none).totalStats.totalRevenue = 1300 ∧
    ((getOrdersStats january1970 exactAverage (fun o => (o.id : Int) * 86400000 + 5)
        salesStore 100000000 none).ordersByStatus.map StatusGroup.totalAmount).sum
      = (getOrdersStats january1970 exactAverage (fun o => (o.id : Int) * 86400000 + 5)
          salesStore 100000000 none).totalStats.totalRevenue :=
  ⟨(getOrdersStats_totals january1970 exactAverage (fun o => (o.id : Int) * 86400000 + 5)
      Store.empty 100000000 none).2.2.2 (by decide),
   ((getOrdersStats_totals january1970 exactAverage (fun o => (o.id : Int) * 86400000 + 5)
      salesStore 100000000 none).2.2.1 (by decide)).1.trans (by decide),
   ((getOrdersStats_totals january1970 exactAverage (fun o => (o.id : Int) * 86400000 + 5)
      salesStore 100000000 none).2.2.1 (by decide)).2.1⟩

end ShoppingApp
